import Mathlib

/-!
Shallow embedding of the anonymous-IRC server (src/server.py, src/config.py).

Connections are identified by a numeric `Cid` allocated at accept time; the
`conns` field of `ServerState` is the heap of all `Client` objects ever
created (Python objects stay referenced by channel member sets, owner sets
and the running read task even after teardown), while `clients` models the
registry set `self.clients`.  Channel objects live only in the channel map
and are referenced by name; client membership sets store channel names and
channel member sets store cids, mirroring the mutual object references of
the source.  `send` is modelled by accumulating `(recipient cid, message)`
pairs; messages are structural, one constructor per send site of the
source.  The random ownership key drawn by CREATE is an explicit `entropy`
parameter of line events.
-/

namespace IRCServer

/-- Connection identifier (stands for a Python `Client` object reference). -/
abbrev Cid := Nat

/-- Values of attributes defined in src/config.py. -/
inductive ConfigVal where
  | bool (b : Bool)
  | str (s : String)
  | nat (n : Nat)
deriving DecidableEq

/-- The module attributes that src/config.py actually defines, with their
values.  Note that ONLY_ADMIN_CHANGE_TOPIC is NOT among them: config.py
only mentions it in a comment, so reading it raises AttributeError. -/
def configAttrs : List (String × ConfigVal) :=
  [("HOST", .str "0.0.0.0"),
   ("PORT", .nat 6667),
   ("SERVER_NAME", .str "KaguyaIRC"),
   ("SERVER_VERSION", .str "0.7.0"),
   ("IS_TESTING", .bool true),
   ("ONLY_ADMIN_CREATE_CHANNEL", .bool false),
   ("OPERATOR_PASSWORD", .str "admin"),
   ("LOG_FILE", .str "irc.log")]

/-- config.SERVER_NAME. -/
def SERVER_NAME : String := "KaguyaIRC"

/-- config.IS_TESTING. -/
def IS_TESTING : Bool := true

/-- config.ONLY_ADMIN_CREATE_CHANNEL. -/
def ONLY_ADMIN_CREATE_CHANNEL : Bool := false

/-- config.OPERATOR_PASSWORD. -/
def OPERATOR_PASSWORD : String := "admin"

/-- Faults a handler can raise (uncaught Python exceptions).
`attributeError` models both the missing config attribute read in
handle_topic and the malformed call of handle_connection as a command
handler; `fuelExhausted` is the artificial out-of-fuel marker of the
join/create mutual recursion and is unreachable from the dispatcher,
which supplies enough fuel for the deepest real call chain. -/
inductive Fault where
  | attributeError
  | fuelExhausted
deriving DecidableEq

set_option maxHeartbeats 3200000 in
/-- One protocol line sent to a client: one constructor per `send` /
`broadcast` site of src/server.py, carrying the dynamic parts of the
corresponding f-string. -/
inductive Msg where
  /-- 421 unknown command (handle_connection). -/
  | unknownCommand (target cmd : String)
  /-- PART broadcast line (disconnect_client and handle_part). -/
  | partNotify (pre chan reason : String)
  /-- 001 welcome (_check_registration). -/
  | welcome (nick : String)
  /-- 002 running version (_check_registration). -/
  | yourHost (nick : String)
  /-- 999 testing-phase note (_check_registration, IS_TESTING). -/
  | testingNote (nick : String)
  /-- 431 no nickname given (handle_nick). -/
  | noNicknameGiven (target : String)
  /-- 433 nickname is already in use (handle_nick). -/
  | nicknameInUse (target newNick : String)
  /-- NICK change notification (handle_nick). -/
  | nickNotify (oldPre newNick : String)
  /-- 461 not enough parameters (shared shape of the 461 sites). -/
  | notEnoughParams (target cmd : String)
  /-- 462 you may not reregister (handle_user). -/
  | mayNotReregister (target : String)
  /-- PONG reply (handle_ping). -/
  | pong (payload : String)
  /-- 451 you have not registered. -/
  | notRegistered (target : String)
  /-- 403 no such channel, must be created by an operator (handle_join). -/
  | mustBeCreatedByOperator (nick chan : String)
  /-- 474 cannot join channel, banned (handle_join; same text for the
  channel-ban and the global-ban case). -/
  | bannedFromChannel (nick chan : String)
  /-- 475 cannot join channel, incorrect password (handle_join). -/
  | badChannelKey (nick chan : String)
  /-- JOIN broadcast line (handle_join). -/
  | joinNotify (pre chan : String)
  /-- 353 names reply (handle_join); carries the member nicknames. -/
  | namesReply (nick chan : String) (nicks : List (Option String))
  /-- 366 end of names (handle_join). -/
  | endOfNames (nick chan : String)
  /-- 442 you are not on that channel (handle_part, handle_topic). -/
  | notOnThatChannel (nick chan : String)
  /-- 404 cannot send to channel (handle_msg). -/
  | cannotSendToChannel (nick target : String)
  /-- 401 no such nick (handle_msg, handle_kick, handle_ban, handle_allban). -/
  | noSuchNick (nick target : String)
  /-- PRIVMSG line (handle_msg). -/
  | privMsg (pre target text : String)
  /-- 481 permission denied, not an IRC operator. -/
  | permissionDenied (nick : String)
  /-- 482 you are not channel operator (handle_topic, kick, ban, unban). -/
  | notChannelOperator (nick chan : String)
  /-- TOPIC change broadcast (handle_topic). -/
  | topicNotify (pre chan topic : String)
  /-- 332 topic reply (handle_topic). -/
  | topicReply (nick chan topic : String)
  /-- 331 no topic is set (handle_topic). -/
  | noTopicSet (nick chan : String)
  /-- 321 list header (handle_list). -/
  | listStart (nick : String)
  /-- 322 list entry (handle_list). -/
  | listEntry (nick chan : String) (users : Nat) (topic : String)
  /-- 322 no channels available variant (handle_list). -/
  | listNoChannels (nick : String)
  /-- 323 end of list (handle_list). -/
  | listEnd (nick : String)
  /-- NOTICE help line (handle_help). -/
  | helpNotice (nick text : String)
  /-- 403 no such channel (handle_topic, channel, kick, ban, unban). -/
  | noSuchChannel (nick chan : String)
  /-- 403 invalid channel name, must start with a hash (handle_create). -/
  | invalidChannelName (nick chan : String)
  /-- 403 channel already exists (handle_create). -/
  | channelAlreadyExists (nick chan : String)
  /-- NOTICE channel created successfully (handle_create). -/
  | channelCreated (nick chan : String)
  /-- NOTICE your ownership key is ... (handle_create). -/
  | ownershipKeyIs (nick chan key : String)
  /-- NOTICE use CHANNEL name key to claim ownership (handle_create). -/
  | useChannelToClaim (nick chan key : String)
  /-- NOTICE ownership key reminder (handle_create, sent four times). -/
  | keyReminder (nick key : String)
  /-- NOTICE you are now an owner (handle_channel). -/
  | nowOwner (nick chan : String)
  /-- 482 incorrect ownership key (handle_channel). -/
  | incorrectOwnershipKey (nick chan : String)
  /-- 441 they are not on that channel (handle_kick). -/
  | cannotKickNotOn (nick target chan : String)
  /-- KICK broadcast line (handle_kick). -/
  | kickNotify (pre chan target reason : String)
  /-- NOTICE banned ip from channel (handle_ban). -/
  | bannedIpNotice (nick ip chan : String)
  /-- NOTICE unbanned ip from channel (handle_unban). -/
  | unbannedIpNotice (nick ip chan : String)
  /-- NOTICE ip is not banned from channel (handle_unban). -/
  | notBannedNotice (nick ip chan : String)
  /-- NOTICE globally banned ip (handle_allban). -/
  | globallyBannedNotice (nick ip : String)
  /-- NOTICE globally unbanned ip (handle_unallban). -/
  | globallyUnbannedNotice (nick ip : String)
  /-- NOTICE ip is not globally banned (handle_unallban). -/
  | notGloballyBannedNotice (nick ip : String)
  /-- NOTICE no IPs are globally banned (handle_listallban). -/
  | noGlobalBans (nick : String)
  /-- NOTICE global ban list header (handle_listallban). -/
  | globalBanHeader (nick : String)
  /-- NOTICE global ban list entry (handle_listallban). -/
  | globalBanEntry (nick ip : String)
  /-- NOTICE global ban list footer (handle_listallban). -/
  | globalBanFooter (nick : String)
  /-- 381 you are now an IRC operator (handle_oper). -/
  | nowOperator (nick : String)
  /-- 464 password incorrect (handle_oper). -/
  | passwordIncorrect (nick : String)

/-- Constructor index of a message (for the decidable-equality
instance). -/
def msgTag : Msg → Nat
  | .unknownCommand _ _ => 0
  | .partNotify _ _ _ => 1
  | .welcome _ => 2
  | .yourHost _ => 3
  | .testingNote _ => 4
  | .noNicknameGiven _ => 5
  | .nicknameInUse _ _ => 6
  | .nickNotify _ _ => 7
  | .notEnoughParams _ _ => 8
  | .mayNotReregister _ => 9
  | .pong _ => 10
  | .notRegistered _ => 11
  | .mustBeCreatedByOperator _ _ => 12
  | .bannedFromChannel _ _ => 13
  | .badChannelKey _ _ => 14
  | .joinNotify _ _ => 15
  | .namesReply _ _ _ => 16
  | .endOfNames _ _ => 17
  | .notOnThatChannel _ _ => 18
  | .cannotSendToChannel _ _ => 19
  | .noSuchNick _ _ => 20
  | .privMsg _ _ _ => 21
  | .permissionDenied _ => 22
  | .notChannelOperator _ _ => 23
  | .topicNotify _ _ _ => 24
  | .topicReply _ _ _ => 25
  | .noTopicSet _ _ => 26
  | .listStart _ => 27
  | .listEntry _ _ _ _ => 28
  | .listNoChannels _ => 29
  | .listEnd _ => 30
  | .helpNotice _ _ => 31
  | .noSuchChannel _ _ => 32
  | .invalidChannelName _ _ => 33
  | .channelAlreadyExists _ _ => 34
  | .channelCreated _ _ => 35
  | .ownershipKeyIs _ _ _ => 36
  | .useChannelToClaim _ _ _ => 37
  | .keyReminder _ _ => 38
  | .nowOwner _ _ => 39
  | .incorrectOwnershipKey _ _ => 40
  | .cannotKickNotOn _ _ _ => 41
  | .kickNotify _ _ _ _ => 42
  | .bannedIpNotice _ _ _ => 43
  | .unbannedIpNotice _ _ _ => 44
  | .notBannedNotice _ _ _ => 45
  | .globallyBannedNotice _ _ => 46
  | .globallyUnbannedNotice _ _ => 47
  | .notGloballyBannedNotice _ _ => 48
  | .noGlobalBans _ => 49
  | .globalBanHeader _ => 50
  | .globalBanEntry _ _ => 51
  | .globalBanFooter _ => 52
  | .nowOperator _ => 53
  | .passwordIncorrect _ => 54

/-- The string fields of a message in declaration order. -/
def msgStrs : Msg → List String
  | .unknownCommand a b => [a, b]
  | .partNotify a b c => [a, b, c]
  | .welcome a => [a]
  | .yourHost a => [a]
  | .testingNote a => [a]
  | .noNicknameGiven a => [a]
  | .nicknameInUse a b => [a, b]
  | .nickNotify a b => [a, b]
  | .notEnoughParams a b => [a, b]
  | .mayNotReregister a => [a]
  | .pong a => [a]
  | .notRegistered a => [a]
  | .mustBeCreatedByOperator a b => [a, b]
  | .bannedFromChannel a b => [a, b]
  | .badChannelKey a b => [a, b]
  | .joinNotify a b => [a, b]
  | .namesReply a b _ => [a, b]
  | .endOfNames a b => [a, b]
  | .notOnThatChannel a b => [a, b]
  | .cannotSendToChannel a b => [a, b]
  | .noSuchNick a b => [a, b]
  | .privMsg a b c => [a, b, c]
  | .permissionDenied a => [a]
  | .notChannelOperator a b => [a, b]
  | .topicNotify a b c => [a, b, c]
  | .topicReply a b c => [a, b, c]
  | .noTopicSet a b => [a, b]
  | .listStart a => [a]
  | .listEntry a b _ c => [a, b, c]
  | .listNoChannels a => [a]
  | .listEnd a => [a]
  | .helpNotice a b => [a, b]
  | .noSuchChannel a b => [a, b]
  | .invalidChannelName a b => [a, b]
  | .channelAlreadyExists a b => [a, b]
  | .channelCreated a b => [a, b]
  | .ownershipKeyIs a b c => [a, b, c]
  | .useChannelToClaim a b c => [a, b, c]
  | .keyReminder a b => [a, b]
  | .nowOwner a b => [a, b]
  | .incorrectOwnershipKey a b => [a, b]
  | .cannotKickNotOn a b c => [a, b, c]
  | .kickNotify a b c d => [a, b, c, d]
  | .bannedIpNotice a b c => [a, b, c]
  | .unbannedIpNotice a b c => [a, b, c]
  | .notBannedNotice a b c => [a, b, c]
  | .globallyBannedNotice a b => [a, b]
  | .globallyUnbannedNotice a b => [a, b]
  | .notGloballyBannedNotice a b => [a, b]
  | .noGlobalBans a => [a]
  | .globalBanHeader a => [a]
  | .globalBanEntry a b => [a, b]
  | .globalBanFooter a => [a]
  | .nowOperator a => [a]
  | .passwordIncorrect a => [a]

/-- The nickname-list field of a message (only the 353 reply has one). -/
def msgNicks : Msg → List (Option String)
  | .namesReply _ _ l => l
  | _ => []

/-- The numeric fields of a message (only the 322 entry has one). -/
def msgNats : Msg → List Nat
  | .listEntry _ _ u _ => [u]
  | _ => []

/-- Decoder for the (tag, strings, nicknames, numbers) encoding; a left
inverse of the four projections above. -/
def msgDec (t : Nat) (ss : List String) (ns : List (Option String))
    (qs : List Nat) : Msg :=
  let s0 := ss.headD ""
  let s1 := ss.getD 1 ""
  let s2 := ss.getD 2 ""
  let s3 := ss.getD 3 ""
  if t = 0 then .unknownCommand s0 s1
  else if t = 1 then .partNotify s0 s1 s2
  else if t = 2 then .welcome s0
  else if t = 3 then .yourHost s0
  else if t = 4 then .testingNote s0
  else if t = 5 then .noNicknameGiven s0
  else if t = 6 then .nicknameInUse s0 s1
  else if t = 7 then .nickNotify s0 s1
  else if t = 8 then .notEnoughParams s0 s1
  else if t = 9 then .mayNotReregister s0
  else if t = 10 then .pong s0
  else if t = 11 then .notRegistered s0
  else if t = 12 then .mustBeCreatedByOperator s0 s1
  else if t = 13 then .bannedFromChannel s0 s1
  else if t = 14 then .badChannelKey s0 s1
  else if t = 15 then .joinNotify s0 s1
  else if t = 16 then .namesReply s0 s1 ns
  else if t = 17 then .endOfNames s0 s1
  else if t = 18 then .notOnThatChannel s0 s1
  else if t = 19 then .cannotSendToChannel s0 s1
  else if t = 20 then .noSuchNick s0 s1
  else if t = 21 then .privMsg s0 s1 s2
  else if t = 22 then .permissionDenied s0
  else if t = 23 then .notChannelOperator s0 s1
  else if t = 24 then .topicNotify s0 s1 s2
  else if t = 25 then .topicReply s0 s1 s2
  else if t = 26 then .noTopicSet s0 s1
  else if t = 27 then .listStart s0
  else if t = 28 then .listEntry s0 s1 (qs.headD 0) s2
  else if t = 29 then .listNoChannels s0
  else if t = 30 then .listEnd s0
  else if t = 31 then .helpNotice s0 s1
  else if t = 32 then .noSuchChannel s0 s1
  else if t = 33 then .invalidChannelName s0 s1
  else if t = 34 then .channelAlreadyExists s0 s1
  else if t = 35 then .channelCreated s0 s1
  else if t = 36 then .ownershipKeyIs s0 s1 s2
  else if t = 37 then .useChannelToClaim s0 s1 s2
  else if t = 38 then .keyReminder s0 s1
  else if t = 39 then .nowOwner s0 s1
  else if t = 40 then .incorrectOwnershipKey s0 s1
  else if t = 41 then .cannotKickNotOn s0 s1 s2
  else if t = 42 then .kickNotify s0 s1 s2 s3
  else if t = 43 then .bannedIpNotice s0 s1 s2
  else if t = 44 then .unbannedIpNotice s0 s1 s2
  else if t = 45 then .notBannedNotice s0 s1 s2
  else if t = 46 then .globallyBannedNotice s0 s1
  else if t = 47 then .globallyUnbannedNotice s0 s1
  else if t = 48 then .notGloballyBannedNotice s0 s1
  else if t = 49 then .noGlobalBans s0
  else if t = 50 then .globalBanHeader s0
  else if t = 51 then .globalBanEntry s0 s1
  else if t = 52 then .globalBanFooter s0
  else if t = 53 then .nowOperator s0
  else .passwordIncorrect s0

theorem msgDec_enc : ∀ m : Msg,
    msgDec (msgTag m) (msgStrs m) (msgNicks m) (msgNats m) = m := by
  intro m
  cases m <;> rfl

theorem msg_enc_inj : ∀ {a b : Msg}, msgTag a = msgTag b → msgStrs a = msgStrs b →
    msgNicks a = msgNicks b → msgNats a = msgNats b → a = b := by
  intro a b ht hs hn hq
  have ha := msgDec_enc a
  rw [ht, hs, hn, hq] at ha
  rw [msgDec_enc b] at ha
  exact ha.symm

instance : DecidableEq Msg := fun a b =>
  decidable_of_iff (msgTag a = msgTag b ∧ msgStrs a = msgStrs b ∧
      msgNicks a = msgNicks b ∧ msgNats a = msgNats b)
    ⟨fun h => msg_enc_inj h.1 h.2.1 h.2.2.1 h.2.2.2,
     fun h => by rw [h]; exact ⟨rfl, rfl, rfl, rfl⟩⟩

/-- A client connection object (class Client of src/server.py). -/
structure Client where
  cid : Cid
  ip : String
  port : Nat
  nickname : Option String := none
  username : Option String := none
  realname : Option String := none
  is_operator : Bool := false
  is_registered : Bool := false
  channels : List String := []
deriving DecidableEq

/-- A channel (class Channel of src/server.py); member sets hold cids. -/
structure Channel where
  name : String
  clients : List Cid := []
  topic : Option String := none
  password : Option String := none
  owner_key : Option String := none
  owners : List Cid := []
  banned_ips : List String := []
deriving DecidableEq

/-- Global server state (class Server of src/server.py) plus the object
heap `conns` and the fresh-cid counter `nextCid`. -/
structure ServerState where
  conns : List Client
  clients : List Cid
  channels : List (String × Channel)
  nicknames : List (String × Cid)
  globally_banned_ips : List String
  nextCid : Cid
deriving DecidableEq

/-- Outputs of one handler run: messages tagged by recipient connection. -/
abbrev Out := List (Cid × Msg)

/-- Handler result: updated state plus emitted messages. -/
abbrev HRes := ServerState × Out

/-- First-match association lookup (Python dict indexing / `in` test). -/
def alookup {β : Type} : List (String × β) → String → Option β
  | [], _ => none
  | p :: l, k => if p.1 = k then some p.2 else alookup l k

/-- Deletion of a dict key (Python `del d[k]`; keys are unique). -/
def aerase {β : Type} (l : List (String × β)) (k : String) : List (String × β) :=
  l.filter (fun p => decide (p.1 ≠ k))

/-- Dict assignment `d[k] = v`: replace the binding in place if the key is
present, else append (Python dicts keep insertion order). -/
def aupsert {β : Type} (l : List (String × β)) (k : String) (v : β) :
    List (String × β) :=
  if (alookup l k).isSome then
    l.map (fun p => if p.1 = k then (k, v) else p)
  else l ++ [(k, v)]

/-- In-place mutation of the object stored under a key (Python code holds a
reference into the dict and mutates the object). -/
def amodify {β : Type} (l : List (String × β)) (k : String) (f : β → β) :
    List (String × β) :=
  l.map (fun p => if p.1 = k then (p.1, f p.2) else p)

/-- Python `set.add`: no-op when already present, else append. -/
def setAdd {α : Type} [DecidableEq α] (a : α) (l : List α) : List α :=
  if a ∈ l then l else l ++ [a]

/-- Python truthiness of an optional string (None and the empty string are
falsy). -/
def truthy? : Option String → Bool
  | some x => !(x == "")
  | none => false

/-- Interpolation of `client.nickname` into an f-string: None prints as
the four-letter word None. -/
def showNick (c : Client) : String := c.nickname.getD "None"

/-- Models `client.nickname or '*'`. -/
def nickOrStar (c : Client) : String :=
  if truthy? c.nickname then c.nickname.getD "" else "*"

/-- Client.get_prefix: `nick!user@ip` once both are set (and truthy), else
the server name. -/
def prefixOf (c : Client) : String :=
  if truthy? c.nickname && truthy? c.username then
    c.nickname.getD "" ++ "!" ++ c.username.getD "" ++ "@" ++ c.ip
  else SERVER_NAME

/-- Python `s.lstrip(rq)` for a colon: drop all leading colons. -/
def stripLeadingColons (x : String) : String :=
  String.mk (x.data.dropWhile (fun ch => ch == ':'))

/-- Python `' '.join(xs)`. -/
def joinSpace : List String → String
  | [] => ""
  | [x] => x
  | x :: y :: xs => x ++ " " ++ joinSpace (y :: xs)

/-- Python `s.strip()`: drop leading and trailing whitespace (the source
only feeds it ASCII protocol lines).  Implemented over the character list
so that it reduces inside the kernel. -/
def pyStrip (x : String) : String :=
  String.mk (((x.data.dropWhile Char.isWhitespace).reverse.dropWhile
    Char.isWhitespace).reverse)

/-- Python `s.upper()` (ASCII). -/
def upperStr (x : String) : String := String.mk (x.data.map Char.toUpper)

/-- Python `s.lower()` (ASCII). -/
def lowerStr (x : String) : String := String.mk (x.data.map Char.toLower)

/-- Python `s.startswith(p)`. -/
def strStarts (x p : String) : Bool := x.data.take p.data.length == p.data

/-- Python `ch in s` for a single character. -/
def strHasChar (x : String) (c : Char) : Bool := x.data.contains c

/-- Accumulator pass behind splitWs: current token collected in reverse. -/
def splitWsAux : List Char → List Char → List String
  | [], acc => if acc.isEmpty then [] else [String.mk acc.reverse]
  | c :: cs, acc =>
    if c.isWhitespace then
      if acc.isEmpty then splitWsAux cs []
      else String.mk acc.reverse :: splitWsAux cs []
    else splitWsAux cs (c :: acc)

/-- Python `s.split()`: split on whitespace runs, no empty tokens. -/
def splitWs (x : String) : List String := splitWsAux x.data []

/-- Python `line.split(rq, 1)` on a space: the first token and the
remainder after the first space. -/
def splitFirstSpace (x : String) : String × String :=
  let cs := x.data
  let hd := cs.takeWhile (fun ch => !(ch == ' '))
  let tl := cs.dropWhile (fun ch => !(ch == ' '))
  (String.mk hd, match tl with | _ :: rest => String.mk rest | [] => "")

/-- Look up a connection object by its reference. -/
def getConn (s : ServerState) (cid : Cid) : Option Client :=
  s.conns.find? (fun c => c.cid == cid)

/-- Mutate the fields of the connection object `cid` in the heap. -/
def updConn (s : ServerState) (cid : Cid) (f : Client → Client) : ServerState :=
  { s with conns := s.conns.map (fun c => if c.cid = cid then f c else c) }

/-- Channel.add_client: adds the client to the channel member set and the
channel to the client's channel set (the channel object is looked up by
name; all call sites pass a channel present in the registry map). -/
def chanAddClient (s : ServerState) (name : String) (cid : Cid) : ServerState :=
  match alookup s.channels name with
  | none => s
  | some _ =>
    let chs := amodify s.channels name (fun ch => { ch with clients := setAdd cid ch.clients })
    let s1 := { s with channels := chs }
    updConn s1 cid (fun c => { c with channels := setAdd name c.channels })

/-- Channel.remove_client: guarded on membership, removes both sides. -/
def chanRemoveClient (s : ServerState) (name : String) (cid : Cid) : ServerState :=
  match alookup s.channels name with
  | none => s
  | some ch =>
    if cid ∈ ch.clients then
      let chs := amodify s.channels name (fun ch => { ch with clients := ch.clients.erase cid })
      let s1 := { s with channels := chs }
      updConn s1 cid (fun c => { c with channels := c.channels.erase name })
    else s

/-- Channel.broadcast: deliver to every current member except the excluded
sender (exclusion compares object references, so `none` excludes nobody). -/
def broadcastCh (s : ServerState) (name : String) (m : Msg) (excl : Option Cid) : Out :=
  match alookup s.channels name with
  | none => []
  | some ch => (ch.clients.filter (fun x => !(some x == excl))).map (fun x => (x, m))

/-- Nicknames of the current members, in member-set order (the 353 reply
joins `[c.nickname for c in channel.clients]`). -/
def memberNicks (s : ServerState) (name : String) : List (Option String) :=
  match alookup s.channels name with
  | none => []
  | some ch => ch.clients.map (fun x => (getConn s x).bind (fun c => c.nickname))

/-- Server.disconnect_client: early return when the client is not in the
registry set; otherwise remove it from every joined channel (broadcasting
a PART per channel to the remaining members, removal first), delete the
nickname-map entry when present, and remove it from the registry set.
Note: no emptied channel is deleted here, and the object keeps its
nickname and flags. -/
def disconnect_client (s : ServerState) (cid : Cid) (reason : String) : HRes :=
  if cid ∈ s.clients then
    match getConn s cid with
    | none => (s, [])
    | some c =>
      let step := fun (acc : HRes) (name : String) =>
        let s' := chanRemoveClient acc.1 name cid
        (s', acc.2 ++ broadcastCh s' name (Msg.partNotify (prefixOf c) name reason) none)
      let r1 := c.channels.foldl step (s, [])
      let s2 :=
        if truthy? c.nickname && (alookup r1.1.nicknames (c.nickname.getD "")).isSome then
          { r1.1 with nicknames := aerase r1.1.nicknames (c.nickname.getD "") }
        else r1.1
      ({ s2 with clients := s2.clients.erase cid }, r1.2)
  else (s, [])

/-- Server._check_registration: when the client is unregistered and both
nickname and username are set (truthy), mark it registered and send the
001/002 welcome pair, plus the 999 testing note when IS_TESTING. -/
def check_registration (s : ServerState) (cid : Cid) : HRes :=
  match getConn s cid with
  | none => (s, [])
  | some c =>
    if !c.is_registered && truthy? c.nickname && truthy? c.username then
      let s' := updConn s cid (fun c => { c with is_registered := true })
      let n := c.nickname.getD ""
      (s', [(cid, Msg.welcome n), (cid, Msg.yourHost n)] ++
        (if IS_TESTING then [(cid, Msg.testingNote n)] else []))
    else (s, [])

/-- Server.handle_nick. -/
def handle_nick (s : ServerState) (cid : Cid) (args : List String) : HRes :=
  match getConn s cid with
  | none => (s, [])
  | some c =>
    match args with
    | [] => (s, [(cid, Msg.noNicknameGiven (nickOrStar c))])
    | newNick :: _ =>
      if (match alookup s.nicknames newNick with
          | some cid' => decide (cid' ≠ cid)
          | none => false) then
        (s, [(cid, Msg.nicknameInUse (nickOrStar c) newNick)])
      else
        let oldPre := prefixOf c
        let s1 :=
          if truthy? c.nickname && (alookup s.nicknames (c.nickname.getD "")).isSome then
            { s with nicknames := aerase s.nicknames (c.nickname.getD "") }
          else s
        let s2 := { s1 with nicknames := aupsert s1.nicknames newNick cid }
        let s3 := updConn s2 cid (fun c => { c with nickname := some newNick })
        let out1 : Out :=
          if c.is_registered then
            (cid, Msg.nickNotify oldPre newNick) ::
              c.channels.foldl
                (fun acc nm => acc ++ broadcastCh s3 nm (Msg.nickNotify oldPre newNick) (some cid))
                []
          else []
        let r := check_registration s3 cid
        (r.1, out1 ++ r.2)

/-- Server.handle_user. -/
def handle_user (s : ServerState) (cid : Cid) (args : List String) : HRes :=
  match getConn s cid with
  | none => (s, [])
  | some c =>
    if args.length < 4 then
      (s, [(cid, Msg.notEnoughParams (nickOrStar c) "USER")])
    else if c.is_registered then
      (s, [(cid, Msg.mayNotReregister (nickOrStar c))])
    else
      let s1 := updConn s cid (fun c =>
        { c with username := some (args.headD ""),
                 realname := some (stripLeadingColons ((args.getD 3 ""))) })
      check_registration s1 cid

/-- Server.handle_ping. -/
def handle_ping (s : ServerState) (cid : Cid) (args : List String) : HRes :=
  (s, [(cid, Msg.pong (args.headD SERVER_NAME))])

/-- Server.handle_quit. -/
def handle_quit (s : ServerState) (cid : Cid) (args : List String) : HRes :=
  disconnect_client s cid (args.headD "Client quit")

/-- Server.handle_part.  Note: no registration check; deletes the channel
when it is emptied and is not the default channel. -/
def handle_part (s : ServerState) (cid : Cid) (args : List String) : HRes :=
  match getConn s cid with
  | none => (s, [])
  | some c =>
    match args with
    | [] => (s, [(cid, Msg.notEnoughParams (showNick c) "PART")])
    | name :: restArgs =>
      let reason := if restArgs.length > 0 then stripLeadingColons (joinSpace restArgs) else "Leaving"
      match alookup s.channels name with
      | none => (s, [(cid, Msg.notOnThatChannel (showNick c) name)])
      | some ch =>
        if cid ∈ ch.clients then
          let out1 := broadcastCh s name (Msg.partNotify (prefixOf c) name reason) none
          let s1 := chanRemoveClient s name cid
          match alookup s1.channels name with
          | none => (s1, out1)
          | some ch1 =>
            if ch1.clients.isEmpty && !(ch1.name == "#global") then
              ({ s1 with channels := aerase s1.channels name }, out1)
            else (s1, out1)
        else (s, [(cid, Msg.notOnThatChannel (showNick c) name)])

/-- Server.handle_msg (the MSG command; channel messages exclude the
sender from the fan-out, private messages go to the mapped session). -/
def handle_msg (s : ServerState) (cid : Cid) (args : List String) : HRes :=
  match getConn s cid with
  | none => (s, [])
  | some c =>
    if !c.is_registered then
      (s, [(cid, Msg.notRegistered (nickOrStar c))])
    else if args.length < 2 then
      (s, [(cid, Msg.notEnoughParams (showNick c) "PRIVMSG")])
    else
      let target := args.headD ""
      let message := stripLeadingColons (joinSpace (args.drop 1))
      let full := Msg.privMsg (prefixOf c) target message
      if strStarts target "#" then
        match alookup s.channels target with
        | none => (s, [(cid, Msg.cannotSendToChannel (showNick c) target)])
        | some ch =>
          if cid ∈ ch.clients then (s, broadcastCh s target full (some cid))
          else (s, [(cid, Msg.cannotSendToChannel (showNick c) target)])
      else
        match alookup s.nicknames target with
        | none => (s, [(cid, Msg.noSuchNick (showNick c) target)])
        | some rcid => (s, [(rcid, full)])

/-- Python truthiness of a config value. -/
def truthyVal : ConfigVal → Bool
  | .bool b => b
  | .str x => !(x == "")
  | .nat n => !(n == 0)

/-- Server.handle_topic.  Its first statement reads
config.ONLY_ADMIN_CHANGE_TOPIC, an attribute that src/config.py does not
define, so every invocation raises AttributeError before anything else;
the rest of the body is translated under the (unreachable) branch in
which the attribute existed. -/
def handle_topic (s : ServerState) (cid : Cid) (args : List String) :
    Except Fault HRes :=
  match alookup configAttrs "ONLY_ADMIN_CHANGE_TOPIC" with
  | none => .error .attributeError
  | some v =>
    match getConn s cid with
    | none => .ok (s, [])
    | some c =>
      if truthyVal v && !c.is_operator then
        .ok (s, [(cid, Msg.permissionDenied (showNick c))])
      else if !c.is_registered then
        .ok (s, [(cid, Msg.notRegistered (nickOrStar c))])
      else match args with
      | [] => .ok (s, [(cid, Msg.notEnoughParams (showNick c) "TOPIC")])
      | name :: restArgs =>
        match alookup s.channels name with
        | none => .ok (s, [(cid, Msg.noSuchChannel (showNick c) name)])
        | some ch =>
          if !(cid ∈ ch.clients) then
            .ok (s, [(cid, Msg.notOnThatChannel (showNick c) name)])
          else if restArgs.length > 0 then
            if !(cid ∈ ch.owners) && !c.is_operator then
              .ok (s, [(cid, Msg.notChannelOperator (showNick c) name)])
            else
              let newTopic := stripLeadingColons (joinSpace restArgs)
              let chs := amodify s.channels name (fun ch => { ch with topic := some newTopic })
              let s1 := { s with channels := chs }
              .ok (s1, broadcastCh s1 name (Msg.topicNotify (prefixOf c) name newTopic) none)
          else
            if truthy? ch.topic then
              .ok (s, [(cid, Msg.topicReply (showNick c) name (ch.topic.getD ""))])
            else
              .ok (s, [(cid, Msg.noTopicSet (showNick c) name)])

/-- Server.handle_list. -/
def handle_list (s : ServerState) (cid : Cid) (_args : List String) : HRes :=
  match getConn s cid with
  | none => (s, [])
  | some c =>
    if !c.is_registered then
      (s, [(cid, Msg.notRegistered (nickOrStar c))])
    else
      let entries : Out :=
        if s.channels.isEmpty then [(cid, Msg.listNoChannels (showNick c))]
        else s.channels.foldl (fun acc p =>
          let topicStr := if truthy? p.2.topic then p.2.topic.getD "" else "No topic is set"
          acc ++ [(cid, Msg.listEntry (showNick c) p.1 p.2.clients.length topicStr)]) []
      ((s : ServerState), [(cid, Msg.listStart (showNick c))] ++ entries ++ [(cid, Msg.listEnd (showNick c))])

/-- Help lines available to everyone (handle_help). -/
def helpLinesBase : List String :=
  ["--- 可用命令列表 ---",
   "/NICK <新昵称>                  - 更改你的昵称",
   "/JOIN <#频道名> [密码]          - 加入一个频道",
   "/PART [<#频道名>] [原因]        - 离开当前或指定频道",
   "/MSG <昵称> <消息>              - 向指定用户发送私聊消息",
   "/LIST                           - 列出服务器上所有可用的频道",
   "/QUIT [原因]                    - 断开与服务器的连接",
   "/CHANNEL <#频道名> <密钥>     - 使用密钥获取频道所有权",
   "/TOPIC <#频道名> [话题]         - 查看或设置频道话题",
   "/KICK <#频道名> <用户> [原因]   - 将用户踢出频道 (仅限所有者)",
   "/BAN <#频道名> <用户>           - 封禁用户IP (仅限所有者)",
   "/UNBAN <#频道名> <IP>           - 解封IP (仅限所有者)"]

/-- Help lines appended for operators (handle_help). -/
def helpLinesOper : List String :=
  ["--- 管理员命令 ---",
   "/CREATE <#频道名> [密码]        - 创建一个新的频道",
   "/ALLBAN <用户/IP>              - 全局封禁用户IP",
   "/UNALLBAN <IP>                 - 全局解封IP",
   "/LISTALLBAN                    - 查看全局封禁列表"]

/-- Server.handle_help. -/
def handle_help (s : ServerState) (cid : Cid) (_args : List String) : HRes :=
  match getConn s cid with
  | none => (s, [])
  | some c =>
    if !c.is_registered then
      (s, [(cid, Msg.notRegistered (nickOrStar c))])
    else
      let lines := helpLinesBase ++ (if c.is_operator then helpLinesOper else []) ++
        ["--- END OF HELP ---"]
      (s, lines.map (fun t => (cid, Msg.helpNotice (showNick c) t)))

/-- Server.handle_channel: grants channel ownership iff the presented key
equals the channel's ownership key.  Note: no registration check. -/
def handle_channel (s : ServerState) (cid : Cid) (args : List String) : HRes :=
  match getConn s cid with
  | none => (s, [])
  | some c =>
    match args with
    | name :: key :: _ =>
      match alookup s.channels name with
      | none => (s, [(cid, Msg.noSuchChannel (showNick c) name)])
      | some ch =>
        if ch.owner_key == some key then
          let chs := amodify s.channels name (fun ch => { ch with owners := setAdd cid ch.owners })
          ({ s with channels := chs }, [(cid, Msg.nowOwner (showNick c) name)])
        else (s, [(cid, Msg.incorrectOwnershipKey (showNick c) name)])
    | _ => (s, [(cid, Msg.notEnoughParams (showNick c) "CHANNEL")])

/-- Server.handle_kick.  Broadcast precedes removal; the emptied channel
is never deleted here.  Note: no registration check. -/
def handle_kick (s : ServerState) (cid : Cid) (args : List String) : HRes :=
  match getConn s cid with
  | none => (s, [])
  | some c =>
    match args with
    | name :: target :: restArgs =>
      let reason := if restArgs.length > 0 then stripLeadingColons (joinSpace restArgs)
        else "Kicked by operator"
      match alookup s.channels name with
      | none => (s, [(cid, Msg.noSuchChannel (showNick c) name)])
      | some ch =>
        if !(cid ∈ ch.owners) && !c.is_operator then
          (s, [(cid, Msg.notChannelOperator (showNick c) name)])
        else match alookup s.nicknames target with
        | none => (s, [(cid, Msg.noSuchNick (showNick c) target)])
        | some tcid =>
          if !(tcid ∈ ch.clients) then
            (s, [(cid, Msg.cannotKickNotOn (showNick c) target name)])
          else
            let out1 := broadcastCh s name (Msg.kickNotify (prefixOf c) name target reason) none
            (chanRemoveClient s name tcid, out1)
    | _ => (s, [(cid, Msg.notEnoughParams (showNick c) "KICK")])

/-- Server.handle_ban: records the target's address in the channel ban
set, then kick-bans when the target is currently a member.  Note: no
registration check. -/
def handle_ban (s : ServerState) (cid : Cid) (args : List String) : HRes :=
  match getConn s cid with
  | none => (s, [])
  | some c =>
    match args with
    | name :: target :: _ =>
      match alookup s.channels name with
      | none => (s, [(cid, Msg.noSuchChannel (showNick c) name)])
      | some ch =>
        if !(cid ∈ ch.owners) && !c.is_operator then
          (s, [(cid, Msg.notChannelOperator (showNick c) name)])
        else match alookup s.nicknames target with
        | none => (s, [(cid, Msg.noSuchNick (showNick c) target)])
        | some tcid =>
          let tip := ((getConn s tcid).map (fun t => t.ip)).getD ""
          let chs := amodify s.channels name (fun ch => { ch with banned_ips := setAdd tip ch.banned_ips })
          let s1 := { s with channels := chs }
          let out1 : Out := [(cid, Msg.bannedIpNotice (showNick c) tip name)]
          if tcid ∈ ch.clients then
            let r := handle_kick s1 cid [name, target, "Banned"]
            (r.1, out1 ++ r.2)
          else (s1, out1)
    | _ => (s, [(cid, Msg.notEnoughParams (showNick c) "BAN")])

/-- Server.handle_unban.  Note: no registration check. -/
def handle_unban (s : ServerState) (cid : Cid) (args : List String) : HRes :=
  match getConn s cid with
  | none => (s, [])
  | some c =>
    match args with
    | name :: tip :: _ =>
      match alookup s.channels name with
      | none => (s, [(cid, Msg.noSuchChannel (showNick c) name)])
      | some ch =>
        if !(cid ∈ ch.owners) && !c.is_operator then
          (s, [(cid, Msg.notChannelOperator (showNick c) name)])
        else if tip ∈ ch.banned_ips then
          let chs := amodify s.channels name (fun ch => { ch with banned_ips := ch.banned_ips.erase tip })
          ({ s with channels := chs }, [(cid, Msg.unbannedIpNotice (showNick c) tip name)])
        else (s, [(cid, Msg.notBannedNotice (showNick c) tip name)])
    | _ => (s, [(cid, Msg.notEnoughParams (showNick c) "UNBAN")])

/-- Server.handle_allban: operator only; resolves a nickname to its
address when the argument does not look like an address, adds it to the
global ban set, and kicks every connected session with that address out
of every channel it occupies (passing the session's nickname to
handle_kick; an unnamed session prints as None there, but an unnamed
session is never a channel member). -/
def handle_allban (s : ServerState) (cid : Cid) (args : List String) : HRes :=
  match getConn s cid with
  | none => (s, [])
  | some c =>
    if !c.is_operator then
      (s, [(cid, Msg.permissionDenied (showNick c))])
    else match args with
    | [] => (s, [(cid, Msg.notEnoughParams (showNick c) "ALLBAN")])
    | target :: _ =>
      let tip? : Option String :=
        if strHasChar target '.' || strHasChar target ':' then some target
        else match alookup s.nicknames target with
          | some tcid => some (((getConn s tcid).map (fun t => t.ip)).getD "")
          | none => none
      match tip? with
      | none => (s, [(cid, Msg.noSuchNick (showNick c) target)])
      | some tip =>
        let s1 := { s with globally_banned_ips := setAdd tip s.globally_banned_ips }
        let out1 : Out := [(cid, Msg.globallyBannedNotice (showNick c) tip)]
        let step := fun (acc : HRes) (ucid : Cid) =>
          match getConn acc.1 ucid with
          | none => acc
          | some u =>
            if u.ip == tip then
              u.channels.foldl (fun acc2 nm =>
                let r := handle_kick acc2.1 cid [nm, showNick u, "Globally Banned"]
                (r.1, acc2.2 ++ r.2)) acc
            else acc
        s1.clients.foldl step (s1, out1)

/-- Server.handle_unallban: operator only. -/
def handle_unallban (s : ServerState) (cid : Cid) (args : List String) : HRes :=
  match getConn s cid with
  | none => (s, [])
  | some c =>
    if !c.is_operator then
      (s, [(cid, Msg.permissionDenied (showNick c))])
    else match args with
    | [] => (s, [(cid, Msg.notEnoughParams (showNick c) "UNALLBAN")])
    | tip :: _ =>
      if tip ∈ s.globally_banned_ips then
        ({ s with globally_banned_ips := s.globally_banned_ips.erase tip },
         [(cid, Msg.globallyUnbannedNotice (showNick c) tip)])
      else (s, [(cid, Msg.notGloballyBannedNotice (showNick c) tip)])

/-- Server.handle_listallban: operator only. -/
def handle_listallban (s : ServerState) (cid : Cid) (_args : List String) : HRes :=
  match getConn s cid with
  | none => (s, [])
  | some c =>
    if !c.is_operator then
      (s, [(cid, Msg.permissionDenied (showNick c))])
    else if s.globally_banned_ips.isEmpty then
      (s, [(cid, Msg.noGlobalBans (showNick c))])
    else
      (s, [(cid, Msg.globalBanHeader (showNick c))] ++
        s.globally_banned_ips.map (fun ip => (cid, Msg.globalBanEntry (showNick c) ip)) ++
        [(cid, Msg.globalBanFooter (showNick c))])

/-- Server.handle_oper: grants the operator flag on the shared secret.
Note: no registration check. -/
def handle_oper (s : ServerState) (cid : Cid) (args : List String) : HRes :=
  match getConn s cid with
  | none => (s, [])
  | some c =>
    match args with
    | [] => (s, [(cid, Msg.notEnoughParams (showNick c) "OPER")])
    | password :: _ =>
      if password == OPERATOR_PASSWORD then
        (updConn s cid (fun c => { c with is_operator := true }),
         [(cid, Msg.nowOperator (showNick c))])
      else (s, [(cid, Msg.passwordIncorrect (showNick c))])

/-- Tail of handle_join once all checks pass: add the member, broadcast
the JOIN line to the updated roster (including the joiner), then send the
353 names and 366 end-of-names replies. -/
def joinFinish (s : ServerState) (cid : Cid) (c : Client) (name : String) : HRes :=
  let s1 := chanAddClient s name cid
  (s1, broadcastCh s1 name (Msg.joinNotify (prefixOf c) name) none ++
    [(cid, Msg.namesReply (showNick c) name (memberNicks s1 name)),
     (cid, Msg.endOfNames (showNick c) name)])

mutual

/-- Server.handle_join.  When the channel does not exist and creation is
permitted it defers to handle_create, which re-enters handle_join after
inserting the channel; the fuel bounds that mutual recursion (real depth
is at most join, create, join, so any fuel of at least 3 is enough). -/
def handle_join : Nat → ServerState → Cid → List String → String →
    Except Fault HRes
  | 0, _, _, _, _ => .error .fuelExhausted
  | Nat.succ fuel, s, cid, args, entropy =>
    match getConn s cid with
    | none => .ok (s, [])
    | some c =>
      if !c.is_registered then
        .ok (s, [(cid, Msg.notRegistered (nickOrStar c))])
      else match args with
      | [] => .ok (s, [(cid, Msg.notEnoughParams (nickOrStar c) "JOIN")])
      | name :: restArgs =>
        let key? : Option String := restArgs.head?
        match alookup s.channels name with
        | none =>
          if ONLY_ADMIN_CREATE_CHANNEL && !c.is_operator then
            .ok (s, [(cid, Msg.mustBeCreatedByOperator (showNick c) name)])
          else handle_create fuel s cid args entropy
        | some ch =>
          if c.ip ∈ ch.banned_ips || c.ip ∈ s.globally_banned_ips then
            .ok (s, [(cid, Msg.bannedFromChannel (showNick c) name)])
          else if cid ∈ ch.clients then
            .ok (s, [])
          else if truthy? ch.password then
            if !truthy? key? || !(key?.getD "" == ch.password.getD "") then
              .ok (s, [(cid, Msg.badChannelKey (showNick c) name)])
            else .ok (joinFinish s cid c name)
          else .ok (joinFinish s cid c name)

/-- Server.handle_create: creates the channel with a freshly generated
ownership key (the `entropy` parameter models the 16-character random
token drawn from secrets.choice), auto-joins the creator through
handle_join, then sends the success notice and the key-bearing notices.
Note: no registration check, so an unregistered session still gets the
channel inserted before the inner handle_join refuses it. -/
def handle_create : Nat → ServerState → Cid → List String → String →
    Except Fault HRes
  | 0, _, _, _, _ => .error .fuelExhausted
  | Nat.succ fuel, s, cid, args, entropy =>
    match getConn s cid with
    | none => .ok (s, [])
    | some c =>
      if ONLY_ADMIN_CREATE_CHANNEL && !c.is_operator then
        .ok (s, [(cid, Msg.permissionDenied (showNick c))])
      else match args with
      | [] => .ok (s, [(cid, Msg.notEnoughParams (showNick c) "CREATE")])
      | name :: restArgs =>
        let password? : Option String := restArgs.head?
        if !(strStarts name "#") then
          .ok (s, [(cid, Msg.invalidChannelName (showNick c) name)])
        else if (alookup s.channels name).isSome then
          .ok (s, [(cid, Msg.channelAlreadyExists (showNick c) name)])
        else
          let newCh : Channel :=
            { name := name, owner_key := some entropy,
              password := if truthy? password? then password? else none }
          let s1 := { s with channels := s.channels ++ [(name, newCh)] }
          let joinArgs := if truthy? password? then [name, password?.getD ""] else [name]
          match handle_join fuel s1 cid joinArgs entropy with
          | .error f => .error f
          | .ok r =>
            .ok (r.1, r.2 ++
              [(cid, Msg.channelCreated (showNick c) name),
               (cid, Msg.ownershipKeyIs (showNick c) name entropy),
               (cid, Msg.useChannelToClaim (showNick c) name entropy)] ++
              (List.range 4).map (fun _ => (cid, Msg.keyReminder (showNick c) entropy)))

end

/-- One tag per method of class Server that command dispatch can reach:
`getattr(self, "handle_" + command.lower(), None)` finds exactly the
methods named handle_<something>, which includes handle_connection. -/
inductive Tag where
  | connection | nick | user | ping | quit | join | part | msg | topic
  | list | help | create | channel | kick | ban | unban | allban
  | unallban | listallban | oper
deriving DecidableEq

/-- The attribute table consulted by dispatch: lowercase command token to
handler method.  There is no entry for privmsg — class Server defines
handle_msg but no handle_privmsg. -/
def handlerTable : List (String × Tag) :=
  [("connection", Tag.connection), ("nick", Tag.nick), ("user", Tag.user),
   ("ping", Tag.ping), ("quit", Tag.quit), ("join", Tag.join),
   ("part", Tag.part), ("msg", Tag.msg), ("topic", Tag.topic),
   ("list", Tag.list), ("help", Tag.help), ("create", Tag.create),
   ("channel", Tag.channel), ("kick", Tag.kick), ("ban", Tag.ban),
   ("unban", Tag.unban), ("allban", Tag.allban),
   ("unallban", Tag.unallban), ("listallban", Tag.listallban),
   ("oper", Tag.oper)]

/-- Run the handler behind a tag.  The connection tag models the calling
of handle_connection with (client, args): Client.__init__ then raises
AttributeError on `writer.get_extra_info` before touching server state. -/
def applyTag (t : Tag) (fuel : Nat) (s : ServerState) (cid : Cid)
    (args : List String) (entropy : String) : Except Fault HRes :=
  match t with
  | .connection => .error .attributeError
  | .nick => .ok (handle_nick s cid args)
  | .user => .ok (handle_user s cid args)
  | .ping => .ok (handle_ping s cid args)
  | .quit => .ok (handle_quit s cid args)
  | .join => handle_join fuel s cid args entropy
  | .part => .ok (handle_part s cid args)
  | .msg => .ok (handle_msg s cid args)
  | .topic => handle_topic s cid args
  | .list => .ok (handle_list s cid args)
  | .help => .ok (handle_help s cid args)
  | .create => handle_create fuel s cid args entropy
  | .channel => .ok (handle_channel s cid args)
  | .kick => .ok (handle_kick s cid args)
  | .ban => .ok (handle_ban s cid args)
  | .unban => .ok (handle_unban s cid args)
  | .allban => .ok (handle_allban s cid args)
  | .unallban => .ok (handle_unallban s cid args)
  | .listallban => .ok (handle_listallban s cid args)
  | .oper => .ok (handle_oper s cid args)

/-- The command token of a raw line, as dispatch computes it:
strip the line, take the text before the first space, uppercase it
(for logging and the 421 reply), then lowercase it for the lookup. -/
def tokenOf (raw : String) : String := upperStr (splitFirstSpace (pyStrip raw)).1

/-- The body of the read loop of Server.handle_connection for one raw
line on connection `cid`: skip blank lines, split off the command token,
whitespace-split the argument tail, then dispatch through the attribute
table; an unknown token gets the 421 reply.  A `.error` result is an
exception escaping the handler (not caught by the loop). -/
def processLine (fuel : Nat) (s : ServerState) (cid : Cid) (raw : String)
    (entropy : String) : Except Fault HRes :=
  match getConn s cid with
  | none => .ok (s, [])
  | some c =>
    let line := pyStrip raw
    if line == "" then .ok (s, [])
    else
      let command := upperStr (splitFirstSpace line).1
      let args := splitWs (splitFirstSpace line).2
      match alookup handlerTable (lowerStr command) with
      | none => .ok (s, [(cid, Msg.unknownCommand (nickOrStar c) command)])
      | some t => applyTag t fuel s cid args entropy

/-- Observable events: a new accepted connection, one inbound line on a
connection (with the entropy a CREATE on that line would draw), and the
end of a connection's read loop (EOF or transport error), which runs the
teardown of the `finally` block. -/
inductive Event where
  | accept (ip : String) (port : Nat)
  | line (cid : Cid) (raw : String) (entropy : String)
  | eof (cid : Cid)
deriving DecidableEq

/-- Connection accept: a fresh Client object is created and added to the
registry set. -/
def acceptConn (s : ServerState) (ip : String) (port : Nat) : HRes :=
  let c : Client := { cid := s.nextCid, ip := ip, port := port }
  ({ s with conns := s.conns ++ [c],
            clients := setAdd s.nextCid s.clients,
            nextCid := s.nextCid + 1 }, [])

/-- Fuel passed by the dispatcher: the deepest real chain is
join-create-join, so 3 suffices and the fuelExhausted fault never fires. -/
def dispatchFuel : Nat := 3

/-- One observable step.  A fault escaping a handler leaves the loop; the
`finally` block then runs disconnect_client (both fault sites raise
before mutating any state, so teardown starts from the pre-line state). -/
def stepEvent (s : ServerState) (e : Event) : HRes :=
  match e with
  | .accept ip port => acceptConn s ip port
  | .line cid raw entropy =>
    match processLine dispatchFuel s cid raw entropy with
    | .ok r => r
    | .error _ => disconnect_client s cid "Connection closed"
  | .eof cid => disconnect_client s cid "Connection closed"

/-- Server.__init__ plus _create_default_channel: empty registry with the
seeded default channel. -/
def initServer : ServerState :=
  { conns := [], clients := [],
    channels := [("#global", { name := "#global", topic := some "默认全局频道" })],
    nicknames := [], globally_banned_ips := [], nextCid := 0 }

/-- Fold a list of events over the state, discarding outputs. -/
def runEvents (s : ServerState) (es : List Event) : ServerState :=
  es.foldl (fun s e => (stepEvent s e).1) s

/-- States the server can be in at an observable instant (between handler
executions), starting from construction. -/
inductive Reachable : ServerState → Prop where
  | init : Reachable initServer
  | step (s : ServerState) (e : Event) : Reachable s → Reachable (stepEvent s e).1

section AssocLemmas

variable {β : Type}

theorem alookup_amodify (l : List (String × β)) (k : String) (f : β → β) (n : String) :
    alookup (amodify l k f) n = if n = k then (alookup l n).map f else alookup l n := by
  induction l with
  | nil => simp [amodify, alookup]
  | cons p l ih =>
    simp only [amodify, List.map_cons]
    by_cases hpn : p.1 = n
    · by_cases hpk : p.1 = k
      · have hnk : n = k := by rw [← hpn, hpk]
        simp [alookup, hpn, hpk, hnk]
      · have hnk : ¬ n = k := by rw [← hpn]; exact hpk
        simp [alookup, hpn, hpk, hnk]
    · by_cases hpk : p.1 = k
      · simp only [if_pos hpk]
        simp only [alookup, if_neg hpn]
        simpa [amodify] using ih
      · simp only [if_neg hpk]
        simp only [alookup, if_neg hpn]
        simpa [amodify] using ih

theorem alookup_aerase (l : List (String × β)) (k : String) (n : String) :
    alookup (aerase l k) n = if n = k then none else alookup l n := by
  induction l with
  | nil => simp [aerase, alookup]
  | cons p l ih =>
    by_cases hpk : p.1 = k
    · have hfilter : aerase (p :: l) k = aerase l k := by
        simp [aerase, List.filter_cons, hpk]
      rw [hfilter, ih]
      by_cases hnk : n = k
      · simp [hnk]
      · have hpn : ¬ p.1 = n := by rw [hpk]; exact fun h => hnk h.symm
        simp [alookup, hpn]
    · have hfilter : aerase (p :: l) k = p :: aerase l k := by
        simp [aerase, List.filter_cons, hpk]
      rw [hfilter]
      by_cases hpn : p.1 = n
      · have hnk : ¬ n = k := by rw [← hpn]; exact hpk
        simp [alookup, hpn, hnk]
      · simp only [alookup, if_neg hpn]
        exact ih

theorem alookup_append (l m : List (String × β)) (n : String) :
    alookup (l ++ m) n = (alookup l n).or (alookup m n) := by
  induction l with
  | nil => simp [alookup]
  | cons p l ih =>
    by_cases hpn : p.1 = n
    · simp [alookup, hpn]
    · simpa [alookup, hpn] using ih

theorem alookup_map_replace (l : List (String × β)) (k : String) (v : β) (n : String) :
    alookup (l.map (fun p => if p.1 = k then (k, v) else p)) n =
      if n = k then (if (alookup l k).isSome then some v else none)
      else alookup l n := by
  induction l with
  | nil => simp [alookup]
  | cons p l ih =>
    simp only [List.map_cons]
    by_cases hpk : p.1 = k
    · simp only [if_pos hpk]
      by_cases hnk : n = k
      · simp [alookup, hnk, hpk]
      · have hpn : ¬ p.1 = n := by rw [hpk]; exact fun h => hnk h.symm
        simp only [alookup, if_neg hnk]
        have h1 : ¬ (k = n) := fun h => hnk h.symm
        simp only [if_neg h1, if_neg hpn]
        rw [ih]
        simp [hnk]
    · simp only [if_neg hpk]
      by_cases hpn : p.1 = n
      · have hnk : ¬ n = k := by rw [← hpn]; exact hpk
        simp [alookup, hpn, hnk]
      · simp only [alookup, if_neg hpn]
        rw [ih]
        by_cases hnk : n = k
        · simp [hnk, alookup, hpk]
        · simp [hnk]

theorem alookup_aupsert (l : List (String × β)) (k : String) (v : β) (n : String) :
    alookup (aupsert l k v) n = if n = k then some v else alookup l n := by
  unfold aupsert
  by_cases hpresent : (alookup l k).isSome
  · rw [if_pos hpresent, alookup_map_replace]
    by_cases hnk : n = k
    · simp [hnk, hpresent]
    · simp [hnk]
  · rw [if_neg hpresent, alookup_append]
    by_cases hnk : n = k
    · subst hnk
      have h := Option.not_isSome_iff_eq_none.mp hpresent
      simp [h, alookup]
    · have hkn : ¬ (k = n) := fun h => hnk h.symm
      simp only [if_neg hnk, alookup, if_neg hkn]
      cases alookup l n <;> simp

theorem alookup_isSome_iff_mem_keys (l : List (String × β)) (n : String) :
    (alookup l n).isSome ↔ n ∈ l.map Prod.fst := by
  induction l with
  | nil => simp [alookup]
  | cons p l ih =>
    by_cases hpn : p.1 = n
    · simp [alookup, hpn]
    · simp only [alookup, if_neg hpn, List.map_cons, List.mem_cons]
      rw [ih]
      constructor
      · exact fun h => Or.inr h
      · rintro (h | h)
        · exact absurd h.symm hpn
        · exact h

theorem mem_of_alookup_eq_some {l : List (String × β)} {n : String} {v : β}
    (h : alookup l n = some v) : (n, v) ∈ l := by
  induction l with
  | nil => simp [alookup] at h
  | cons p l ih =>
    obtain ⟨a, b⟩ := p
    by_cases hpn : a = n
    · have h2 : some b = some v := by simpa [alookup, hpn] using h
      rw [Option.some_inj] at h2
      subst hpn
      subst h2
      exact List.mem_cons_self _ _
    · have h2 : alookup l n = some v := by simpa [alookup, hpn] using h
      exact List.mem_cons_of_mem _ (ih h2)

end AssocLemmas

section SetLemmas

variable {α : Type} [DecidableEq α]

theorem mem_setAdd {a b : α} {l : List α} : a ∈ setAdd b l ↔ a = b ∨ a ∈ l := by
  unfold setAdd
  by_cases hb : b ∈ l
  · simp only [if_pos hb]
    constructor
    · exact Or.inr
    · rintro (rfl | h)
      · exact hb
      · exact h
  · simp [if_neg hb, or_comm]

theorem nodup_setAdd {b : α} {l : List α} (h : l.Nodup) : (setAdd b l).Nodup := by
  unfold setAdd
  by_cases hb : b ∈ l
  · simpa [hb] using h
  · simp only [if_neg hb]
    simpa [List.nodup_append] using ⟨h, hb⟩

end SetLemmas

theorem getConn_updConn (s : ServerState) (cid : Cid) (f : Client → Client)
    (hf : ∀ c, (f c).cid = c.cid) (x : Cid) :
    getConn (updConn s cid f) x =
      (getConn s x).map (fun c => if c.cid = cid then f c else c) := by
  unfold getConn updConn
  rw [List.find?_map]
  have hp : ((fun c : Client => c.cid == x) ∘ fun c => if c.cid = cid then f c else c) =
      (fun c : Client => c.cid == x) := by
    funext c
    by_cases h : c.cid = cid
    · simp [Function.comp, h, hf]
    · simp [Function.comp, h]
  rw [hp]

theorem getConn_mem {s : ServerState} {cid : Cid} {c : Client}
    (h : getConn s cid = some c) : c ∈ s.conns ∧ c.cid = cid := by
  refine ⟨List.mem_of_find?_eq_some h, ?_⟩
  have := List.find?_some h
  simpa using this

/-- The mutual-membership invariant: a connection object is in a channel
member set exactly when the channel is in the connection's channel set. -/
def memberMutual (s : ServerState) : Prop :=
  ∀ c ∈ s.conns, ∀ p ∈ s.channels, (c.cid ∈ p.2.clients ↔ p.1 ∈ c.channels)

/-- Structural well-formedness of a server state: connection ids are below
the allocation counter, channel sets on both sides are duplicate-free and
point at existing channels, channel objects carry their map key as name,
member and owner sets only hold allocated ids, membership is mutually
consistent, and the default channel is present. -/
def Inv (s : ServerState) : Prop :=
  (∀ c ∈ s.conns, c.cid < s.nextCid) ∧
  (∀ c ∈ s.conns, c.channels.Nodup) ∧
  (∀ c ∈ s.conns, ∀ n ∈ c.channels, (alookup s.channels n).isSome) ∧
  (∀ p ∈ s.channels, p.2.name = p.1) ∧
  (∀ p ∈ s.channels, p.2.clients.Nodup) ∧
  (∀ p ∈ s.channels, ∀ x ∈ p.2.clients, x < s.nextCid) ∧
  (∀ p ∈ s.channels, ∀ x ∈ p.2.owners, x < s.nextCid) ∧
  memberMutual s ∧
  (alookup s.channels "#global").isSome

theorem inv_initServer : Inv initServer := by
  refine ⟨?_, ?_, ?_, ?_, ?_, ?_, ?_, ?_, ?_⟩
  · decide
  · decide
  · decide
  · decide
  · decide
  · decide
  · decide
  · intro c hc
    simp [initServer] at hc
  · decide

theorem isSome_alookup_amodify {β : Type} (l : List (String × β)) (k : String)
    (f : β → β) (n : String) :
    (alookup (amodify l k f) n).isSome = (alookup l n).isSome := by
  rw [alookup_amodify]
  by_cases hn : n = k
  · simp [hn]
  · simp [hn]

theorem inv_updConn (s : ServerState) (cid : Cid) (f : Client → Client)
    (hfc : ∀ c, (f c).cid = c.cid) (hfch : ∀ c, (f c).channels = c.channels)
    (h : Inv s) : Inv (updConn s cid f) := by
  obtain ⟨h1, h2, h3, h4, h5, h6, h7, h8, h9⟩ := h
  have hg : ∀ c : Client, ((if c.cid = cid then f c else c) : Client).cid = c.cid := by
    intro c; by_cases hc : c.cid = cid <;> simp [hc, hfc]
  have hgch : ∀ c : Client, ((if c.cid = cid then f c else c) : Client).channels = c.channels := by
    intro c; by_cases hc : c.cid = cid <;> simp [hc, hfch]
  refine ⟨?_, ?_, ?_, h4, h5, h6, h7, ?_, h9⟩
  · intro c' hc'
    obtain ⟨c, hc, rfl⟩ := List.mem_map.mp hc'
    rw [hg]
    exact h1 c hc
  · intro c' hc'
    obtain ⟨c, hc, rfl⟩ := List.mem_map.mp hc'
    rw [hgch]
    exact h2 c hc
  · intro c' hc' n hn
    obtain ⟨c, hc, rfl⟩ := List.mem_map.mp hc'
    rw [hgch] at hn
    exact h3 c hc n hn
  · intro c' hc' p hp
    obtain ⟨c, hc, rfl⟩ := List.mem_map.mp hc'
    rw [hg, hgch]
    exact h8 c hc p hp

theorem inv_chanAddClient (s : ServerState) (name : String) (cid : Cid) (c0 : Client)
    (hconn : getConn s cid = some c0) (h : Inv s) : Inv (chanAddClient s name cid) := by
  obtain ⟨h1, h2, h3, h4, h5, h6, h7, h8, h9⟩ := h
  have hcid_lt : cid < s.nextCid := by
    obtain ⟨hm, he⟩ := getConn_mem hconn
    exact he ▸ h1 c0 hm
  cases hch : alookup s.channels name with
  | none =>
    unfold chanAddClient
    rw [hch]
    exact ⟨h1, h2, h3, h4, h5, h6, h7, h8, h9⟩
  | some ch0 =>
    have hstate : chanAddClient s name cid =
        { s with
          channels := amodify s.channels name
            (fun ch => { ch with clients := setAdd cid ch.clients }),
          conns := s.conns.map (fun c =>
            if c.cid = cid then { c with channels := setAdd name c.channels } else c) } := by
      unfold chanAddClient
      rw [hch]
      rfl
    rw [hstate]
    have hiso : ∀ n, (alookup (amodify s.channels name
        (fun ch => { ch with clients := setAdd cid ch.clients })) n).isSome =
        (alookup s.channels n).isSome := fun n => isSome_alookup_amodify _ _ _ n
    refine ⟨?_, ?_, ?_, ?_, ?_, ?_, ?_, ?_, ?_⟩
    · intro c' hc'
      obtain ⟨c, hc, rfl⟩ := List.mem_map.mp hc'
      by_cases hcc : c.cid = cid
      · simp only [if_pos hcc]
        exact h1 c hc
      · simp only [if_neg hcc]
        exact h1 c hc
    · intro c' hc'
      obtain ⟨c, hc, rfl⟩ := List.mem_map.mp hc'
      by_cases hcc : c.cid = cid
      · simp only [if_pos hcc]
        exact nodup_setAdd (h2 c hc)
      · simp only [if_neg hcc]
        exact h2 c hc
    · intro c' hc' n hn
      obtain ⟨c, hc, rfl⟩ := List.mem_map.mp hc'
      rw [hiso]
      by_cases hcc : c.cid = cid
      · simp only [if_pos hcc] at hn
        have hn2 : n ∈ setAdd name c.channels := hn
        rcases mem_setAdd.mp hn2 with rfl | hn'
        · rw [hch]; rfl
        · exact h3 c hc n hn'
      · simp only [if_neg hcc] at hn
        exact h3 c hc n hn
    · intro p hp
      obtain ⟨q, hq, rfl⟩ := List.mem_map.mp hp
      by_cases hqn : q.1 = name
      · simp only [if_pos hqn]
        exact h4 q hq
      · simp only [if_neg hqn]
        exact h4 q hq
    · intro p hp
      obtain ⟨q, hq, rfl⟩ := List.mem_map.mp hp
      by_cases hqn : q.1 = name
      · simp only [if_pos hqn]
        exact nodup_setAdd (h5 q hq)
      · simp only [if_neg hqn]
        exact h5 q hq
    · intro p hp x hx
      obtain ⟨q, hq, rfl⟩ := List.mem_map.mp hp
      by_cases hqn : q.1 = name
      · simp only [if_pos hqn] at hx
        have hx2 : x ∈ setAdd cid q.2.clients := hx
        rcases mem_setAdd.mp hx2 with rfl | hx'
        · exact hcid_lt
        · exact h6 q hq x hx'
      · simp only [if_neg hqn] at hx
        exact h6 q hq x hx
    · intro p hp x hx
      obtain ⟨q, hq, rfl⟩ := List.mem_map.mp hp
      by_cases hqn : q.1 = name
      · simp only [if_pos hqn] at hx
        exact h7 q hq x hx
      · simp only [if_neg hqn] at hx
        exact h7 q hq x hx
    · intro c' hc' p hp
      obtain ⟨c, hc, rfl⟩ := List.mem_map.mp hc'
      obtain ⟨q, hq, rfl⟩ := List.mem_map.mp hp
      have hold := h8 c hc q hq
      by_cases hqn : q.1 = name
      · by_cases hcc : c.cid = cid
        · simp only [if_pos hqn, if_pos hcc]
          show c.cid ∈ setAdd cid q.2.clients ↔ q.1 ∈ setAdd name c.channels
          constructor
          · intro _
            exact mem_setAdd.mpr (Or.inl hqn)
          · intro _
            exact mem_setAdd.mpr (Or.inl hcc)
        · simp only [if_pos hqn, if_neg hcc]
          show c.cid ∈ setAdd cid q.2.clients ↔ q.1 ∈ c.channels
          constructor
          · intro hmem
            rcases mem_setAdd.mp hmem with hcd | hmem'
            · exact absurd hcd hcc
            · exact hold.mp hmem'
          · intro hmem
            exact mem_setAdd.mpr (Or.inr (hold.mpr hmem))
      · by_cases hcc : c.cid = cid
        · simp only [if_neg hqn, if_pos hcc]
          show c.cid ∈ q.2.clients ↔ q.1 ∈ setAdd name c.channels
          constructor
          · intro hmem
            exact mem_setAdd.mpr (Or.inr (hold.mp hmem))
          · intro hmem
            rcases mem_setAdd.mp hmem with hq1 | hmem'
            · exact absurd hq1 hqn
            · exact hold.mpr hmem'
        · simp only [if_neg hqn, if_neg hcc]
          exact hold
    · rw [hiso]
      exact h9

theorem inv_chanRemoveClient (s : ServerState) (name : String) (cid : Cid)
    (h : Inv s) : Inv (chanRemoveClient s name cid) := by
  obtain ⟨h1, h2, h3, h4, h5, h6, h7, h8, h9⟩ := h
  cases hch : alookup s.channels name with
  | none =>
    unfold chanRemoveClient
    rw [hch]
    exact ⟨h1, h2, h3, h4, h5, h6, h7, h8, h9⟩
  | some ch0 =>
    by_cases hmem : cid ∈ ch0.clients
    · have hstate : chanRemoveClient s name cid =
          { s with
            channels := amodify s.channels name
              (fun ch => { ch with clients := ch.clients.erase cid }),
            conns := s.conns.map (fun c =>
              if c.cid = cid then { c with channels := c.channels.erase name } else c) } := by
        unfold chanRemoveClient
        rw [hch]
        dsimp only
        rw [if_pos hmem]
        rfl
      rw [hstate]
      have hiso : ∀ n, (alookup (amodify s.channels name
          (fun ch => { ch with clients := ch.clients.erase cid })) n).isSome =
          (alookup s.channels n).isSome := fun n => isSome_alookup_amodify _ _ _ n
      refine ⟨?_, ?_, ?_, ?_, ?_, ?_, ?_, ?_, ?_⟩
      · intro c' hc'
        obtain ⟨c, hc, rfl⟩ := List.mem_map.mp hc'
        by_cases hcc : c.cid = cid
        · simp only [if_pos hcc]
          exact h1 c hc
        · simp only [if_neg hcc]
          exact h1 c hc
      · intro c' hc'
        obtain ⟨c, hc, rfl⟩ := List.mem_map.mp hc'
        by_cases hcc : c.cid = cid
        · simp only [if_pos hcc]
          exact (h2 c hc).erase name
        · simp only [if_neg hcc]
          exact h2 c hc
      · intro c' hc' n hn
        obtain ⟨c, hc, rfl⟩ := List.mem_map.mp hc'
        rw [hiso]
        by_cases hcc : c.cid = cid
        · simp only [if_pos hcc] at hn
          have hn2 : n ∈ c.channels.erase name := hn
          exact h3 c hc n (List.mem_of_mem_erase hn2)
        · simp only [if_neg hcc] at hn
          exact h3 c hc n hn
      · intro p hp
        obtain ⟨q, hq, rfl⟩ := List.mem_map.mp hp
        by_cases hqn : q.1 = name
        · simp only [if_pos hqn]
          exact h4 q hq
        · simp only [if_neg hqn]
          exact h4 q hq
      · intro p hp
        obtain ⟨q, hq, rfl⟩ := List.mem_map.mp hp
        by_cases hqn : q.1 = name
        · simp only [if_pos hqn]
          exact (h5 q hq).erase cid
        · simp only [if_neg hqn]
          exact h5 q hq
      · intro p hp x hx
        obtain ⟨q, hq, rfl⟩ := List.mem_map.mp hp
        by_cases hqn : q.1 = name
        · simp only [if_pos hqn] at hx
          have hx2 : x ∈ q.2.clients.erase cid := hx
          exact h6 q hq x (List.mem_of_mem_erase hx2)
        · simp only [if_neg hqn] at hx
          exact h6 q hq x hx
      · intro p hp x hx
        obtain ⟨q, hq, rfl⟩ := List.mem_map.mp hp
        by_cases hqn : q.1 = name
        · simp only [if_pos hqn] at hx
          exact h7 q hq x hx
        · simp only [if_neg hqn] at hx
          exact h7 q hq x hx
      · intro c' hc' p hp
        obtain ⟨c, hc, rfl⟩ := List.mem_map.mp hc'
        obtain ⟨q, hq, rfl⟩ := List.mem_map.mp hp
        have hold := h8 c hc q hq
        by_cases hqn : q.1 = name
        · by_cases hcc : c.cid = cid
          · simp only [if_pos hqn, if_pos hcc]
            show c.cid ∈ q.2.clients.erase cid ↔ q.1 ∈ c.channels.erase name
            rw [(h5 q hq).mem_erase_iff, (h2 c hc).mem_erase_iff]
            constructor
            · rintro ⟨hne, _⟩
              exact absurd hcc hne
            · rintro ⟨hne, _⟩
              exact absurd hqn hne
          · simp only [if_pos hqn, if_neg hcc]
            show c.cid ∈ q.2.clients.erase cid ↔ q.1 ∈ c.channels
            rw [List.mem_erase_of_ne hcc]
            exact hold
        · by_cases hcc : c.cid = cid
          · simp only [if_neg hqn, if_pos hcc]
            show c.cid ∈ q.2.clients ↔ q.1 ∈ c.channels.erase name
            rw [List.mem_erase_of_ne hqn]
            exact hold
          · simp only [if_neg hqn, if_neg hcc]
            exact hold
      · rw [hiso]
        exact h9
    · have hstate : chanRemoveClient s name cid = s := by
        unfold chanRemoveClient
        rw [hch]
        dsimp only
        rw [if_neg hmem]
      rw [hstate]
      exact ⟨h1, h2, h3, h4, h5, h6, h7, h8, h9⟩

theorem inv_acceptConn (s : ServerState) (ip : String) (port : Nat)
    (h : Inv s) : Inv (acceptConn s ip port).1 := by
  obtain ⟨h1, h2, h3, h4, h5, h6, h7, h8, h9⟩ := h
  refine ⟨?_, ?_, ?_, h4, h5, ?_, ?_, ?_, h9⟩
  · intro c hc
    rcases List.mem_append.mp hc with hc' | hc'
    · exact Nat.lt_succ_of_lt (h1 c hc')
    · rcases List.mem_singleton.mp hc' with rfl
      exact Nat.lt_succ_self _
  · intro c hc
    rcases List.mem_append.mp hc with hc' | hc'
    · exact h2 c hc'
    · rcases List.mem_singleton.mp hc' with rfl
      exact List.nodup_nil
  · intro c hc n hn
    rcases List.mem_append.mp hc with hc' | hc'
    · exact h3 c hc' n hn
    · rcases List.mem_singleton.mp hc' with rfl
      cases hn
  · intro p hp x hx
    exact Nat.lt_succ_of_lt (h6 p hp x hx)
  · intro p hp x hx
    exact Nat.lt_succ_of_lt (h7 p hp x hx)
  · intro c hc p hp
    rcases List.mem_append.mp hc with hc' | hc'
    · exact h8 c hc' p hp
    · rcases List.mem_singleton.mp hc' with rfl
      constructor
      · intro hmem
        exact absurd (h6 p hp _ hmem) (Nat.lt_irrefl _)
      · intro hmem
        cases hmem

theorem inv_insertChannel (s : ServerState) (name : String) (newCh : Channel)
    (hlook : alookup s.channels name = none) (hname : newCh.name = name)
    (hclients : newCh.clients = []) (howners : newCh.owners = [])
    (h : Inv s) : Inv { s with channels := s.channels ++ [(name, newCh)] } := by
  obtain ⟨h1, h2, h3, h4, h5, h6, h7, h8, h9⟩ := h
  refine ⟨h1, h2, ?_, ?_, ?_, ?_, ?_, ?_, ?_⟩
  · intro c hc n hn
    obtain ⟨v, hv⟩ := Option.isSome_iff_exists.mp (h3 c hc n hn)
    rw [alookup_append, hv]
    rfl
  · intro p hp
    rcases List.mem_append.mp hp with hp' | hp'
    · exact h4 p hp'
    · rcases List.mem_singleton.mp hp' with rfl
      exact hname
  · intro p hp
    rcases List.mem_append.mp hp with hp' | hp'
    · exact h5 p hp'
    · rcases List.mem_singleton.mp hp' with rfl
      rw [show ((name, newCh) : String × Channel).2.clients = newCh.clients from rfl, hclients]
      exact List.nodup_nil
  · intro p hp x hx
    rcases List.mem_append.mp hp with hp' | hp'
    · exact h6 p hp' x hx
    · rcases List.mem_singleton.mp hp' with rfl
      rw [show ((name, newCh) : String × Channel).2.clients = newCh.clients from rfl, hclients] at hx
      cases hx
  · intro p hp x hx
    rcases List.mem_append.mp hp with hp' | hp'
    · exact h7 p hp' x hx
    · rcases List.mem_singleton.mp hp' with rfl
      rw [show ((name, newCh) : String × Channel).2.owners = newCh.owners from rfl, howners] at hx
      cases hx
  · intro c hc p hp
    rcases List.mem_append.mp hp with hp' | hp'
    · exact h8 c hc p hp'
    · rcases List.mem_singleton.mp hp' with rfl
      rw [show ((name, newCh) : String × Channel).2.clients = newCh.clients from rfl, hclients]
      constructor
      · intro hmem
        cases hmem
      · intro hmem
        have := h3 c hc name hmem
        rw [hlook] at this
        cases this
  · obtain ⟨v, hv⟩ := Option.isSome_iff_exists.mp h9
    rw [alookup_append, hv]
    rfl

theorem inv_deleteChannel (s : ServerState) (name : String) (ch0 : Channel)
    (hch : alookup s.channels name = some ch0) (hempty : ch0.clients = [])
    (hng : ¬ name = "#global") (h : Inv s) :
    Inv { s with channels := aerase s.channels name } := by
  obtain ⟨h1, h2, h3, h4, h5, h6, h7, h8, h9⟩ := h
  have hnotref : ∀ c ∈ s.conns, name ∉ c.channels := by
    intro c hc hmem
    have := (h8 c hc (name, ch0) (mem_of_alookup_eq_some hch)).mpr hmem
    rw [hempty] at this
    cases this
  refine ⟨h1, h2, ?_, ?_, ?_, ?_, ?_, ?_, ?_⟩
  · intro c hc n hn
    by_cases hne : n = name
    · exact absurd (hne ▸ hn) (hnotref c hc)
    · rw [alookup_aerase, if_neg hne]
      exact h3 c hc n hn
  · intro p hp
    exact h4 p (List.mem_of_mem_filter hp)
  · intro p hp
    exact h5 p (List.mem_of_mem_filter hp)
  · intro p hp x hx
    exact h6 p (List.mem_of_mem_filter hp) x hx
  · intro p hp x hx
    exact h7 p (List.mem_of_mem_filter hp) x hx
  · intro c hc p hp
    exact h8 c hc p (List.mem_of_mem_filter hp)
  · rw [alookup_aerase, if_neg (fun hgn => hng hgn.symm)]
    exact h9

theorem inv_chanMod (s : ServerState) (name : String) (f : Channel → Channel)
    (hname : ∀ ch, (f ch).name = ch.name) (hcl : ∀ ch, (f ch).clients = ch.clients)
    (how : ∀ ch, (f ch).owners = ch.owners) (h : Inv s) :
    Inv { s with channels := amodify s.channels name f } := by
  obtain ⟨h1, h2, h3, h4, h5, h6, h7, h8, h9⟩ := h
  have hiso : ∀ n, (alookup (amodify s.channels name f) n).isSome =
      (alookup s.channels n).isSome := fun n => isSome_alookup_amodify _ _ _ n
  refine ⟨h1, h2, ?_, ?_, ?_, ?_, ?_, ?_, ?_⟩
  · intro c hc n hn
    rw [hiso]
    exact h3 c hc n hn
  · intro p hp
    obtain ⟨q, hq, rfl⟩ := List.mem_map.mp hp
    by_cases hqn : q.1 = name
    · simp only [if_pos hqn]
      rw [show ((q.1, f q.2) : String × Channel).2.name = (f q.2).name from rfl, hname]
      exact h4 q hq
    · simp only [if_neg hqn]
      exact h4 q hq
  · intro p hp
    obtain ⟨q, hq, rfl⟩ := List.mem_map.mp hp
    by_cases hqn : q.1 = name
    · simp only [if_pos hqn]
      rw [show ((q.1, f q.2) : String × Channel).2.clients = (f q.2).clients from rfl, hcl]
      exact h5 q hq
    · simp only [if_neg hqn]
      exact h5 q hq
  · intro p hp x hx
    obtain ⟨q, hq, rfl⟩ := List.mem_map.mp hp
    by_cases hqn : q.1 = name
    · simp only [if_pos hqn] at hx
      rw [show ((q.1, f q.2) : String × Channel).2.clients = (f q.2).clients from rfl, hcl] at hx
      exact h6 q hq x hx
    · simp only [if_neg hqn] at hx
      exact h6 q hq x hx
  · intro p hp x hx
    obtain ⟨q, hq, rfl⟩ := List.mem_map.mp hp
    by_cases hqn : q.1 = name
    · simp only [if_pos hqn] at hx
      rw [show ((q.1, f q.2) : String × Channel).2.owners = (f q.2).owners from rfl, how] at hx
      exact h7 q hq x hx
    · simp only [if_neg hqn] at hx
      exact h7 q hq x hx
  · intro c hc p hp
    obtain ⟨q, hq, rfl⟩ := List.mem_map.mp hp
    have hold := h8 c hc q hq
    by_cases hqn : q.1 = name
    · simp only [if_pos hqn]
      show c.cid ∈ (f q.2).clients ↔ q.1 ∈ c.channels
      rw [hcl]
      exact hold
    · simp only [if_neg hqn]
      exact hold
  · rw [hiso]
    exact h9

theorem inv_addOwner (s : ServerState) (name : String) (cid : Cid) (c0 : Client)
    (hconn : getConn s cid = some c0) (h : Inv s) :
    Inv { s with channels := amodify s.channels name (fun ch => { ch with owners := setAdd cid ch.owners }) } := by
  have hcid_lt : cid < s.nextCid := by
    obtain ⟨hm, he⟩ := getConn_mem hconn
    obtain ⟨h1, _⟩ := h
    exact he ▸ h1 c0 hm
  obtain ⟨h1, h2, h3, h4, h5, h6, h7, h8, h9⟩ := h
  have hiso : ∀ n, (alookup (amodify s.channels name
      (fun ch => { ch with owners := setAdd cid ch.owners })) n).isSome =
      (alookup s.channels n).isSome := fun n => isSome_alookup_amodify _ _ _ n
  refine ⟨h1, h2, ?_, ?_, ?_, ?_, ?_, ?_, ?_⟩
  · intro c hc n hn
    rw [hiso]
    exact h3 c hc n hn
  · intro p hp
    obtain ⟨q, hq, rfl⟩ := List.mem_map.mp hp
    by_cases hqn : q.1 = name
    · simp only [if_pos hqn]
      exact h4 q hq
    · simp only [if_neg hqn]
      exact h4 q hq
  · intro p hp
    obtain ⟨q, hq, rfl⟩ := List.mem_map.mp hp
    by_cases hqn : q.1 = name
    · simp only [if_pos hqn]
      exact h5 q hq
    · simp only [if_neg hqn]
      exact h5 q hq
  · intro p hp x hx
    obtain ⟨q, hq, rfl⟩ := List.mem_map.mp hp
    by_cases hqn : q.1 = name
    · simp only [if_pos hqn] at hx
      exact h6 q hq x hx
    · simp only [if_neg hqn] at hx
      exact h6 q hq x hx
  · intro p hp x hx
    obtain ⟨q, hq, rfl⟩ := List.mem_map.mp hp
    by_cases hqn : q.1 = name
    · simp only [if_pos hqn] at hx
      have hx2 : x ∈ setAdd cid q.2.owners := hx
      rcases mem_setAdd.mp hx2 with rfl | hx'
      · exact hcid_lt
      · exact h7 q hq x hx'
    · simp only [if_neg hqn] at hx
      exact h7 q hq x hx
  · intro c hc p hp
    obtain ⟨q, hq, rfl⟩ := List.mem_map.mp hp
    have hold := h8 c hc q hq
    by_cases hqn : q.1 = name
    · simp only [if_pos hqn]
      exact hold
    · simp only [if_neg hqn]
      exact hold
  · rw [hiso]
    exact h9

theorem inv_set_nicknames (s : ServerState) (x : List (String × Cid))
    (h : Inv s) : Inv { s with nicknames := x } := h

theorem inv_set_clients (s : ServerState) (x : List Cid)
    (h : Inv s) : Inv { s with clients := x } := h

theorem inv_set_gban (s : ServerState) (x : List String)
    (h : Inv s) : Inv { s with globally_banned_ips := x } := h

theorem foldl_pres {α : Type} (P : ServerState → Prop) (f : HRes → α → HRes)
    (hf : ∀ acc x, P acc.1 → P (f acc x).1) :
    ∀ (l : List α) (acc : HRes), P acc.1 → P (l.foldl f acc).1 := by
  intro l
  induction l with
  | nil => intro acc h; exact h
  | cons x l ih =>
    intro acc h
    exact ih _ (hf acc x h)

theorem handle_ping_state (s : ServerState) (cid : Cid) (args : List String) :
    (handle_ping s cid args).1 = s := rfl

theorem handle_msg_state (s : ServerState) (cid : Cid) (args : List String) :
    (handle_msg s cid args).1 = s := by
  unfold handle_msg
  try dsimp only
  repeat' split
  all_goals rfl

theorem handle_list_state (s : ServerState) (cid : Cid) (args : List String) :
    (handle_list s cid args).1 = s := by
  unfold handle_list
  repeat' split
  all_goals rfl

theorem handle_help_state (s : ServerState) (cid : Cid) (args : List String) :
    (handle_help s cid args).1 = s := by
  unfold handle_help
  repeat' split
  all_goals rfl

theorem handle_listallban_state (s : ServerState) (cid : Cid) (args : List String) :
    (handle_listallban s cid args).1 = s := by
  unfold handle_listallban
  repeat' split
  all_goals rfl

theorem inv_check_registration (s : ServerState) (cid : Cid)
    (h : Inv s) : Inv (check_registration s cid).1 := by
  unfold check_registration
  try dsimp only
  repeat' split
  all_goals first
    | exact h
    | exact inv_updConn _ _ _ (fun c => rfl) (fun c => rfl) h

theorem inv_handle_user (s : ServerState) (cid : Cid) (args : List String)
    (h : Inv s) : Inv (handle_user s cid args).1 := by
  unfold handle_user
  try dsimp only
  repeat' split
  all_goals first
    | exact h
    | exact inv_check_registration _ _ (inv_updConn _ _ _ (fun c => rfl) (fun c => rfl) h)

theorem inv_handle_oper (s : ServerState) (cid : Cid) (args : List String)
    (h : Inv s) : Inv (handle_oper s cid args).1 := by
  unfold handle_oper
  try dsimp only
  repeat' split
  all_goals first
    | exact h
    | exact inv_updConn _ _ _ (fun c => rfl) (fun c => rfl) h

theorem inv_handle_nick (s : ServerState) (cid : Cid) (args : List String)
    (h : Inv s) : Inv (handle_nick s cid args).1 := by
  unfold handle_nick
  try dsimp only
  repeat' split
  all_goals try exact h
  all_goals
    refine inv_check_registration _ _ (inv_updConn _ _ _ (fun c => rfl) (fun c => rfl)
      (inv_set_nicknames _ _ ?_))
  all_goals first
    | exact inv_set_nicknames _ _ h
    | exact h

theorem inv_disconnect (s : ServerState) (cid : Cid) (reason : String)
    (h : Inv s) : Inv (disconnect_client s cid reason).1 := by
  unfold disconnect_client
  split
  · split
    · exact h
    · refine inv_set_clients _ _ ?_
      split
      · refine inv_set_nicknames _ _ ?_
        exact foldl_pres Inv _ (fun acc x hacc => inv_chanRemoveClient _ _ _ hacc) _ _ h
      · exact foldl_pres Inv _ (fun acc x hacc => inv_chanRemoveClient _ _ _ hacc) _ _ h
  · exact h

theorem inv_handle_quit (s : ServerState) (cid : Cid) (args : List String)
    (h : Inv s) : Inv (handle_quit s cid args).1 :=
  inv_disconnect _ _ _ h

theorem inv_handle_part (s : ServerState) (cid : Cid) (args : List String)
    (h : Inv s) : Inv (handle_part s cid args).1 := by
  unfold handle_part
  cases hg : getConn s cid with
  | none => exact h
  | some c =>
    try dsimp only
    cases args with
    | nil => exact h
    | cons name restArgs =>
      try dsimp only
      cases hch : alookup s.channels name with
      | none => exact h
      | some ch =>
        try dsimp only
        by_cases hmem : cid ∈ ch.clients
        · rw [if_pos hmem]
          try dsimp only
          have hs1 : Inv (chanRemoveClient s name cid) := inv_chanRemoveClient _ _ _ h
          cases hch1 : alookup (chanRemoveClient s name cid).channels name with
          | none => exact hs1
          | some ch1 =>
            try dsimp only
            by_cases hcond : (ch1.clients.isEmpty && !(ch1.name == "#global")) = true
            · rw [if_pos hcond]
              obtain ⟨hemp, hng⟩ := Bool.and_eq_true_iff.mp hcond
              have hemp' : ch1.clients = [] := List.isEmpty_iff.mp hemp
              have hng' : ¬ ch1.name = "#global" := by simpa using hng
              have hname : ch1.name = name := by
                obtain ⟨_, _, _, h4, _⟩ := hs1
                exact h4 (name, ch1) (mem_of_alookup_eq_some hch1)
              exact inv_deleteChannel _ name ch1 hch1 hemp' (hname ▸ hng') hs1
            · rw [if_neg hcond]
              exact hs1
        · rw [if_neg hmem]
          exact h

theorem inv_handle_kick (s : ServerState) (cid : Cid) (args : List String)
    (h : Inv s) : Inv (handle_kick s cid args).1 := by
  unfold handle_kick
  try dsimp only
  repeat' split
  all_goals first
    | exact h
    | exact inv_chanRemoveClient _ _ _ h

theorem inv_handle_channel (s : ServerState) (cid : Cid) (args : List String)
    (h : Inv s) : Inv (handle_channel s cid args).1 := by
  unfold handle_channel
  cases hg : getConn s cid with
  | none => exact h
  | some c =>
    try dsimp only
    repeat' split
    all_goals first
      | exact h
      | exact inv_addOwner _ _ _ _ hg h

theorem inv_handle_unban (s : ServerState) (cid : Cid) (args : List String)
    (h : Inv s) : Inv (handle_unban s cid args).1 := by
  unfold handle_unban
  try dsimp only
  repeat' split
  all_goals first
    | exact h
    | exact inv_chanMod _ _ _ (fun ch => rfl) (fun ch => rfl) (fun ch => rfl) h

theorem inv_handle_ban (s : ServerState) (cid : Cid) (args : List String)
    (h : Inv s) : Inv (handle_ban s cid args).1 := by
  unfold handle_ban
  try dsimp only
  repeat' split
  all_goals first
    | exact h
    | exact inv_chanMod _ _ _ (fun ch => rfl) (fun ch => rfl) (fun ch => rfl) h
    | exact inv_handle_kick _ _ _
        (inv_chanMod _ _ _ (fun ch => rfl) (fun ch => rfl) (fun ch => rfl) h)

theorem inv_handle_allban (s : ServerState) (cid : Cid) (args : List String)
    (h : Inv s) : Inv (handle_allban s cid args).1 := by
  unfold handle_allban
  try dsimp only
  repeat' split
  all_goals try exact h
  all_goals
    refine foldl_pres Inv _ ?_ _ _ (inv_set_gban _ _ h)
  all_goals
    intro acc x hacc
    try dsimp only
    split
  all_goals try exact hacc
  all_goals split
  all_goals first
    | exact hacc
    | (refine foldl_pres Inv _ ?_ _ _ hacc
       intro acc2 nm hacc2
       exact inv_handle_kick _ _ _ hacc2)

theorem inv_handle_unallban (s : ServerState) (cid : Cid) (args : List String)
    (h : Inv s) : Inv (handle_unallban s cid args).1 := by
  unfold handle_unallban
  try dsimp only
  repeat' split
  all_goals first
    | exact h
    | exact inv_set_gban _ _ h

theorem handle_topic_eq (s : ServerState) (cid : Cid) (args : List String) :
    handle_topic s cid args = Except.error Fault.attributeError := by
  unfold handle_topic
  rw [show alookup configAttrs "ONLY_ADMIN_CHANGE_TOPIC" = none from by decide]

theorem inv_join_create : ∀ fuel : Nat,
    (∀ s cid args k r, Inv s → handle_join fuel s cid args k = Except.ok r → Inv r.1) ∧
    (∀ s cid args k r, Inv s → handle_create fuel s cid args k = Except.ok r → Inv r.1) := by
  intro fuel
  induction fuel with
  | zero =>
    constructor
    · intro s cid args k r h hok
      cases hok
    · intro s cid args k r h hok
      cases hok
  | succ fuel ih =>
    constructor
    · intro s cid args k r h hok
      unfold handle_join at hok
      split at hok
      · injection hok with hok2
        subst hok2
        exact h
      · rename_i c hg
        try dsimp only at hok
        split at hok
        · injection hok with hok2
          subst hok2
          exact h
        · split at hok
          · injection hok with hok2
            subst hok2
            exact h
          · rename_i name restArgs
            split at hok
            · split at hok
              · injection hok with hok2
                subst hok2
                exact h
              · exact ih.2 _ _ _ _ _ h hok
            · rename_i ch hch
              split at hok
              · injection hok with hok2
                subst hok2
                exact h
              · split at hok
                · injection hok with hok2
                  subst hok2
                  exact h
                · split at hok
                  · split at hok
                    · injection hok with hok2
                      subst hok2
                      exact h
                    · injection hok with hok2
                      subst hok2
                      exact inv_chanAddClient _ _ _ _ hg h
                  · injection hok with hok2
                    subst hok2
                    exact inv_chanAddClient _ _ _ _ hg h
    · intro s cid args k r h hok
      unfold handle_create at hok
      split at hok
      · injection hok with hok2
        subst hok2
        exact h
      · rename_i c hg
        try dsimp only at hok
        split at hok
        · injection hok with hok2
          subst hok2
          exact h
        · split at hok
          · injection hok with hok2
            subst hok2
            exact h
          · rename_i name restArgs
            split at hok
            · injection hok with hok2
              subst hok2
              exact h
            · split at hok
              · injection hok with hok2
                subst hok2
                exact h
              · rename_i hlooks
                split at hok
                · cases hok
                · rename_i rj hrj
                  injection hok with hok2
                  subst hok2
                  have hlook : alookup s.channels name = none :=
                    Option.not_isSome_iff_eq_none.mp hlooks
                  have hins := inv_insertChannel s name
                    { name := name, owner_key := some k,
                      password := if truthy? restArgs.head? then restArgs.head? else none }
                    hlook rfl rfl rfl h
                  exact ih.1 _ _ _ _ rj hins hrj

theorem inv_processLine (fuel : Nat) (s : ServerState) (cid : Cid) (raw k : String)
    (r : HRes) (h : Inv s) (hok : processLine fuel s cid raw k = Except.ok r) :
    Inv r.1 := by
  unfold processLine at hok
  split at hok
  · injection hok with hok2
    subst hok2
    exact h
  · try dsimp only at hok
    split at hok
    · injection hok with hok2
      subst hok2
      exact h
    · split at hok
      · injection hok with hok2
        subst hok2
        exact h
      · rename_i t ht
        cases t
        all_goals simp only [applyTag] at hok
        case connection => cases hok
        case topic =>
          rw [handle_topic_eq] at hok
          cases hok
        case join => exact (inv_join_create fuel).1 _ _ _ _ _ h hok
        case create => exact (inv_join_create fuel).2 _ _ _ _ _ h hok
        all_goals (injection hok with hok2; subst hok2)
        case nick => exact inv_handle_nick _ _ _ h
        case user => exact inv_handle_user _ _ _ h
        case ping =>
          rw [handle_ping_state]
          exact h
        case quit => exact inv_handle_quit _ _ _ h
        case part => exact inv_handle_part _ _ _ h
        case msg =>
          rw [handle_msg_state]
          exact h
        case list =>
          rw [handle_list_state]
          exact h
        case help =>
          rw [handle_help_state]
          exact h
        case channel => exact inv_handle_channel _ _ _ h
        case kick => exact inv_handle_kick _ _ _ h
        case ban => exact inv_handle_ban _ _ _ h
        case unban => exact inv_handle_unban _ _ _ h
        case allban => exact inv_handle_allban _ _ _ h
        case unallban => exact inv_handle_unallban _ _ _ h
        case listallban =>
          rw [handle_listallban_state]
          exact h
        case oper => exact inv_handle_oper _ _ _ h

theorem inv_stepEvent (s : ServerState) (e : Event) (h : Inv s) :
    Inv (stepEvent s e).1 := by
  cases e with
  | accept ip port => exact inv_acceptConn _ _ _ h
  | line cid raw k =>
    unfold stepEvent
    dsimp only
    cases hp : processLine dispatchFuel s cid raw k with
    | ok r =>
      try dsimp only
      exact inv_processLine _ _ _ _ _ _ h hp
    | error f => exact inv_disconnect _ _ _ h
  | eof cid => exact inv_disconnect _ _ _ h

theorem reachable_inv (s : ServerState) (h : Reachable s) : Inv s := by
  induction h with
  | init => exact inv_initServer
  | step s e _ ih => exact inv_stepEvent _ _ ih

theorem amodify_keys {β : Type} (l : List (String × β)) (k : String) (f : β → β) :
    (amodify l k f).map Prod.fst = l.map Prod.fst := by
  unfold amodify
  rw [List.map_map]
  apply List.map_congr_left
  intro p _
  by_cases hpk : p.1 = k
  · simp [hpk, Function.comp]
  · simp [hpk, Function.comp]

theorem chanRemoveClient_state (s : ServerState) (name : String) (cid : Cid)
    (ch : Channel) (hch : alookup s.channels name = some ch) (hmem : cid ∈ ch.clients) :
    chanRemoveClient s name cid =
      { s with
        channels := amodify s.channels name
          (fun ch => { ch with clients := ch.clients.erase cid }),
        conns := s.conns.map (fun c =>
          if c.cid = cid then { c with channels := c.channels.erase name } else c) } := by
  unfold chanRemoveClient
  rw [hch]
  dsimp only
  rw [if_pos hmem]
  rfl

theorem chanRemoveClient_keys (s : ServerState) (name : String) (cid : Cid) :
    (chanRemoveClient s name cid).channels.map Prod.fst = s.channels.map Prod.fst := by
  unfold chanRemoveClient
  repeat' split
  all_goals first
    | rfl
    | (dsimp only [updConn]
       exact amodify_keys _ _ _)

theorem disconnect_client_keys (s : ServerState) (cid : Cid) (reason : String) :
    (disconnect_client s cid reason).1.channels.map Prod.fst = s.channels.map Prod.fst := by
  unfold disconnect_client
  split
  · split
    · rfl
    · dsimp only
      split
      · exact foldl_pres
          (fun st => st.channels.map Prod.fst = s.channels.map Prod.fst) _
          (fun acc x hacc => by
            dsimp only
            rw [chanRemoveClient_keys]
            exact hacc) _ _ rfl
      · exact foldl_pres
          (fun st => st.channels.map Prod.fst = s.channels.map Prod.fst) _
          (fun acc x hacc => by
            dsimp only
            rw [chanRemoveClient_keys]
            exact hacc) _ _ rfl
  · rfl

theorem handle_kick_keys (s : ServerState) (cid : Cid) (args : List String) :
    (handle_kick s cid args).1.channels.map Prod.fst = s.channels.map Prod.fst := by
  unfold handle_kick
  try dsimp only
  repeat' split
  all_goals first
    | rfl
    | exact chanRemoveClient_keys _ _ _

/-- C3: for every session S and every channel C, at every observable
instant (a reachable state, between handler executions), S is in the
member set of C if and only if C is in the channel set of S. -/
theorem claim_c3_membership_mutual :
    ∀ s : ServerState, Reachable s →
      ∀ c ∈ s.conns, ∀ p ∈ s.channels, (c.cid ∈ p.2.clients ↔ p.1 ∈ c.channels) := by
  intro s hs
  exact (reachable_inv s hs).2.2.2.2.2.2.2.1

/-- Witness for C3 at a concrete reachable state (one accepted
connection) and a concrete session/channel pair. -/
theorem claim_c3_witness :
    ({ cid := 0, ip := "1.1.1.1", port := 1 } : Client).cid ∈
        (("#global", ({ name := "#global", topic := some "默认全局频道" } : Channel)) :
          String × Channel).2.clients ↔
      (("#global", ({ name := "#global", topic := some "默认全局频道" } : Channel)) :
          String × Channel).1 ∈ ({ cid := 0, ip := "1.1.1.1", port := 1 } : Client).channels :=
  claim_c3_membership_mutual (stepEvent initServer (Event.accept "1.1.1.1" 1)).1
    (Reachable.step _ _ Reachable.init)
    ({ cid := 0, ip := "1.1.1.1", port := 1 } : Client) (by decide)
    (("#global", ({ name := "#global", topic := some "默认全局频道" } : Channel))) (by decide)

instance (s : ServerState) : Decidable (memberMutual s) := by
  unfold memberMutual
  exact inferInstance

instance (s : ServerState) : Decidable (Inv s) := by
  unfold Inv
  exact inferInstance

/-- Trace used by the C1 counterexample: a registered client creates and
joins a fresh channel, then quits, emptying it. -/
def c1QuitTrace : List Event :=
  [Event.accept "1.1.1.1" 1, Event.line 0 "NICK a" "K",
   Event.line 0 "USER u h s r" "K", Event.line 0 "JOIN #room" "KEY0",
   Event.eof 0]

/-- C1 counterexample: after the only member of the non-default channel
leaves via QUIT/disconnect teardown, the channel is still in the channel
map (with zero members), refuting removal on every last-member departure. -/
theorem claim_c1_counterexample :
    alookup (runEvents initServer c1QuitTrace).channels "#room" =
      some { name := "#room", clients := [], topic := none, password := none,
             owner_key := some "KEY0", owners := [], banned_ips := [] } := by
  decide

/-- C1 (amended): a non-default channel is removed from the channel map
exactly when its last member leaves via PART; a departure via
QUIT/disconnect teardown or via KICK never removes any channel from the
map; and the default channel is never removed, persisting at zero
members.  Conjuncts: PART on the last member deletes the (non-default)
channel; PART with another member remaining keeps it; KICK preserves the
set of channel-map keys; disconnect teardown preserves the set of
channel-map keys; the default channel is present in every reachable
state. -/
theorem claim_c1_channel_deletion :
    (∀ (s : ServerState) (cid : Cid) (c : Client) (name : String) (ch : Channel),
      Inv s → getConn s cid = some c → alookup s.channels name = some ch →
      ch.clients = [cid] → ¬ name = "#global" →
      alookup (handle_part s cid [name]).1.channels name = none) ∧
    (∀ (s : ServerState) (cid : Cid) (c : Client) (name : String) (ch : Channel) (x : Cid),
      getConn s cid = some c → alookup s.channels name = some ch →
      cid ∈ ch.clients → x ∈ ch.clients → ¬ x = cid →
      (alookup (handle_part s cid [name]).1.channels name).isSome = true) ∧
    (∀ (s : ServerState) (cid : Cid) (args : List String),
      (handle_kick s cid args).1.channels.map Prod.fst = s.channels.map Prod.fst) ∧
    (∀ (s : ServerState) (cid : Cid) (reason : String),
      (disconnect_client s cid reason).1.channels.map Prod.fst = s.channels.map Prod.fst) ∧
    (∀ s : ServerState, Reachable s → (alookup s.channels "#global").isSome = true) := by
  refine ⟨?_, ?_, ?_, ?_, ?_⟩
  · intro s cid c name ch hinv hg hch hcl hng
    unfold handle_part
    rw [hg]
    dsimp only
    rw [hch]
    dsimp only
    have hmem : cid ∈ ch.clients := by
      rw [hcl]
      exact List.mem_singleton_self cid
    rw [if_pos hmem]
    try dsimp only
    rw [chanRemoveClient_state s name cid ch hch hmem]
    have hl1 : alookup (amodify s.channels name
        (fun ch => { ch with clients := ch.clients.erase cid })) name =
        some { ch with clients := ch.clients.erase cid } := by
      rw [alookup_amodify, if_pos rfl, hch]
      rfl
    rw [hl1]
    dsimp only
    have hchname : ch.name = name :=
      hinv.2.2.2.1 (name, ch) (mem_of_alookup_eq_some hch)
    have hcond : ((ch.clients.erase cid).isEmpty && !(ch.name == "#global")) = true := by
      rw [hcl, hchname]
      simp [hng]
    rw [if_pos hcond]
    dsimp only
    rw [alookup_aerase, if_pos rfl]
  · intro s cid c name ch x hg hch hmem hx hxne
    unfold handle_part
    rw [hg]
    dsimp only
    rw [hch]
    dsimp only
    rw [if_pos hmem]
    try dsimp only
    rw [chanRemoveClient_state s name cid ch hch hmem]
    have hl1 : alookup (amodify s.channels name
        (fun ch => { ch with clients := ch.clients.erase cid })) name =
        some { ch with clients := ch.clients.erase cid } := by
      rw [alookup_amodify, if_pos rfl, hch]
      rfl
    rw [hl1]
    dsimp only
    have hne : ch.clients.erase cid ≠ [] :=
      List.ne_nil_of_mem ((List.mem_erase_of_ne hxne).mpr hx)
    have hcond : ¬ (((ch.clients.erase cid).isEmpty && !(ch.name == "#global")) = true) := by
      intro hc
      exact hne (List.isEmpty_iff.mp (Bool.and_eq_true_iff.mp hc).1)
    rw [if_neg hcond]
    dsimp only
    rw [hl1]
    rfl
  · intro s cid args
    exact handle_kick_keys s cid args
  · intro s cid reason
    exact disconnect_client_keys s cid reason
  · intro s hs
    exact (reachable_inv s hs).2.2.2.2.2.2.2.2

/-- Trace for the C1 witness, first conjunct: a lone member of a fresh
channel. -/
def c1PartTrace : List Event :=
  [Event.accept "1.1.1.1" 1, Event.line 0 "NICK a" "K",
   Event.line 0 "USER u h s r" "K", Event.line 0 "JOIN #r" "KEY0"]

/-- Trace for the C1 witness, second conjunct: two members of a fresh
channel. -/
def c1TwoTrace : List Event :=
  [Event.accept "1.1.1.1" 1, Event.line 0 "NICK a" "K",
   Event.line 0 "USER u h s r" "K",
   Event.accept "2.2.2.2" 2, Event.line 1 "NICK b" "K",
   Event.line 1 "USER u h s r" "K",
   Event.line 0 "JOIN #r" "KEY0", Event.line 1 "JOIN #r" "K2"]

/-- Witness for C1 at concrete inputs. -/
theorem claim_c1_witness :
    (alookup (handle_part (runEvents initServer c1PartTrace) 0 ["#r"]).1.channels "#r" = none) ∧
    ((alookup (handle_part (runEvents initServer c1TwoTrace) 0 ["#r"]).1.channels "#r").isSome = true) ∧
    ((handle_kick initServer 0 []).1.channels.map Prod.fst = initServer.channels.map Prod.fst) ∧
    ((disconnect_client initServer 0 "bye").1.channels.map Prod.fst = initServer.channels.map Prod.fst) ∧
    ((alookup initServer.channels "#global").isSome = true) := by
  refine ⟨?_, ?_, ?_, ?_, ?_⟩
  · exact claim_c1_channel_deletion.1 (runEvents initServer c1PartTrace) 0
      { cid := 0, ip := "1.1.1.1", port := 1, nickname := some "a", username := some "u",
        realname := some "r", is_operator := false, is_registered := true, channels := ["#r"] }
      "#r"
      { name := "#r", clients := [0], topic := none, password := none,
        owner_key := some "KEY0", owners := [], banned_ips := [] }
      (by decide) (by decide) (by decide) (by decide) (by decide)
  · exact claim_c1_channel_deletion.2.1 (runEvents initServer c1TwoTrace) 0
      { cid := 0, ip := "1.1.1.1", port := 1, nickname := some "a", username := some "u",
        realname := some "r", is_operator := false, is_registered := true, channels := ["#r"] }
      "#r"
      { name := "#r", clients := [0, 1], topic := none, password := none,
        owner_key := some "KEY0", owners := [], banned_ips := [] }
      1 (by decide) (by decide) (by decide) (by decide) (by decide)
  · exact claim_c1_channel_deletion.2.2.1 initServer 0 []
  · exact claim_c1_channel_deletion.2.2.2.1 initServer 0 "bye"
  · exact claim_c1_channel_deletion.2.2.2.2 initServer Reachable.init

/-- C5: every TOPIC invocation raises AttributeError before any reply or
state change, because config.py does not define ONLY_ADMIN_CHANGE_TOPIC;
and at the connection-loop level the fault escapes the handler uncaught,
so the line event falls through to the teardown of the finally block. -/
theorem claim_c5_topic_always_faults :
    (∀ (s : ServerState) (cid : Cid) (args : List String),
      handle_topic s cid args = Except.error Fault.attributeError) ∧
    (∀ (s : ServerState) (cid : Cid) (c : Client) (raw k : String),
      getConn s cid = some c → lowerStr (tokenOf raw) = "topic" →
      stepEvent s (Event.line cid raw k) = disconnect_client s cid "Connection closed") := by
  refine ⟨handle_topic_eq, ?_⟩
  intro s cid c raw k hg htok
  have hproc : processLine dispatchFuel s cid raw k = Except.error Fault.attributeError := by
    unfold processLine
    rw [hg]
    try dsimp only
    have hne : ¬ ((pyStrip raw == "") = true) := by
      intro hraw
      have h0 : pyStrip raw = "" := by simpa using hraw
      unfold tokenOf at htok
      rw [h0] at htok
      exact absurd htok (by decide)
    rw [if_neg hne]
    try dsimp only
    have hcmd : lowerStr (upperStr (splitFirstSpace (pyStrip raw)).1) = "topic" := htok
    rw [hcmd]
    rw [show alookup handlerTable "topic" = some Tag.topic from by decide]
    exact handle_topic_eq s cid (splitWs (splitFirstSpace (pyStrip raw)).2)
  unfold stepEvent
  try dsimp only
  rw [hproc]

/-- Witness for C5 at a concrete connection and line. -/
theorem claim_c5_witness :
    handle_topic initServer 0 ["#global"] = Except.error Fault.attributeError ∧
    stepEvent (stepEvent initServer (Event.accept "1.1.1.1" 1)).1
        (Event.line 0 "TOPIC #global" "K") =
      disconnect_client (stepEvent initServer (Event.accept "1.1.1.1" 1)).1 0
        "Connection closed" := by
  refine ⟨claim_c5_topic_always_faults.1 initServer 0 ["#global"], ?_⟩
  exact claim_c5_topic_always_faults.2 (stepEvent initServer (Event.accept "1.1.1.1" 1)).1 0
    { cid := 0, ip := "1.1.1.1", port := 1 } "TOPIC #global" "K" (by decide) (by decide)

/-- Trace shared by the C9 and C10 counterexamples: one registered
session. -/
def regTrace : List Event :=
  [Event.accept "1.1.1.1" 1, Event.line 0 "NICK a" "K",
   Event.line 0 "USER u h s r" "K"]

/-- C9 counterexample: a registered session sends PRIVMSG and receives
the 421 unknown-command reply with no state change — PRIVMSG does not
dispatch to the message handler, because class Server defines handle_msg
but no handle_privmsg. -/
theorem claim_c9_counterexample :
    (stepEvent (runEvents initServer regTrace) (Event.line 0 "PRIVMSG #global hi" "K")).2 =
      [(0, Msg.unknownCommand "a" "PRIVMSG")] ∧
    (stepEvent (runEvents initServer regTrace) (Event.line 0 "PRIVMSG #global hi" "K")).1 =
      runEvents initServer regTrace := by
  constructor
  · decide
  · decide

/-- C9 (amended): every token of the declared surface except PRIVMSG has
a handler in the dispatch table (MSG, not PRIVMSG, is the message
command); PRIVMSG has none; a token is dispatchable exactly when its
lowercase form names a handle_ method — which also makes the non-surface
token CONNECTION dispatch (to the connection method, which faults)
instead of receiving 421; and any line whose token is not in the table
draws exactly the 421 unknown-command reply with no state change. -/
theorem claim_c9_dispatch_surface :
    ((["NICK", "USER", "PING", "QUIT", "JOIN", "PART", "MSG", "TOPIC", "LIST",
       "HELP", "CREATE", "CHANNEL", "KICK", "BAN", "UNBAN", "ALLBAN",
       "UNALLBAN", "LISTALLBAN", "OPER"].all
        (fun t => (alookup handlerTable (lowerStr t)).isSome)) = true) ∧
    (alookup handlerTable (lowerStr "PRIVMSG") = none) ∧
    (∀ t : String, (alookup handlerTable t).isSome = true ↔
      t ∈ ["connection", "nick", "user", "ping", "quit", "join", "part", "msg",
           "topic", "list", "help", "create", "channel", "kick", "ban", "unban",
           "allban", "unallban", "listallban", "oper"]) ∧
    (∀ (s : ServerState) (cid : Cid) (c : Client) (raw k : String),
      getConn s cid = some c → ¬ ((pyStrip raw == "") = true) →
      alookup handlerTable (lowerStr (tokenOf raw)) = none →
      processLine dispatchFuel s cid raw k =
        Except.ok (s, [(cid, Msg.unknownCommand (nickOrStar c) (tokenOf raw))])) := by
  refine ⟨by decide, by decide, ?_, ?_⟩
  · intro t
    rw [alookup_isSome_iff_mem_keys]
    rw [show handlerTable.map Prod.fst =
      ["connection", "nick", "user", "ping", "quit", "join", "part", "msg",
       "topic", "list", "help", "create", "channel", "kick", "ban", "unban",
       "allban", "unallban", "listallban", "oper"] from rfl]
  · intro s cid c raw k hg hne hlook
    unfold processLine
    rw [hg]
    try dsimp only
    rw [if_neg hne]
    try dsimp only
    unfold tokenOf at hlook
    rw [hlook]
    rfl

/-- Witness for C9 at a concrete unknown token. -/
theorem claim_c9_witness :
    ((["NICK", "USER", "PING", "QUIT", "JOIN", "PART", "MSG", "TOPIC", "LIST",
       "HELP", "CREATE", "CHANNEL", "KICK", "BAN", "UNBAN", "ALLBAN",
       "UNALLBAN", "LISTALLBAN", "OPER"].all
        (fun t => (alookup handlerTable (lowerStr t)).isSome)) = true) ∧
    ((alookup handlerTable "bogus").isSome = true ↔
      "bogus" ∈ ["connection", "nick", "user", "ping", "quit", "join", "part", "msg",
           "topic", "list", "help", "create", "channel", "kick", "ban", "unban",
           "allban", "unallban", "listallban", "oper"]) ∧
    (processLine dispatchFuel initServer 0 "BOGUS hello" "K" =
      Except.ok (initServer, ([] : Out))) ∧
    (processLine dispatchFuel (stepEvent initServer (Event.accept "1.1.1.1" 1)).1
        0 "BOGUS hello" "K" =
      Except.ok ((stepEvent initServer (Event.accept "1.1.1.1" 1)).1,
        [(0, Msg.unknownCommand "*" "BOGUS")])) := by
  refine ⟨claim_c9_dispatch_surface.1, claim_c9_dispatch_surface.2.2.1 "bogus", by rfl, ?_⟩
  exact claim_c9_dispatch_surface.2.2.2 (stepEvent initServer (Event.accept "1.1.1.1" 1)).1 0
    { cid := 0, ip := "1.1.1.1", port := 1 } "BOGUS hello" "K"
    (by decide) (by decide) (by decide)

/-- Whether a message is the 451 not-registered reply. -/
def is451 : Msg → Bool
  | Msg.notRegistered _ => true
  | _ => false

/-- No delivered message is the 451 not-registered reply: the handler
contains no registration check. -/
def no451 (out : Out) : Prop := ∀ p ∈ out, is451 p.2 = false

theorem no451_nil : no451 [] := by
  intro p hp
  cases hp

theorem no451_cons {p : Cid × Msg} {l : Out} (hm : is451 p.2 = false)
    (hl : no451 l) : no451 (p :: l) := by
  intro q hq
  cases hq with
  | head => exact hm
  | tail _ hq => exact hl q hq

theorem no451_append {a b : Out} (ha : no451 a) (hb : no451 b) :
    no451 (a ++ b) := by
  intro q hq
  rcases List.mem_append.mp hq with h | h
  · exact ha q h
  · exact hb q h

theorem no451_broadcast (s : ServerState) (name : String) (m : Msg)
    (excl : Option Cid) (hm : is451 m = false) :
    no451 (broadcastCh s name m excl) := by
  unfold broadcastCh
  cases alookup s.channels name with
  | none => exact no451_nil
  | some ch =>
    intro q hq
    rcases List.mem_map.mp hq with ⟨a, _, rfl⟩
    exact hm

theorem no451_handle_part (s : ServerState) (cid : Cid) (args : List String) :
    no451 (handle_part s cid args).2 := by
  unfold handle_part
  try dsimp only
  repeat' split
  all_goals first
    | exact no451_nil
    | exact no451_cons rfl no451_nil
    | exact no451_broadcast _ _ _ _ rfl

theorem no451_handle_channel (s : ServerState) (cid : Cid) (args : List String) :
    no451 (handle_channel s cid args).2 := by
  unfold handle_channel
  try dsimp only
  repeat' split
  all_goals first
    | exact no451_nil
    | exact no451_cons rfl no451_nil

theorem no451_handle_kick (s : ServerState) (cid : Cid) (args : List String) :
    no451 (handle_kick s cid args).2 := by
  unfold handle_kick
  try dsimp only
  repeat' split
  all_goals first
    | exact no451_nil
    | exact no451_cons rfl no451_nil
    | exact no451_broadcast _ _ _ _ rfl

theorem no451_handle_unban (s : ServerState) (cid : Cid) (args : List String) :
    no451 (handle_unban s cid args).2 := by
  unfold handle_unban
  try dsimp only
  repeat' split
  all_goals first
    | exact no451_nil
    | exact no451_cons rfl no451_nil

theorem no451_handle_ban (s : ServerState) (cid : Cid) (args : List String) :
    no451 (handle_ban s cid args).2 := by
  unfold handle_ban
  try dsimp only
  repeat' split
  all_goals first
    | exact no451_nil
    | exact no451_cons rfl no451_nil
    | exact no451_append (no451_cons rfl no451_nil) (no451_handle_kick _ _ _)

theorem not_mem_451 {out : Out} (h : no451 out) (x : Cid) (t : String) :
    ¬ (x, Msg.notRegistered t) ∈ out :=
  fun hmem => Bool.noConfusion (h _ hmem)

/-- C2 counterexample: an unregistered session sends OPER with the
correct shared secret; it is not refused with the not-registered reply —
it is granted operator status, a registry-state change. -/
theorem claim_c2_counterexample :
    (stepEvent (stepEvent initServer (Event.accept "1.1.1.1" 1)).1
        (Event.line 0 "OPER admin" "K")).2 = [(0, Msg.nowOperator "None")] ∧
    ((getConn (stepEvent (stepEvent initServer (Event.accept "1.1.1.1" 1)).1
        (Event.line 0 "OPER admin" "K")).1 0).map (fun c => c.is_operator)) =
      some true := by
  constructor
  · decide
  · decide

/-- C2 (amended): of the commands outside NICK/USER/PING/QUIT, exactly
JOIN, MSG, LIST and HELP are gated on registration — an unregistered
session invoking them gets the not-registered reply and the registry is
unchanged — while PART, CHANNEL, KICK, BAN, UNBAN, CREATE, TOPIC and
OPER perform no registration check: OPER grants the operator flag on
the correct secret regardless of registration, CREATE inserts the new
channel before the inner JOIN refuses the unregistered creator, PART,
CHANNEL, KICK, BAN and UNBAN never emit the 451 reply on any input, and
TOPIC faults on the missing config attribute before reaching any check. -/
theorem claim_c2_registration_gating :
    (∀ (fuel : Nat) (s : ServerState) (cid : Cid) (c : Client) (args : List String) (k : String),
      getConn s cid = some c → c.is_registered = false →
      handle_join (fuel + 1) s cid args k =
        Except.ok (s, [(cid, Msg.notRegistered (nickOrStar c))])) ∧
    (∀ (s : ServerState) (cid : Cid) (c : Client) (args : List String),
      getConn s cid = some c → c.is_registered = false →
      handle_msg s cid args = (s, [(cid, Msg.notRegistered (nickOrStar c))])) ∧
    (∀ (s : ServerState) (cid : Cid) (c : Client) (args : List String),
      getConn s cid = some c → c.is_registered = false →
      handle_list s cid args = (s, [(cid, Msg.notRegistered (nickOrStar c))])) ∧
    (∀ (s : ServerState) (cid : Cid) (c : Client) (args : List String),
      getConn s cid = some c → c.is_registered = false →
      handle_help s cid args = (s, [(cid, Msg.notRegistered (nickOrStar c))])) ∧
    (∀ (s : ServerState) (cid : Cid) (c : Client) (pw : String) (rest : List String),
      getConn s cid = some c → pw = OPERATOR_PASSWORD →
      handle_oper s cid (pw :: rest) =
        (updConn s cid (fun c => { c with is_operator := true }),
         [(cid, Msg.nowOperator (showNick c))])) ∧
    (∀ (fuel : Nat) (s : ServerState) (cid : Cid) (c : Client) (name k : String),
      getConn s cid = some c → c.is_registered = false →
      alookup s.channels name = none → strStarts name "#" = true →
      handle_create (fuel + 2) s cid [name] k =
        Except.ok
          ({ s with channels := s.channels ++
              [(name, { name := name, owner_key := some k })] },
           [(cid, Msg.notRegistered (nickOrStar c)),
            (cid, Msg.channelCreated (showNick c) name),
            (cid, Msg.ownershipKeyIs (showNick c) name k),
            (cid, Msg.useChannelToClaim (showNick c) name k),
            (cid, Msg.keyReminder (showNick c) k), (cid, Msg.keyReminder (showNick c) k),
            (cid, Msg.keyReminder (showNick c) k), (cid, Msg.keyReminder (showNick c) k)])) ∧
    (∀ (s : ServerState) (cid : Cid) (args : List String) (x : Cid) (t : String),
      ¬ (x, Msg.notRegistered t) ∈ (handle_part s cid args).2) ∧
    (∀ (s : ServerState) (cid : Cid) (args : List String) (x : Cid) (t : String),
      ¬ (x, Msg.notRegistered t) ∈ (handle_channel s cid args).2) ∧
    (∀ (s : ServerState) (cid : Cid) (args : List String) (x : Cid) (t : String),
      ¬ (x, Msg.notRegistered t) ∈ (handle_kick s cid args).2) ∧
    (∀ (s : ServerState) (cid : Cid) (args : List String) (x : Cid) (t : String),
      ¬ (x, Msg.notRegistered t) ∈ (handle_ban s cid args).2) ∧
    (∀ (s : ServerState) (cid : Cid) (args : List String) (x : Cid) (t : String),
      ¬ (x, Msg.notRegistered t) ∈ (handle_unban s cid args).2) ∧
    (∀ (s : ServerState) (cid : Cid) (args : List String),
      handle_topic s cid args = Except.error Fault.attributeError) := by
  refine ⟨?_, ?_, ?_, ?_, ?_, ?_, ?_, ?_, ?_, ?_, ?_, ?_⟩
  · intro fuel s cid c args k hg hreg
    unfold handle_join
    rw [hg]
    try dsimp only
    rw [hreg]
    rfl
  · intro s cid c args hg hreg
    unfold handle_msg
    rw [hg]
    try dsimp only
    rw [hreg]
    rfl
  · intro s cid c args hg hreg
    unfold handle_list
    rw [hg]
    try dsimp only
    rw [hreg]
    rfl
  · intro s cid c args hg hreg
    unfold handle_help
    rw [hg]
    try dsimp only
    rw [hreg]
    rfl
  · intro s cid c pw rest hg hpw
    unfold handle_oper
    rw [hg]
    try dsimp only
    rw [hpw]
    rfl
  · intro fuel s cid c name k hg hreg hlook hstart
    unfold handle_create
    rw [hg]
    try dsimp only
    rw [show (ONLY_ADMIN_CREATE_CHANNEL && !c.is_operator) = false from by
      simp [ONLY_ADMIN_CREATE_CHANNEL]]
    rw [if_neg (show ¬ ((false : Bool) = true) from by decide)]
    rw [hstart]
    rw [if_neg (show ¬ (((!true) : Bool) = true) from by decide)]
    rw [hlook]
    rw [if_neg (show ¬ ((none : Option Channel).isSome = true) from by decide)]
    rw [show (if truthy? (List.head? ([] : List String)) = true
        then List.head? ([] : List String) else (none : Option String)) = none from by decide]
    rw [show (if truthy? (List.head? ([] : List String)) = true
        then [name, (List.head? ([] : List String)).getD ""] else [name]) = [name] from rfl]
    have hj : handle_join (fuel + 1)
        { s with channels := s.channels ++ [(name, { name := name, owner_key := some k })] }
        cid [name] k =
        Except.ok
          (({ s with channels := s.channels ++ [(name, { name := name, owner_key := some k })] } :
            ServerState),
           [(cid, Msg.notRegistered (nickOrStar c))]) := by
      unfold handle_join
      rw [show getConn { s with channels := s.channels ++
        [(name, ({ name := name, owner_key := some k } : Channel))] } cid = some c from hg]
      try dsimp only
      rw [hreg]
      rfl
    rw [hj]
    rfl
  · intro s cid args x t
    exact not_mem_451 (no451_handle_part s cid args) x t
  · intro s cid args x t
    exact not_mem_451 (no451_handle_channel s cid args) x t
  · intro s cid args x t
    exact not_mem_451 (no451_handle_kick s cid args) x t
  · intro s cid args x t
    exact not_mem_451 (no451_handle_ban s cid args) x t
  · intro s cid args x t
    exact not_mem_451 (no451_handle_unban s cid args) x t
  · intro s cid args
    exact handle_topic_eq s cid args

/-- Witness for C2 at concrete inputs: one unregistered connection. -/
theorem claim_c2_witness :
    (handle_join 3 (stepEvent initServer (Event.accept "1.1.1.1" 1)).1 0 ["#global"] "K" =
      Except.ok ((stepEvent initServer (Event.accept "1.1.1.1" 1)).1,
        [(0, Msg.notRegistered "*")])) ∧
    (handle_msg (stepEvent initServer (Event.accept "1.1.1.1" 1)).1 0 ["x", "y"] =
      ((stepEvent initServer (Event.accept "1.1.1.1" 1)).1, [(0, Msg.notRegistered "*")])) ∧
    (handle_list (stepEvent initServer (Event.accept "1.1.1.1" 1)).1 0 [] =
      ((stepEvent initServer (Event.accept "1.1.1.1" 1)).1, [(0, Msg.notRegistered "*")])) ∧
    (handle_help (stepEvent initServer (Event.accept "1.1.1.1" 1)).1 0 [] =
      ((stepEvent initServer (Event.accept "1.1.1.1" 1)).1, [(0, Msg.notRegistered "*")])) ∧
    (handle_oper (stepEvent initServer (Event.accept "1.1.1.1" 1)).1 0 ["admin"] =
      (updConn (stepEvent initServer (Event.accept "1.1.1.1" 1)).1 0
        (fun c => { c with is_operator := true }),
       [(0, Msg.nowOperator "None")])) ∧
    (handle_create 3 (stepEvent initServer (Event.accept "1.1.1.1" 1)).1 0 ["#z"] "KY" =
      Except.ok
        ({ (stepEvent initServer (Event.accept "1.1.1.1" 1)).1 with
            channels := (stepEvent initServer (Event.accept "1.1.1.1" 1)).1.channels ++
              [("#z", { name := "#z", owner_key := some "KY" })] },
         [(0, Msg.notRegistered "*"),
          (0, Msg.channelCreated "None" "#z"),
          (0, Msg.ownershipKeyIs "None" "#z" "KY"),
          (0, Msg.useChannelToClaim "None" "#z" "KY"),
          (0, Msg.keyReminder "None" "KY"), (0, Msg.keyReminder "None" "KY"),
          (0, Msg.keyReminder "None" "KY"), (0, Msg.keyReminder "None" "KY")])) ∧
    (¬ (0, Msg.notRegistered "*") ∈
      (handle_part (stepEvent initServer (Event.accept "1.1.1.1" 1)).1 0 ["#global"]).2) ∧
    (¬ (0, Msg.notRegistered "*") ∈
      (handle_channel (stepEvent initServer (Event.accept "1.1.1.1" 1)).1 0 ["#global", "K"]).2) ∧
    (¬ (0, Msg.notRegistered "*") ∈
      (handle_kick (stepEvent initServer (Event.accept "1.1.1.1" 1)).1 0 ["#global", "b"]).2) ∧
    (¬ (0, Msg.notRegistered "*") ∈
      (handle_ban (stepEvent initServer (Event.accept "1.1.1.1" 1)).1 0 ["#global", "b"]).2) ∧
    (¬ (0, Msg.notRegistered "*") ∈
      (handle_unban (stepEvent initServer (Event.accept "1.1.1.1" 1)).1 0 ["#global", "1.2.3.4"]).2) ∧
    (handle_topic (stepEvent initServer (Event.accept "1.1.1.1" 1)).1 0 ["#global"] =
      Except.error Fault.attributeError) := by
  refine ⟨?_, ?_, ?_, ?_, ?_, ?_, ?_, ?_, ?_, ?_, ?_, ?_⟩
  · exact claim_c2_registration_gating.1 2 _ 0
      { cid := 0, ip := "1.1.1.1", port := 1 } ["#global"] "K" (by decide) (by decide)
  · exact claim_c2_registration_gating.2.1 _ 0
      { cid := 0, ip := "1.1.1.1", port := 1 } ["x", "y"] (by decide) (by decide)
  · exact claim_c2_registration_gating.2.2.1 _ 0
      { cid := 0, ip := "1.1.1.1", port := 1 } [] (by decide) (by decide)
  · exact claim_c2_registration_gating.2.2.2.1 _ 0
      { cid := 0, ip := "1.1.1.1", port := 1 } [] (by decide) (by decide)
  · exact claim_c2_registration_gating.2.2.2.2.1 _ 0
      { cid := 0, ip := "1.1.1.1", port := 1 } "admin" [] (by decide) (by decide)
  · exact claim_c2_registration_gating.2.2.2.2.2.1 1 _ 0
      { cid := 0, ip := "1.1.1.1", port := 1 } "#z" "KY"
      (by decide) (by decide) (by decide) (by decide)
  · exact claim_c2_registration_gating.2.2.2.2.2.2.1 _ 0 ["#global"] 0 "*"
  · exact claim_c2_registration_gating.2.2.2.2.2.2.2.1 _ 0 ["#global", "K"] 0 "*"
  · exact claim_c2_registration_gating.2.2.2.2.2.2.2.2.1 _ 0 ["#global", "b"] 0 "*"
  · exact claim_c2_registration_gating.2.2.2.2.2.2.2.2.2.1 _ 0 ["#global", "b"] 0 "*"
  · exact claim_c2_registration_gating.2.2.2.2.2.2.2.2.2.2.1 _ 0 ["#global", "1.2.3.4"] 0 "*"
  · exact claim_c2_registration_gating.2.2.2.2.2.2.2.2.2.2.2 _ 0 ["#global"]

/-- Whether a message structurally carries the ownership key `k` in a
key field (the three key-bearing notice shapes of handle_create). -/
def carriesKey (k : String) : Msg → Bool
  | Msg.ownershipKeyIs _ _ key => key == k
  | Msg.useChannelToClaim _ _ key => key == k
  | Msg.keyReminder _ key => key == k
  | _ => false

/-- Number of messages delivered to `cid` that carry the key `k`. -/
def countKeyMsgs (out : Out) (cid : Cid) (k : String) : Nat :=
  (out.filter (fun p => p.1 == cid && carriesKey k p.2)).length

theorem countKeyMsgs_append (a b : Out) (cid : Cid) (k : String) :
    countKeyMsgs (a ++ b) cid k = countKeyMsgs a cid k + countKeyMsgs b cid k := by
  simp [countKeyMsgs, List.filter_append]

theorem countKeyMsgs_broadcast (s : ServerState) (name : String) (m : Msg)
    (excl : Option Cid) (cid : Cid) (k : String) (hm : carriesKey k m = false) :
    countKeyMsgs (broadcastCh s name m excl) cid k = 0 := by
  unfold broadcastCh
  cases alookup s.channels name with
  | none => rfl
  | some ch =>
    have hgen : ∀ l : List Cid,
        ((l.map (fun x => (x, m))).filter
          (fun p => p.1 == cid && carriesKey k p.2)).length = 0 := by
      intro l
      induction l with
      | nil => rfl
      | cons x xs ih => simp [hm, ih]
    exact hgen _

/-- Standalone state equation for Channel.add_client on an existing
channel. -/
theorem chanAddClient_state (s : ServerState) (name : String) (cid : Cid)
    (ch : Channel) (hch : alookup s.channels name = some ch) :
    chanAddClient s name cid =
      { s with
        channels := amodify s.channels name
          (fun ch => { ch with clients := setAdd cid ch.clients }),
        conns := s.conns.map (fun c =>
          if c.cid = cid then { c with channels := setAdd name c.channels } else c) } := by
  unfold chanAddClient
  rw [hch]
  rfl

/-- A JOIN on an existing channel emits no key-bearing message, whatever
branch it takes. -/
theorem handle_join_existing_no_key (fuel : Nat) (s : ServerState) (cid : Cid)
    (name : String) (rest : List String) (k : String) (r : HRes) (ch : Channel)
    (hch : alookup s.channels name = some ch)
    (hj : handle_join (fuel + 1) s cid (name :: rest) k = Except.ok r) :
    ∀ (x : Cid) (k' : String), countKeyMsgs r.2 x k' = 0 := by
  intro x k'
  unfold handle_join at hj
  split at hj
  · injection hj with hj2
    subst hj2
    rfl
  · rename_i c hg
    try dsimp only at hj
    split at hj
    · injection hj with hj2
      subst hj2
      simp [countKeyMsgs, carriesKey]
    · rw [hch] at hj
      try dsimp only at hj
      split at hj
      · injection hj with hj2
        subst hj2
        simp [countKeyMsgs, carriesKey]
      · split at hj
        · injection hj with hj2
          subst hj2
          rfl
        · have hfin : ∀ (hr : joinFinish s cid c name = r), countKeyMsgs r.2 x k' = 0 := by
            intro hr
            subst hr
            unfold joinFinish
            try dsimp only
            rw [countKeyMsgs_append]
            rw [countKeyMsgs_broadcast _ _ _ _ _ _ (by rfl)]
            simp [countKeyMsgs, carriesKey]
          split at hj
          · split at hj
            · injection hj with hj2
              subst hj2
              simp [countKeyMsgs, carriesKey]
            · injection hj with hj2
              exact hfin hj2
          · injection hj with hj2
            exact hfin hj2

/-- A JOIN on an existing channel cannot fault: the create path (the only
recursion) is not taken. -/
theorem handle_join_existing_isOk (fuel : Nat) (s : ServerState) (cid : Cid)
    (name : String) (rest : List String) (k : String) (ch : Channel)
    (hch : alookup s.channels name = some ch) :
    ∃ r, handle_join (fuel + 1) s cid (name :: rest) k = Except.ok r := by
  unfold handle_join
  cases hg : getConn s cid with
  | none => exact ⟨_, rfl⟩
  | some c =>
    try dsimp only
    by_cases hreg : ((!c.is_registered) = true)
    · rw [if_pos hreg]
      exact ⟨_, rfl⟩
    · rw [if_neg hreg]
      rw [hch]
      try dsimp only
      by_cases hban : ((c.ip ∈ ch.banned_ips || c.ip ∈ s.globally_banned_ips) = true)
      · rw [if_pos hban]
        exact ⟨_, rfl⟩
      · rw [if_neg hban]
        by_cases hmem : cid ∈ ch.clients
        · rw [if_pos hmem]
          exact ⟨_, rfl⟩
        · rw [if_neg hmem]
          by_cases hpw : (truthy? ch.password = true)
          · rw [if_pos hpw]
            by_cases hkey : ((!truthy? (List.head? rest) ||
                !((List.head? rest).getD "" == ch.password.getD "")) = true)
            · rw [if_pos hkey]
              exact ⟨_, rfl⟩
            · rw [if_neg hkey]
              exact ⟨_, rfl⟩
          · rw [if_neg hpw]
            exact ⟨_, rfl⟩

/-- Helper for C10: every successful CREATE — with or without a channel
password argument — exists and its output carries the key exactly six
times. -/
theorem create_key_count_exists :
    ∀ (fuel : Nat) (s : ServerState) (cid : Cid) (c : Client) (name k : String)
      (restArgs : List String),
      getConn s cid = some c → alookup s.channels name = none →
      strStarts name "#" = true →
      ∃ r, handle_create (fuel + 2) s cid (name :: restArgs) k = Except.ok r ∧
        countKeyMsgs r.2 cid k = 6 := by
  intro fuel s cid c name k restArgs hg hlook hstart
  unfold handle_create
  rw [hg]
  try dsimp only
  rw [show (ONLY_ADMIN_CREATE_CHANNEL && !c.is_operator) = false from by
    simp [ONLY_ADMIN_CREATE_CHANNEL]]
  rw [if_neg (show ¬ ((false : Bool) = true) from by decide)]
  rw [hstart]
  rw [if_neg (show ¬ (((!true) : Bool) = true) from by decide)]
  rw [hlook]
  rw [if_neg (show ¬ ((none : Option Channel).isSome = true) from by decide)]
  rw [show (if truthy? (List.head? restArgs) = true then [name, (List.head? restArgs).getD ""] else [name]) = name :: (if truthy? (List.head? restArgs) = true then [(List.head? restArgs).getD ""] else []) from by split <;> rfl]
  have hch1 : alookup (s.channels ++ [(name, ({ name := name, password := if truthy? (List.head? restArgs) = true then List.head? restArgs else none, owner_key := some k } : Channel))]) name = some ({ name := name, password := if truthy? (List.head? restArgs) = true then List.head? restArgs else none, owner_key := some k } : Channel) := by
    rw [alookup_append, hlook]
    show alookup [(name, ({ name := name, password := if truthy? (List.head? restArgs) = true then List.head? restArgs else none, owner_key := some k } : Channel))] name = some ({ name := name, password := if truthy? (List.head? restArgs) = true then List.head? restArgs else none, owner_key := some k } : Channel)
    unfold alookup
    rw [if_pos rfl]
  cases hj : handle_join (fuel + 1)
      { s with channels := s.channels ++ [(name, ({ name := name, password := if truthy? (List.head? restArgs) = true then List.head? restArgs else none, owner_key := some k } : Channel))] }
      cid (name :: (if truthy? (List.head? restArgs) = true then [(List.head? restArgs).getD ""] else [])) k with
  | error f =>
    exfalso
    obtain ⟨r0, hr0⟩ := handle_join_existing_isOk fuel
      { s with channels := s.channels ++ [(name, ({ name := name, password := if truthy? (List.head? restArgs) = true then List.head? restArgs else none, owner_key := some k } : Channel))] }
      cid name (if truthy? (List.head? restArgs) = true then [(List.head? restArgs).getD ""] else []) k _ hch1
    rw [hr0] at hj
    cases hj
  | ok rj =>
    refine ⟨_, rfl, ?_⟩
    rw [countKeyMsgs_append, countKeyMsgs_append]
    rw [handle_join_existing_no_key fuel _ cid name (if truthy? (List.head? restArgs) = true then [(List.head? restArgs).getD ""] else []) k rj _ hch1 hj cid k]
    simp [countKeyMsgs, carriesKey, List.range_succ]

/-- C10 (amended): on every successful CREATE — whether or not a channel
password argument is supplied — the freshly generated ownership key is
transmitted to the creator exactly SIX times, not five: the key-is
notice, the usage instruction that embeds the key, and the four reminder
notices; the auto-join outputs carry no key. -/
theorem claim_c10_key_sent_six_times :
    ∀ (fuel : Nat) (s : ServerState) (cid : Cid) (c : Client) (name k : String)
      (restArgs : List String) (r : HRes),
      getConn s cid = some c → alookup s.channels name = none →
      strStarts name "#" = true →
      handle_create (fuel + 2) s cid (name :: restArgs) k = Except.ok r →
      countKeyMsgs r.2 cid k = 6 := by
  intro fuel s cid c name k restArgs r hg hlook hstart hcr
  obtain ⟨r', hr', hc6⟩ := create_key_count_exists fuel s cid c name k restArgs hg hlook hstart
  rw [hcr] at hr'
  injection hr' with hr2
  rw [← hr2] at hc6
  exact hc6

/-- C10 counterexample: on a concrete successful CREATE the full output
is visible and the key KEY0 appears in exactly six of the delivered
messages, refuting the count of five. -/
theorem claim_c10_counterexample :
    (stepEvent (runEvents initServer regTrace) (Event.line 0 "CREATE #room" "KEY0")).2 =
      [(0, Msg.joinNotify "a!u@1.1.1.1" "#room"),
       (0, Msg.namesReply "a" "#room" [some "a"]),
       (0, Msg.endOfNames "a" "#room"),
       (0, Msg.channelCreated "a" "#room"),
       (0, Msg.ownershipKeyIs "a" "#room" "KEY0"),
       (0, Msg.useChannelToClaim "a" "#room" "KEY0"),
       (0, Msg.keyReminder "a" "KEY0"), (0, Msg.keyReminder "a" "KEY0"),
       (0, Msg.keyReminder "a" "KEY0"), (0, Msg.keyReminder "a" "KEY0")] ∧
    countKeyMsgs
      (stepEvent (runEvents initServer regTrace) (Event.line 0 "CREATE #room" "KEY0")).2
      0 "KEY0" = 6 := by
  constructor
  · decide
  · decide

/-- Witness for C10 at two concrete CREATEs of the counterexample
trace's state: one without a password argument and one with one (the
spec's own CREATE-with-secret scenario). -/
theorem claim_c10_witness :
    countKeyMsgs
      (stepEvent (runEvents initServer regTrace) (Event.line 0 "CREATE #room" "KEY0")).2
      0 "KEY0" = 6 ∧
    countKeyMsgs
      (stepEvent (runEvents initServer regTrace) (Event.line 0 "CREATE #sec pw" "K2")).2
      0 "K2" = 6 := by
  constructor
  · exact claim_c10_key_sent_six_times 1 (runEvents initServer regTrace) 0
      { cid := 0, ip := "1.1.1.1", port := 1, nickname := some "a", username := some "u",
        realname := some "r", is_operator := false, is_registered := true, channels := [] }
      "#room" "KEY0" []
      ((stepEvent (runEvents initServer regTrace) (Event.line 0 "CREATE #room" "KEY0")).1,
       (stepEvent (runEvents initServer regTrace) (Event.line 0 "CREATE #room" "KEY0")).2)
      (by decide) (by decide) (by decide) (by rfl)
  · exact claim_c10_key_sent_six_times 1 (runEvents initServer regTrace) 0
      { cid := 0, ip := "1.1.1.1", port := 1, nickname := some "a", username := some "u",
        realname := some "r", is_operator := false, is_registered := true, channels := [] }
      "#sec" "K2" ["pw"]
      ((stepEvent (runEvents initServer regTrace) (Event.line 0 "CREATE #sec pw" "K2")).1,
       (stepEvent (runEvents initServer regTrace) (Event.line 0 "CREATE #sec pw" "K2")).2)
      (by decide) (by decide) (by decide) (by rfl)

/-- Trace for C8, channel-ban side: operator session 0 registers, gains
operator status, creates #r, and channel-bans the registered session 1
(address 2.2.2.2), who never joined. -/
def c8BanTrace : List Event :=
  [Event.accept "1.1.1.1" 1, Event.line 0 "NICK a" "K", Event.line 0 "USER u h s r" "K",
   Event.line 0 "OPER admin" "K",
   Event.accept "2.2.2.2" 2, Event.line 1 "NICK b" "K", Event.line 1 "USER u h s r" "K",
   Event.line 0 "CREATE #r" "KY",
   Event.line 0 "BAN #r b" "K"]

/-- Trace for C8, global-ban side: same prelude, but session 1's address
is globally banned instead of channel-banned. -/
def c8AllbanTrace : List Event :=
  [Event.accept "1.1.1.1" 1, Event.line 0 "NICK a" "K", Event.line 0 "USER u h s r" "K",
   Event.line 0 "OPER admin" "K",
   Event.accept "2.2.2.2" 2, Event.line 1 "NICK b" "K", Event.line 1 "USER u h s r" "K",
   Event.line 0 "CREATE #r" "KY",
   Event.line 0 "ALLBAN 2.2.2.2" "K"]

/-- The state of session 1 after either C8 trace. -/
def c8Client1 : Client :=
  { cid := 1, ip := "2.2.2.2", port := 2, nickname := some "b", username := some "u",
    realname := some "r", is_operator := false, is_registered := true, channels := [] }

/-- The state of session 0 after either C8 trace. -/
def c8Client0 : Client :=
  { cid := 0, ip := "1.1.1.1", port := 1, nickname := some "a", username := some "u",
    realname := some "r", is_operator := true, is_registered := true, channels := ["#r"] }

/-- Channel #r after the channel-ban trace. -/
def c8ChanA : Channel :=
  { name := "#r", clients := [0], topic := none, password := none, owner_key := some "KY",
    owners := [], banned_ips := ["2.2.2.2"] }

/-- Channel #r after the global-ban trace. -/
def c8ChanB : Channel :=
  { name := "#r", clients := [0], topic := none, password := none, owner_key := some "KY",
    owners := [], banned_ips := [] }

/-- The state after the channel-ban trace once the ban is lifted. -/
def c8AfterUnban : ServerState :=
  (handle_unban (runEvents initServer c8BanTrace) 0 ["#r", "2.2.2.2"]).1

/-- Channel #r in `c8AfterUnban`. -/
def c8ChanAU : Channel :=
  { name := "#r", clients := [0], topic := none, password := none, owner_key := some "KY",
    owners := [], banned_ips := [] }

/-- C8 counterexample to the "distinct failure reasons" part: the JOIN
refusal of the channel-banned session and of the globally-banned session
is one and the same 474 message — handle_join has a single ban branch
covering both sets. -/
theorem claim_c8_counterexample :
    (stepEvent (runEvents initServer c8BanTrace) (Event.line 1 "JOIN #r" "K")).2 =
      [(1, Msg.bannedFromChannel "b" "#r")] ∧
    (stepEvent (runEvents initServer c8AllbanTrace) (Event.line 1 "JOIN #r" "K")).2 =
      [(1, Msg.bannedFromChannel "b" "#r")] := by
  constructor
  · decide
  · decide

/-- C8 (amended): a registered session whose address is in the channel's
local ban set OR in the global ban set is refused JOIN by the single 474
reply (the same message in both cases, not distinct reasons) with the
state unchanged; UNBAN by an owner or operator removes the address from
the channel ban set; UNALLBAN by an operator removes it from the global
set; and a JOIN by a registered, unbanned non-member to an existing
unlocked channel succeeds, adding the session to the member set. -/
theorem claim_c8_ban_semantics :
    (∀ (fuel : Nat) (s : ServerState) (cid : Cid) (c : Client) (name : String)
        (rest : List String) (k : String) (ch : Channel),
      getConn s cid = some c → c.is_registered = true →
      alookup s.channels name = some ch →
      (c.ip ∈ ch.banned_ips ∨ c.ip ∈ s.globally_banned_ips) →
      handle_join (fuel + 1) s cid (name :: rest) k =
        Except.ok (s, [(cid, Msg.bannedFromChannel (showNick c) name)])) ∧
    (∀ (s : ServerState) (cid : Cid) (c : Client) (name tip : String)
        (rest : List String) (ch : Channel),
      getConn s cid = some c → alookup s.channels name = some ch →
      (cid ∈ ch.owners ∨ c.is_operator = true) → tip ∈ ch.banned_ips →
      handle_unban s cid (name :: tip :: rest) =
        ({ s with channels := amodify s.channels name (fun ch => { ch with banned_ips := ch.banned_ips.erase tip }) },
         [(cid, Msg.unbannedIpNotice (showNick c) tip name)])) ∧
    (∀ (s : ServerState) (cid : Cid) (c : Client) (tip : String) (rest : List String),
      getConn s cid = some c → c.is_operator = true →
      tip ∈ s.globally_banned_ips →
      handle_unallban s cid (tip :: rest) =
        ({ s with globally_banned_ips := s.globally_banned_ips.erase tip },
         [(cid, Msg.globallyUnbannedNotice (showNick c) tip)])) ∧
    (∀ (fuel : Nat) (s : ServerState) (cid : Cid) (c : Client) (name : String)
        (rest : List String) (k : String) (ch : Channel),
      getConn s cid = some c → c.is_registered = true →
      alookup s.channels name = some ch →
      ¬ c.ip ∈ ch.banned_ips → ¬ c.ip ∈ s.globally_banned_ips →
      ¬ cid ∈ ch.clients → ch.password = none →
      handle_join (fuel + 1) s cid (name :: rest) k =
        Except.ok (joinFinish s cid c name) ∧
      alookup (joinFinish s cid c name).1.channels name =
        some { ch with clients := setAdd cid ch.clients } ∧
      cid ∈ setAdd cid ch.clients) := by
  refine ⟨?_, ?_, ?_, ?_⟩
  · intro fuel s cid c name rest k ch hg hreg hch hb
    unfold handle_join
    rw [hg]
    try dsimp only
    rw [hreg]
    rw [if_neg (show ¬ (((!true) : Bool) = true) from by decide)]
    rw [hch]
    try dsimp only
    have hcond : (c.ip ∈ ch.banned_ips || c.ip ∈ s.globally_banned_ips) = true := by
      rcases hb with h | h <;> simp [h]
    rw [if_pos hcond]
  · intro s cid c name tip rest ch hg hch hauth hmem
    unfold handle_unban
    rw [hg]
    try dsimp only
    rw [hch]
    try dsimp only
    have hauthf : (!(decide (cid ∈ ch.owners)) && !c.is_operator) = false := by
      rcases hauth with h | h <;> simp [h]
    rw [hauthf]
    rw [if_neg (show ¬ ((false : Bool) = true) from by decide)]
    rw [if_pos hmem]
  · intro s cid c tip rest hg hop hmem
    unfold handle_unallban
    rw [hg]
    try dsimp only
    rw [hop]
    rw [if_neg (show ¬ (((!true) : Bool) = true) from by decide)]
    try dsimp only
    rw [if_pos hmem]
  · intro fuel s cid c name rest k ch hg hreg hch hb1 hb2 hmem hpw
    refine ⟨?_, ?_, ?_⟩
    · unfold handle_join
      rw [hg]
      try dsimp only
      rw [hreg]
      rw [if_neg (show ¬ (((!true) : Bool) = true) from by decide)]
      rw [hch]
      try dsimp only
      rw [if_neg (show ¬ ((c.ip ∈ ch.banned_ips || c.ip ∈ s.globally_banned_ips) = true)
        from by simp [hb1, hb2])]
      rw [if_neg hmem]
      rw [hpw]
      rw [if_neg (show ¬ (truthy? none = true) from by decide)]
    · show alookup (chanAddClient s name cid).channels name = _
      rw [chanAddClient_state s name cid ch hch]
      try dsimp only
      rw [alookup_amodify]
      rw [if_pos rfl]
      rw [hch]
      rfl
    · exact mem_setAdd.mpr (Or.inl rfl)

/-- Witness for C8 on the concrete traces: the channel-banned and the
globally-banned session are both refused; UNBAN and UNALLBAN remove the
address; after UNBAN the banned session's JOIN succeeds. -/
theorem claim_c8_witness :
    (handle_join 3 (runEvents initServer c8BanTrace) 1 ["#r"] "K" =
      Except.ok (runEvents initServer c8BanTrace,
        [(1, Msg.bannedFromChannel (showNick c8Client1) "#r")])) ∧
    (handle_join 3 (runEvents initServer c8AllbanTrace) 1 ["#r"] "K" =
      Except.ok (runEvents initServer c8AllbanTrace,
        [(1, Msg.bannedFromChannel (showNick c8Client1) "#r")])) ∧
    (handle_unban (runEvents initServer c8BanTrace) 0 ["#r", "2.2.2.2"] =
      ({ runEvents initServer c8BanTrace with
          channels := amodify (runEvents initServer c8BanTrace).channels "#r" (fun ch => { ch with banned_ips := ch.banned_ips.erase "2.2.2.2" }) },
       [(0, Msg.unbannedIpNotice (showNick c8Client0) "2.2.2.2" "#r")])) ∧
    (handle_unallban (runEvents initServer c8AllbanTrace) 0 ["2.2.2.2"] =
      ({ runEvents initServer c8AllbanTrace with
          globally_banned_ips :=
            (runEvents initServer c8AllbanTrace).globally_banned_ips.erase "2.2.2.2" },
       [(0, Msg.globallyUnbannedNotice (showNick c8Client0) "2.2.2.2")])) ∧
    (handle_join 3 c8AfterUnban 1 ["#r"] "K" =
      Except.ok (joinFinish c8AfterUnban 1 c8Client1 "#r") ∧
     alookup (joinFinish c8AfterUnban 1 c8Client1 "#r").1.channels "#r" =
       some { c8ChanAU with clients := setAdd 1 c8ChanAU.clients } ∧
     1 ∈ setAdd 1 c8ChanAU.clients) := by
  refine ⟨?_, ?_, ?_, ?_, ?_⟩
  · exact claim_c8_ban_semantics.1 2 (runEvents initServer c8BanTrace) 1 c8Client1
      "#r" [] "K" c8ChanA (by decide) (by decide) (by decide) (Or.inl (by decide))
  · exact claim_c8_ban_semantics.1 2 (runEvents initServer c8AllbanTrace) 1 c8Client1
      "#r" [] "K" c8ChanB (by decide) (by decide) (by decide) (Or.inr (by decide))
  · exact claim_c8_ban_semantics.2.1 (runEvents initServer c8BanTrace) 0 c8Client0
      "#r" "2.2.2.2" [] c8ChanA (by decide) (by decide) (Or.inr (by decide)) (by decide)
  · exact claim_c8_ban_semantics.2.2.1 (runEvents initServer c8AllbanTrace) 0 c8Client0
      "2.2.2.2" [] (by decide) (by decide) (by decide)
  · exact claim_c8_ban_semantics.2.2.2 2 c8AfterUnban 1 c8Client1 "#r" [] "K" c8ChanAU
      (by decide) (by decide) (by decide) (by decide) (by decide) (by decide) (by decide)

/-- Running any event list from a reachable state stays reachable. -/
theorem reachable_runEvents (es : List Event) : ∀ s : ServerState,
    Reachable s → Reachable (runEvents s es) := by
  induction es with
  | nil => intro s h; exact h
  | cons e es ih => intro s h; exact ih _ (Reachable.step s e h)

/-- C4 failing input: connection 0 claims bob and pipelines QUIT followed
by a further NICK; the read loop does not break on QUIT, so the
disconnected (zombie) session object still processes the later line.
Connection 1 then claims bob; the zombie's NICK carol deletes the map
entry for bob — which now belongs to connection 1 — so connection 2's
claim of bob is not refused. -/
def c4Trace : List Event :=
  [Event.accept "9.0.0.1" 1, Event.accept "9.0.0.2" 2, Event.accept "9.0.0.3" 3,
   Event.line 0 "NICK bob" "K", Event.line 0 "QUIT" "K", Event.line 1 "NICK bob" "K",
   Event.line 0 "NICK carol" "K", Event.line 2 "NICK bob" "K"]

/-- C4 is a bug in the code, not a spec divergence to amend: after the
reachable trace `c4Trace`, the live sessions 1 and 2 simultaneously hold
the nickname bob, the nickname map sends bob to session 2 only (so it no
longer reflects session 1's nickname), and it maps carol to the dead
session 0.  handle_nick deletes the old-nickname map entry without
checking that the entry points to the acting session, and the read loop
keeps serving a session after QUIT has torn it down. -/
theorem claim_c4_nickname_collision_bug :
    Reachable (runEvents initServer c4Trace) ∧
    1 ∈ (runEvents initServer c4Trace).clients ∧
    2 ∈ (runEvents initServer c4Trace).clients ∧
    (getConn (runEvents initServer c4Trace) 1).map (fun c => c.nickname) =
      some (some "bob") ∧
    (getConn (runEvents initServer c4Trace) 2).map (fun c => c.nickname) =
      some (some "bob") ∧
    alookup (runEvents initServer c4Trace).nicknames "bob" = some 2 ∧
    alookup (runEvents initServer c4Trace).nicknames "carol" = some 0 ∧
    ¬ 0 ∈ (runEvents initServer c4Trace).clients := by
  refine ⟨reachable_runEvents c4Trace initServer Reachable.init,
    by decide, by decide, by decide, by decide, by decide, by decide, by decide⟩

/-- The registration flag of the session object behind a connection id
(none when no such object exists). -/
def regOf (s : ServerState) (x : Cid) : Option Bool :=
  (getConn s x).map (fun c => c.is_registered)

/-- The nickname of the session object behind a connection id. -/
def nickOf (s : ServerState) (x : Cid) : Option (Option String) :=
  (getConn s x).map (fun c => c.nickname)

/-- The ownership key of every channel, keyed by name, is the same in the
two states (no channel appears, disappears, or changes key). -/
def okeyPres (s s' : ServerState) : Prop :=
  ∀ n, (alookup s'.channels n).map Channel.owner_key =
    (alookup s.channels n).map Channel.owner_key

/-- A channel present in both states has the same ownership key in both:
the key generated at creation never rotates. -/
def keyStable (s s' : ServerState) : Prop :=
  ∀ n ch ch', alookup s.channels n = some ch →
    alookup s'.channels n = some ch' → ch'.owner_key = ch.owner_key

/-- Whether a message is the 001 welcome. -/
def isWelcome : Msg → Bool
  | Msg.welcome _ => true
  | _ => false

/-- No delivered message is the 001 welcome. -/
def noWelcome (out : Out) : Prop := ∀ p ∈ out, isWelcome p.2 = false

/-- A handler run that keeps every ownership key, keeps every session's
registration flag, and emits no welcome. -/
def Quiet (s : ServerState) (r : HRes) : Prop :=
  okeyPres s r.1 ∧ (∀ x, regOf r.1 x = regOf s x) ∧ noWelcome r.2

/-- As Quiet, but only key stability (channels may be deleted). -/
def QuietK (s : ServerState) (r : HRes) : Prop :=
  keyStable s r.1 ∧ (∀ x, regOf r.1 x = regOf s x) ∧ noWelcome r.2

theorem okeyPres_refl (s : ServerState) : okeyPres s s := fun _ => rfl

theorem okeyPres_trans {s1 s2 s3 : ServerState} (h12 : okeyPres s1 s2)
    (h23 : okeyPres s2 s3) : okeyPres s1 s3 :=
  fun n => (h23 n).trans (h12 n)

theorem okeyPres_of_channels_eq {s s' : ServerState}
    (h : s'.channels = s.channels) : okeyPres s s' := by
  intro n
  rw [h]

theorem okeyPres_keyStable {s s' : ServerState} (h : okeyPres s s') :
    keyStable s s' := by
  intro n ch ch' h1 h2
  have h3 := h n
  rw [h1, h2] at h3
  exact Option.some.inj h3

theorem quiet_quietk {s : ServerState} {r : HRes} (h : Quiet s r) : QuietK s r :=
  ⟨okeyPres_keyStable h.1, h.2.1, h.2.2⟩

theorem okeyPres_amodify (s : ServerState) (k : String) (f : Channel → Channel)
    (hf : ∀ ch, (f ch).owner_key = ch.owner_key) :
    okeyPres s { s with channels := amodify s.channels k f } := by
  intro n
  show (alookup (amodify s.channels k f) n).map _ = _
  rw [alookup_amodify]
  by_cases hn : n = k
  · rw [if_pos hn]
    cases alookup s.channels n with
    | none => rfl
    | some ch =>
      show some ((f ch).owner_key) = some ch.owner_key
      rw [hf]
  · rw [if_neg hn]

theorem okeyPres_chanAdd (s : ServerState) (name : String) (cid : Cid) :
    okeyPres s (chanAddClient s name cid) := by
  unfold chanAddClient
  cases h : alookup s.channels name with
  | none => exact okeyPres_refl s
  | some ch =>
    try dsimp only
    exact okeyPres_amodify s name
      (fun ch => { ch with clients := setAdd cid ch.clients }) (fun ch => rfl)

theorem okeyPres_chanRemove (s : ServerState) (name : String) (cid : Cid) :
    okeyPres s (chanRemoveClient s name cid) := by
  unfold chanRemoveClient
  cases h : alookup s.channels name with
  | none => exact okeyPres_refl s
  | some ch =>
    try dsimp only
    split
    · exact okeyPres_amodify s name
        (fun ch => { ch with clients := ch.clients.erase cid }) (fun ch => rfl)
    · exact okeyPres_refl s

theorem getConn_cid {s : ServerState} {cid : Cid} {c : Client}
    (h : getConn s cid = some c) : c.cid = cid :=
  (getConn_mem h).2

theorem regOf_updConn (s : ServerState) (cid : Cid) (f : Client → Client)
    (hfc : ∀ c, (f c).cid = c.cid) (hfr : ∀ c, (f c).is_registered = c.is_registered)
    (x : Cid) : regOf (updConn s cid f) x = regOf s x := by
  unfold regOf
  rw [getConn_updConn s cid f hfc x]
  cases getConn s x with
  | none => rfl
  | some c =>
    show some (if c.cid = cid then f c else c).is_registered = some c.is_registered
    by_cases h : c.cid = cid
    · rw [if_pos h, hfr]
    · rw [if_neg h]

theorem regOf_chanAdd (s : ServerState) (name : String) (cid : Cid) (x : Cid) :
    regOf (chanAddClient s name cid) x = regOf s x := by
  unfold chanAddClient
  cases h : alookup s.channels name with
  | none => rfl
  | some ch =>
    try dsimp only
    rw [regOf_updConn _ cid (fun c => { c with channels := setAdd name c.channels })
      (fun c => rfl) (fun c => rfl) x]
    rfl

theorem regOf_chanRemove (s : ServerState) (name : String) (cid : Cid) (x : Cid) :
    regOf (chanRemoveClient s name cid) x = regOf s x := by
  unfold chanRemoveClient
  cases h : alookup s.channels name with
  | none => rfl
  | some ch =>
    try dsimp only
    split
    · rw [regOf_updConn _ cid (fun c => { c with channels := c.channels.erase name })
        (fun c => rfl) (fun c => rfl) x]
      rfl
    · rfl

theorem noWelcome_nil : noWelcome [] := by
  intro p hp
  cases hp

theorem noWelcome_cons {p : Cid × Msg} {l : Out} (hm : isWelcome p.2 = false)
    (hl : noWelcome l) : noWelcome (p :: l) := by
  intro q hq
  cases hq with
  | head => exact hm
  | tail _ hq => exact hl q hq

theorem noWelcome_append {a b : Out} (ha : noWelcome a) (hb : noWelcome b) :
    noWelcome (a ++ b) := by
  intro q hq
  rcases List.mem_append.mp hq with h | h
  · exact ha q h
  · exact hb q h

theorem noWelcome_map {α : Type} (g : α → Cid × Msg)
    (hg : ∀ a, isWelcome (g a).2 = false) (l : List α) : noWelcome (l.map g) := by
  intro q hq
  rcases List.mem_map.mp hq with ⟨a, _, rfl⟩
  exact hg a

theorem noWelcome_broadcast (s : ServerState) (name : String) (m : Msg)
    (excl : Option Cid) (hm : isWelcome m = false) :
    noWelcome (broadcastCh s name m excl) := by
  unfold broadcastCh
  cases alookup s.channels name with
  | none => exact noWelcome_nil
  | some ch => exact noWelcome_map _ (fun a => hm) _

theorem noWelcome_foldl {α : Type} (f : Out → α → Out)
    (hf : ∀ acc a, noWelcome acc → noWelcome (f acc a)) :
    ∀ (l : List α) (acc : Out), noWelcome acc → noWelcome (l.foldl f acc) := by
  intro l
  induction l with
  | nil => intro acc h; exact h
  | cons a l ih => intro acc h; exact ih _ (hf acc a h)

theorem foldl_pres2 {σ α : Type} (P : σ → Prop) (f : σ → α → σ)
    (hf : ∀ acc a, P acc → P (f acc a)) :
    ∀ (l : List α) (acc : σ), P acc → P (l.foldl f acc) := by
  intro l
  induction l with
  | nil => intro acc h; exact h
  | cons a l ih => intro acc h; exact ih _ (hf acc a h)

theorem quiet_refl_out (s : ServerState) (out : Out) (h : noWelcome out) :
    Quiet s (s, out) :=
  ⟨okeyPres_refl s, fun _ => rfl, h⟩

theorem quiet_comp {s : ServerState} {acc r : HRes} (h1 : Quiet s acc)
    (h2 : Quiet acc.1 r) : Quiet s (r.1, acc.2 ++ r.2) :=
  ⟨okeyPres_trans h1.1 h2.1, fun x => (h2.2.1 x).trans (h1.2.1 x),
   noWelcome_append h1.2.2 h2.2.2⟩

theorem quiet_handle_ping (s : ServerState) (cid : Cid) (args : List String) :
    Quiet s (handle_ping s cid args) :=
  quiet_refl_out _ _ (noWelcome_cons rfl noWelcome_nil)

theorem quiet_handle_msg (s : ServerState) (cid : Cid) (args : List String) :
    Quiet s (handle_msg s cid args) := by
  unfold handle_msg
  try dsimp only
  repeat' split
  all_goals first
    | exact quiet_refl_out _ _ noWelcome_nil
    | exact quiet_refl_out _ _ (noWelcome_cons rfl noWelcome_nil)
    | exact quiet_refl_out _ _ (noWelcome_broadcast _ _ _ _ rfl)

theorem quiet_handle_list (s : ServerState) (cid : Cid) (args : List String) :
    Quiet s (handle_list s cid args) := by
  unfold handle_list
  try dsimp only
  repeat' split
  all_goals refine quiet_refl_out _ _ ?_
  all_goals try simp only [List.cons_append, List.nil_append]
  all_goals first
    | exact noWelcome_nil
    | exact noWelcome_cons rfl noWelcome_nil
    | exact noWelcome_cons rfl (noWelcome_cons rfl (noWelcome_cons rfl noWelcome_nil))
    | exact noWelcome_cons rfl (noWelcome_append (noWelcome_cons rfl noWelcome_nil)
        (noWelcome_cons rfl noWelcome_nil))
    | (refine noWelcome_cons rfl (noWelcome_append ?_ (noWelcome_cons rfl noWelcome_nil))
       refine noWelcome_foldl _ ?_ _ _ noWelcome_nil
       intro acc p h
       exact noWelcome_append h (noWelcome_cons rfl noWelcome_nil))

theorem quiet_handle_help (s : ServerState) (cid : Cid) (args : List String) :
    Quiet s (handle_help s cid args) := by
  unfold handle_help
  try dsimp only
  repeat' split
  all_goals refine quiet_refl_out _ _ ?_
  all_goals first
    | exact noWelcome_nil
    | exact noWelcome_cons rfl noWelcome_nil
    | (refine noWelcome_map _ ?_ _
       intro t
       rfl)

theorem quiet_handle_listallban (s : ServerState) (cid : Cid) (args : List String) :
    Quiet s (handle_listallban s cid args) := by
  unfold handle_listallban
  try dsimp only
  repeat' split
  all_goals refine quiet_refl_out _ _ ?_
  all_goals try simp only [List.cons_append, List.nil_append]
  all_goals first
    | exact noWelcome_nil
    | exact noWelcome_cons rfl noWelcome_nil
    | (refine noWelcome_cons rfl (noWelcome_append ?_ (noWelcome_cons rfl noWelcome_nil))
       refine noWelcome_map _ ?_ _
       intro a
       rfl)

theorem quiet_handle_oper (s : ServerState) (cid : Cid) (args : List String) :
    Quiet s (handle_oper s cid args) := by
  unfold handle_oper
  try dsimp only
  repeat' split
  all_goals first
    | exact quiet_refl_out _ _ noWelcome_nil
    | exact quiet_refl_out _ _ (noWelcome_cons rfl noWelcome_nil)
    | exact ⟨okeyPres_refl s,
        fun x => regOf_updConn _ cid (fun c => { c with is_operator := true })
          (fun c => rfl) (fun c => rfl) x,
        noWelcome_cons rfl noWelcome_nil⟩

theorem quiet_handle_channel (s : ServerState) (cid : Cid) (args : List String) :
    Quiet s (handle_channel s cid args) := by
  unfold handle_channel
  try dsimp only
  repeat' split
  all_goals first
    | exact quiet_refl_out _ _ noWelcome_nil
    | exact quiet_refl_out _ _ (noWelcome_cons rfl noWelcome_nil)
    | exact ⟨okeyPres_amodify s _ (fun ch => { ch with owners := setAdd cid ch.owners })
          (fun ch => rfl),
        fun x => rfl, noWelcome_cons rfl noWelcome_nil⟩

theorem quiet_handle_unban (s : ServerState) (cid : Cid) (args : List String) :
    Quiet s (handle_unban s cid args) := by
  unfold handle_unban
  try dsimp only
  repeat' split
  all_goals first
    | exact quiet_refl_out _ _ noWelcome_nil
    | exact quiet_refl_out _ _ (noWelcome_cons rfl noWelcome_nil)
    | exact ⟨okeyPres_amodify s _
          (fun ch => { ch with banned_ips := ch.banned_ips.erase _ }) (fun ch => rfl),
        fun x => rfl, noWelcome_cons rfl noWelcome_nil⟩

theorem quiet_handle_unallban (s : ServerState) (cid : Cid) (args : List String) :
    Quiet s (handle_unallban s cid args) := by
  unfold handle_unallban
  try dsimp only
  repeat' split
  all_goals first
    | exact quiet_refl_out _ _ noWelcome_nil
    | exact quiet_refl_out _ _ (noWelcome_cons rfl noWelcome_nil)
    | exact ⟨okeyPres_refl s, fun x => rfl, noWelcome_cons rfl noWelcome_nil⟩

theorem quiet_handle_kick (s : ServerState) (cid : Cid) (args : List String) :
    Quiet s (handle_kick s cid args) := by
  unfold handle_kick
  try dsimp only
  repeat' split
  all_goals first
    | exact quiet_refl_out _ _ noWelcome_nil
    | exact quiet_refl_out _ _ (noWelcome_cons rfl noWelcome_nil)
    | exact ⟨okeyPres_chanRemove _ _ _, fun x => regOf_chanRemove _ _ _ x,
        noWelcome_broadcast _ _ _ _ rfl⟩

theorem quiet_handle_ban (s : ServerState) (cid : Cid) (args : List String) :
    Quiet s (handle_ban s cid args) := by
  unfold handle_ban
  try dsimp only
  repeat' split
  all_goals first
    | exact quiet_refl_out _ _ noWelcome_nil
    | exact quiet_refl_out _ _ (noWelcome_cons rfl noWelcome_nil)
    | exact ⟨okeyPres_amodify s _
          (fun ch => { ch with banned_ips := setAdd _ ch.banned_ips }) (fun ch => rfl),
        fun x => rfl, noWelcome_cons rfl noWelcome_nil⟩
    | exact ⟨okeyPres_trans
          (okeyPres_amodify s _
            (fun ch => { ch with banned_ips := setAdd _ ch.banned_ips }) (fun ch => rfl))
          (quiet_handle_kick _ _ _).1,
        fun x => ((quiet_handle_kick _ _ _).2.1 x),
        noWelcome_append (noWelcome_cons rfl noWelcome_nil)
          (quiet_handle_kick _ _ _).2.2⟩

theorem quiet_handle_allban (s : ServerState) (cid : Cid) (args : List String) :
    Quiet s (handle_allban s cid args) := by
  unfold handle_allban
  try dsimp only
  repeat' split
  all_goals try exact quiet_refl_out _ _ noWelcome_nil
  all_goals try exact quiet_refl_out _ _ (noWelcome_cons rfl noWelcome_nil)
  all_goals
    refine foldl_pres2 (Quiet s) _ ?_ _ _
      ⟨okeyPres_refl s, fun x => rfl, noWelcome_cons rfl noWelcome_nil⟩
  all_goals
    intro acc ucid hacc
    try dsimp only
    split
  all_goals try exact hacc
  all_goals split
  all_goals first
    | exact hacc
    | (refine foldl_pres2 (Quiet s) _ ?_ _ _ hacc
       intro acc2 nm hacc2
       exact quiet_comp hacc2 (quiet_handle_kick _ _ _))

theorem quiet_disconnect (s : ServerState) (cid : Cid) (reason : String) :
    Quiet s (disconnect_client s cid reason) := by
  unfold disconnect_client
  split
  · split
    · exact quiet_refl_out _ _ noWelcome_nil
    · rename_i c hg
      try dsimp only
      have hq : ∀ (l : List String) (acc : HRes), Quiet s acc →
          Quiet s (l.foldl (fun acc name => ((chanRemoveClient acc.1 name cid),
            acc.2 ++ broadcastCh (chanRemoveClient acc.1 name cid) name
              (Msg.partNotify (prefixOf c) name reason) none)) acc) := by
        intro l acc h
        refine foldl_pres2 (Quiet s) _ ?_ l acc h
        intro acc2 nm hacc2
        exact ⟨okeyPres_trans hacc2.1 (okeyPres_chanRemove _ _ _),
          fun x => (regOf_chanRemove _ _ _ x).trans (hacc2.2.1 x),
          noWelcome_append hacc2.2.2 (noWelcome_broadcast _ _ _ _ rfl)⟩
      have hr1 := hq c.channels (s, []) (quiet_refl_out _ _ noWelcome_nil)
      refine ⟨?_, fun x => ?_, hr1.2.2⟩
      · split
        · exact hr1.1
        · exact hr1.1
      · split
        · exact hr1.2.1 x
        · exact hr1.2.1 x
  · exact quiet_refl_out _ _ noWelcome_nil

theorem quiet_handle_quit (s : ServerState) (cid : Cid) (args : List String) :
    Quiet s (handle_quit s cid args) :=
  quiet_disconnect s cid _

theorem quietk_handle_part (s : ServerState) (cid : Cid) (args : List String) :
    QuietK s (handle_part s cid args) := by
  unfold handle_part
  cases hg : getConn s cid with
  | none => exact quiet_quietk (quiet_refl_out _ _ noWelcome_nil)
  | some c =>
    try dsimp only
    cases args with
    | nil => exact quiet_quietk (quiet_refl_out _ _ (noWelcome_cons rfl noWelcome_nil))
    | cons name restArgs =>
      try dsimp only
      cases hch : alookup s.channels name with
      | none => exact quiet_quietk (quiet_refl_out _ _ (noWelcome_cons rfl noWelcome_nil))
      | some ch =>
        try dsimp only
        by_cases hmem : cid ∈ ch.clients
        · rw [if_pos hmem]
          try dsimp only
          cases hch1 : alookup (chanRemoveClient s name cid).channels name with
          | none =>
            exact quiet_quietk ⟨okeyPres_chanRemove _ _ _,
              fun x => regOf_chanRemove _ _ _ x, noWelcome_broadcast _ _ _ _ rfl⟩
          | some ch1 =>
            try dsimp only
            by_cases hcond : (ch1.clients.isEmpty && !(ch1.name == "#global")) = true
            · rw [if_pos hcond]
              refine ⟨?_, fun x => regOf_chanRemove _ _ _ x,
                noWelcome_broadcast _ _ _ _ rfl⟩
              intro n ch0 ch0' h0 h0'
              have h0'' : alookup (aerase (chanRemoveClient s name cid).channels name) n =
                  some ch0' := h0'
              rw [alookup_aerase] at h0''
              by_cases hn : n = name
              · rw [if_pos hn] at h0''
                cases h0''
              · rw [if_neg hn] at h0''
                exact okeyPres_keyStable (okeyPres_chanRemove s name cid) n ch0 ch0' h0 h0''
            · rw [if_neg hcond]
              exact quiet_quietk ⟨okeyPres_chanRemove _ _ _,
                fun x => regOf_chanRemove _ _ _ x, noWelcome_broadcast _ _ _ _ rfl⟩
        · rw [if_neg hmem]
          exact quiet_quietk (quiet_refl_out _ _ (noWelcome_cons rfl noWelcome_nil))

theorem quietk_join_create : ∀ fuel : Nat,
    (∀ s cid args k r, handle_join fuel s cid args k = Except.ok r → QuietK s r) ∧
    (∀ s cid args k r, handle_create fuel s cid args k = Except.ok r → QuietK s r) := by
  intro fuel
  induction fuel with
  | zero =>
    constructor
    · intro s cid args k r hok
      cases hok
    · intro s cid args k r hok
      cases hok
  | succ fuel ih =>
    constructor
    · intro s cid args k r hok
      unfold handle_join at hok
      split at hok
      · injection hok with hok2
        subst hok2
        exact quiet_quietk (quiet_refl_out _ _ noWelcome_nil)
      · rename_i c hg
        try dsimp only at hok
        split at hok
        · injection hok with hok2
          subst hok2
          exact quiet_quietk (quiet_refl_out _ _ (noWelcome_cons rfl noWelcome_nil))
        · split at hok
          · injection hok with hok2
            subst hok2
            exact quiet_quietk (quiet_refl_out _ _ (noWelcome_cons rfl noWelcome_nil))
          · rename_i name restArgs
            split at hok
            · split at hok
              · injection hok with hok2
                subst hok2
                exact quiet_quietk (quiet_refl_out _ _ (noWelcome_cons rfl noWelcome_nil))
              · exact ih.2 _ _ _ _ _ hok
            · rename_i ch hch
              split at hok
              · injection hok with hok2
                subst hok2
                exact quiet_quietk (quiet_refl_out _ _ (noWelcome_cons rfl noWelcome_nil))
              · split at hok
                · injection hok with hok2
                  subst hok2
                  exact quiet_quietk (quiet_refl_out _ _ noWelcome_nil)
                · have hjf : QuietK s (joinFinish s cid c name) := by
                    unfold joinFinish
                    try dsimp only
                    exact quiet_quietk ⟨okeyPres_chanAdd _ _ _,
                      fun x => regOf_chanAdd _ _ _ x,
                      noWelcome_append (noWelcome_broadcast _ _ _ _ rfl)
                        (noWelcome_cons rfl (noWelcome_cons rfl noWelcome_nil))⟩
                  split at hok
                  · split at hok
                    · injection hok with hok2
                      subst hok2
                      exact quiet_quietk (quiet_refl_out _ _ (noWelcome_cons rfl noWelcome_nil))
                    · injection hok with hok2
                      subst hok2
                      exact hjf
                  · injection hok with hok2
                    subst hok2
                    exact hjf
    · intro s cid args k r hok
      unfold handle_create at hok
      split at hok
      · injection hok with hok2
        subst hok2
        exact quiet_quietk (quiet_refl_out _ _ noWelcome_nil)
      · rename_i c hg
        try dsimp only at hok
        split at hok
        · injection hok with hok2
          subst hok2
          exact quiet_quietk (quiet_refl_out _ _ (noWelcome_cons rfl noWelcome_nil))
        · split at hok
          · injection hok with hok2
            subst hok2
            exact quiet_quietk (quiet_refl_out _ _ (noWelcome_cons rfl noWelcome_nil))
          · rename_i name restArgs
            split at hok
            · injection hok with hok2
              subst hok2
              exact quiet_quietk (quiet_refl_out _ _ (noWelcome_cons rfl noWelcome_nil))
            · split at hok
              · injection hok with hok2
                subst hok2
                exact quiet_quietk (quiet_refl_out _ _ (noWelcome_cons rfl noWelcome_nil))
              · rename_i hlooks
                split at hok
                · cases hok
                · rename_i rj hrj
                  injection hok with hok2
                  subst hok2
                  have hq := ih.1 _ _ _ _ _ hrj
                  refine ⟨?_, fun x => hq.2.1 x, ?_⟩
                  · intro n ch0 ch0' h0 h0'
                    refine hq.1 n ch0 ch0' ?_ h0'
                    show alookup (s.channels ++ [(name, ({ name := name, owner_key := some k, password := if truthy? restArgs.head? then restArgs.head? else none } : Channel))]) n = some ch0
                    rw [alookup_append, h0]
                    rfl
                  · refine noWelcome_append (noWelcome_append hq.2.2
                      (noWelcome_cons rfl (noWelcome_cons rfl
                        (noWelcome_cons rfl noWelcome_nil)))) ?_
                    refine noWelcome_map _ ?_ _
                    intro a
                    rfl

theorem check_registration_channels (s : ServerState) (cid : Cid) :
    (check_registration s cid).1.channels = s.channels := by
  unfold check_registration
  repeat' split
  all_goals rfl

theorem handle_nick_channels (s : ServerState) (cid : Cid) (args : List String) :
    (handle_nick s cid args).1.channels = s.channels := by
  unfold handle_nick
  try dsimp only
  repeat' split
  all_goals try rfl
  all_goals rw [check_registration_channels]
  all_goals rfl

theorem handle_user_channels (s : ServerState) (cid : Cid) (args : List String) :
    (handle_user s cid args).1.channels = s.channels := by
  unfold handle_user
  try dsimp only
  repeat' split
  all_goals try rfl
  all_goals rw [check_registration_channels]
  all_goals rfl

/-- The exact welcome discipline of one handler run: a welcome to `x`
carrying nickname `n` is emitted exactly when `x`'s session crossed from
unregistered to registered and now carries that nickname; every welcome
is paired with the 002 your-host line; and registration never reverts. -/
def WSpec (s : ServerState) (r : HRes) : Prop :=
  (∀ x n, ((x, Msg.welcome n) ∈ r.2 ↔
    (regOf s x = some false ∧ regOf r.1 x = some true ∧
      nickOf r.1 x = some (some n)))) ∧
  (∀ x n, (x, Msg.welcome n) ∈ r.2 → (x, Msg.yourHost n) ∈ r.2) ∧
  (∀ x, regOf s x = some true → regOf r.1 x = some true)

theorem wspec_of_quiet {s : ServerState} {r : HRes}
    (hreg : ∀ x, regOf r.1 x = regOf s x) (hnw : noWelcome r.2) : WSpec s r := by
  refine ⟨fun x n => ⟨fun hmem => ?_, fun hrte => ?_⟩, fun x n hmem => ?_,
    fun x h1 => ?_⟩
  · exact absurd (hnw _ hmem) (by simp [isWelcome])
  · obtain ⟨h1, h2, _⟩ := hrte
    rw [hreg x, h1] at h2
    exact absurd h2 (by decide)
  · exact absurd (hnw _ hmem) (by simp [isWelcome])
  · rw [hreg x]
    exact h1

theorem wspec_comp {s s3 : ServerState} {r : HRes}
    (hreg : ∀ x, regOf s3 x = regOf s x) {out1 : Out} (hnw : noWelcome out1)
    (hw : WSpec s3 r) : WSpec s (r.1, out1 ++ r.2) := by
  have hmm : ∀ x n, (((x, Msg.welcome n) ∈ out1 ++ r.2) ↔ ((x, Msg.welcome n) ∈ r.2)) := by
    intro x n
    constructor
    · intro h
      rcases List.mem_append.mp h with h | h
      · exact absurd (hnw _ h) (by simp [isWelcome])
      · exact h
    · intro h
      exact List.mem_append_right _ h
  refine ⟨fun x n => ?_, fun x n hmem => ?_, fun x h1 => ?_⟩
  · constructor
    · intro h
      have h2 := (hw.1 x n).mp ((hmm x n).mp h)
      exact ⟨(hreg x).symm.trans h2.1, h2.2.1, h2.2.2⟩
    · intro h
      exact (hmm x n).mpr ((hw.1 x n).mpr ⟨(hreg x).trans h.1, h.2.1, h.2.2⟩)
  · exact List.mem_append_right _ (hw.2.1 x n ((hmm x n).mp hmem))
  · exact hw.2.2 x ((hreg x).trans h1)

theorem wspec_check_registration (s : ServerState) (cid : Cid) :
    WSpec s (check_registration s cid) := by
  unfold check_registration
  cases hg : getConn s cid with
  | none => exact wspec_of_quiet (fun x => rfl) noWelcome_nil
  | some c =>
    try dsimp only
    by_cases hcond : (!c.is_registered && truthy? c.nickname && truthy? c.username) = true
    · rw [if_pos hcond]
      have hregf : c.is_registered = false := by
        cases h : c.is_registered
        · rfl
        · rw [h] at hcond
          exact absurd hcond (by simp)
      have htn : truthy? c.nickname = true := by
        cases h : truthy? c.nickname
        · rw [h] at hcond
          exact absurd hcond (by simp)
        · rfl
      obtain ⟨v, hv⟩ : ∃ v, c.nickname = some v := by
        cases h : c.nickname with
        | none =>
          rw [h] at htn
          exact absurd htn (by decide)
        | some v => exact ⟨v, rfl⟩
      have hcid : c.cid = cid := getConn_cid hg
      have hgc' : getConn (updConn s cid (fun c => { c with is_registered := true })) cid =
          some { c with is_registered := true } := by
        rw [getConn_updConn s cid (fun c => { c with is_registered := true })
          (fun c => rfl) cid, hg]
        show some (if c.cid = cid then _ else c) = _
        rw [if_pos hcid]
      have hgne : ∀ x, ¬ x = cid →
          getConn (updConn s cid (fun c => { c with is_registered := true })) x =
            getConn s x := by
        intro x hx
        rw [getConn_updConn s cid (fun c => { c with is_registered := true })
          (fun c => rfl) x]
        cases hgx : getConn s x with
        | none => rfl
        | some cx =>
          have hcx : cx.cid = x := getConn_cid hgx
          show some (if cx.cid = cid then _ else cx) = some cx
          rw [if_neg (by rw [hcx]; exact hx)]
      refine ⟨fun x n => ?_, fun x n hmem => ?_, fun x h1 => ?_⟩
      · constructor
        · intro hmem
          have hxn : x = cid ∧ n = c.nickname.getD "" := by
            simp [IS_TESTING, Prod.ext_iff] at hmem
            tauto
          obtain ⟨hx, hn⟩ := hxn
          subst hx
          subst hn
          refine ⟨?_, ?_, ?_⟩
          · simp [regOf, hg, hregf]
          · simp [regOf, hgc']
          · simp [nickOf, hgc', hv]
        · rintro ⟨h1, h2, h3⟩
          by_cases hx : x = cid
          · subst hx
            have h3' : (some (some v) : Option (Option String)) = some (some n) := by
              rw [← h3]
              simp [nickOf, hgc', hv]
            have hnv : n = v := by
              injection h3' with h4
              injection h4 with h5
              exact h5.symm
            subst hnv
            simp [IS_TESTING, hv]
          · exfalso
            have h2' : regOf s x = some true := by
              unfold regOf at h2 ⊢
              rw [← hgne x hx]
              exact h2
            exact absurd (h1.symm.trans h2') (by decide)
      · have hxn : x = cid ∧ n = c.nickname.getD "" := by
          simp [IS_TESTING, Prod.ext_iff] at hmem
          tauto
        obtain ⟨hx, hn⟩ := hxn
        subst hx
        subst hn
        simp [IS_TESTING]
      · by_cases hx : x = cid
        · exfalso
          have h0 : regOf s cid = some false := by simp [regOf, hg, hregf]
          exact absurd (h0.symm.trans (hx ▸ h1)) (by decide)
        · unfold regOf at h1 ⊢
          rw [hgne x hx]
          exact h1
    · rw [if_neg hcond]
      exact wspec_of_quiet (fun x => rfl) noWelcome_nil

theorem wspec_comp0 {s s3 : ServerState} {r : HRes}
    (hreg : ∀ x, regOf s3 x = regOf s x) (hw : WSpec s3 r) : WSpec s r := by
  refine ⟨fun x n => ?_, hw.2.1, fun x h1 => hw.2.2 x ((hreg x).trans h1)⟩
  rw [hw.1 x n]
  constructor
  · intro h
    exact ⟨(hreg x).symm.trans h.1, h.2.1, h.2.2⟩
  · intro h
    exact ⟨(hreg x).trans h.1, h.2.1, h.2.2⟩

theorem wspec_handle_user (s : ServerState) (cid : Cid) (args : List String) :
    WSpec s (handle_user s cid args) := by
  unfold handle_user
  cases hg : getConn s cid with
  | none => exact wspec_of_quiet (fun x => rfl) noWelcome_nil
  | some c =>
    try dsimp only
    split
    · exact wspec_of_quiet (fun x => rfl) (noWelcome_cons rfl noWelcome_nil)
    · split
      · exact wspec_of_quiet (fun x => rfl) (noWelcome_cons rfl noWelcome_nil)
      · refine wspec_comp0 ?_ (wspec_check_registration _ cid)
        exact fun x => regOf_updConn s cid (fun c => { c with username := some (args.headD ""), realname := some (stripLeadingColons (args.getD 3 "")) }) (fun c => rfl) (fun c => rfl) x

theorem wspec_handle_nick (s : ServerState) (cid : Cid) (args : List String) :
    WSpec s (handle_nick s cid args) := by
  unfold handle_nick
  cases hg : getConn s cid with
  | none => exact wspec_of_quiet (fun x => rfl) noWelcome_nil
  | some c =>
    try dsimp only
    cases args with
    | nil => exact wspec_of_quiet (fun x => rfl) (noWelcome_cons rfl noWelcome_nil)
    | cons newNick rest =>
      try dsimp only
      split
      · exact wspec_of_quiet (fun x => rfl) (noWelcome_cons rfl noWelcome_nil)
      · split
        all_goals
          refine wspec_comp ?_ ?_ (wspec_check_registration _ cid)
        all_goals (try exact fun x => regOf_updConn _ cid (fun c => { c with nickname := some newNick }) (fun c => rfl) (fun c => rfl) x)
        all_goals split
        all_goals first
          | exact noWelcome_nil
          | (refine noWelcome_cons rfl ?_
             refine noWelcome_foldl _ ?_ _ _ noWelcome_nil
             intro acc nm h
             exact noWelcome_append h (noWelcome_broadcast _ _ _ _ rfl))

theorem wspec_processLine (fuel : Nat) (s : ServerState) (cid : Cid) (raw k : String)
    (r : HRes) (hok : processLine fuel s cid raw k = Except.ok r) : WSpec s r := by
  unfold processLine at hok
  split at hok
  · injection hok with hok2
    subst hok2
    exact wspec_of_quiet (fun x => rfl) noWelcome_nil
  · try dsimp only at hok
    split at hok
    · injection hok with hok2
      subst hok2
      exact wspec_of_quiet (fun x => rfl) noWelcome_nil
    · split at hok
      · injection hok with hok2
        subst hok2
        exact wspec_of_quiet (fun x => rfl) (noWelcome_cons rfl noWelcome_nil)
      · rename_i t ht
        cases t
        all_goals simp only [applyTag] at hok
        case connection => cases hok
        case topic =>
          rw [handle_topic_eq] at hok
          cases hok
        case join =>
          have hq := (quietk_join_create fuel).1 _ _ _ _ _ hok
          exact wspec_of_quiet hq.2.1 hq.2.2
        case create =>
          have hq := (quietk_join_create fuel).2 _ _ _ _ _ hok
          exact wspec_of_quiet hq.2.1 hq.2.2
        all_goals (injection hok with hok2; subst hok2)
        case nick => exact wspec_handle_nick _ _ _
        case user => exact wspec_handle_user _ _ _
        case ping =>
          exact wspec_of_quiet (quiet_handle_ping s cid _).2.1 (quiet_handle_ping s cid _).2.2
        case quit =>
          exact wspec_of_quiet (quiet_handle_quit s cid _).2.1 (quiet_handle_quit s cid _).2.2
        case part =>
          exact wspec_of_quiet (quietk_handle_part s cid _).2.1 (quietk_handle_part s cid _).2.2
        case msg =>
          exact wspec_of_quiet (quiet_handle_msg s cid _).2.1 (quiet_handle_msg s cid _).2.2
        case list =>
          exact wspec_of_quiet (quiet_handle_list s cid _).2.1 (quiet_handle_list s cid _).2.2
        case help =>
          exact wspec_of_quiet (quiet_handle_help s cid _).2.1 (quiet_handle_help s cid _).2.2
        case channel =>
          exact wspec_of_quiet (quiet_handle_channel s cid _).2.1 (quiet_handle_channel s cid _).2.2
        case kick =>
          exact wspec_of_quiet (quiet_handle_kick s cid _).2.1 (quiet_handle_kick s cid _).2.2
        case ban =>
          exact wspec_of_quiet (quiet_handle_ban s cid _).2.1 (quiet_handle_ban s cid _).2.2
        case unban =>
          exact wspec_of_quiet (quiet_handle_unban s cid _).2.1 (quiet_handle_unban s cid _).2.2
        case allban =>
          exact wspec_of_quiet (quiet_handle_allban s cid _).2.1 (quiet_handle_allban s cid _).2.2
        case unallban =>
          exact wspec_of_quiet (quiet_handle_unallban s cid _).2.1 (quiet_handle_unallban s cid _).2.2
        case listallban =>
          exact wspec_of_quiet (quiet_handle_listallban s cid _).2.1 (quiet_handle_listallban s cid _).2.2
        case oper =>
          exact wspec_of_quiet (quiet_handle_oper s cid _).2.1 (quiet_handle_oper s cid _).2.2

theorem wspec_stepEvent (s : ServerState) (e : Event) : WSpec s (stepEvent s e) := by
  cases e with
  | accept ip port =>
    have hpres : ∀ x (c0 : Client), getConn s x = some c0 →
        getConn (stepEvent s (Event.accept ip port)).1 x = some c0 := by
      intro x c0 hc0
      show ((s.conns ++ [({ cid := s.nextCid, ip := ip, port := port } : Client)]).find?
        (fun c => c.cid == x)) = some c0
      rw [List.find?_append]
      rw [show s.conns.find? (fun c => c.cid == x) = some c0 from hc0]
      rfl
    refine ⟨fun x n => ?_, fun x n hmem => absurd hmem (List.not_mem_nil _),
      fun x h1 => ?_⟩
    · constructor
      · intro hmem
        exact absurd hmem (List.not_mem_nil _)
      · rintro ⟨h1, h2, h3⟩
        exfalso
        obtain ⟨c0, hc0⟩ : ∃ c0, getConn s x = some c0 := by
          unfold regOf at h1
          cases hgx : getConn s x with
          | none =>
            rw [hgx] at h1
            cases h1
          | some c0 => exact ⟨c0, rfl⟩
        unfold regOf at h1 h2
        rw [hpres x c0 hc0] at h2
        rw [hc0] at h1
        have hq := (Option.some.inj h1).symm.trans (Option.some.inj h2)
        cases hq
    · obtain ⟨c0, hc0⟩ : ∃ c0, getConn s x = some c0 := by
        unfold regOf at h1
        cases hgx : getConn s x with
        | none =>
          rw [hgx] at h1
          cases h1
        | some c0 => exact ⟨c0, rfl⟩
      unfold regOf at h1 ⊢
      rw [hpres x c0 hc0]
      rw [hc0] at h1
      exact h1
  | line cid raw k =>
    unfold stepEvent
    dsimp only
    cases hp : processLine dispatchFuel s cid raw k with
    | ok r =>
      try dsimp only
      exact wspec_processLine _ _ _ _ _ _ hp
    | error f =>
      exact wspec_of_quiet (quiet_disconnect s cid _).2.1 (quiet_disconnect s cid _).2.2
  | eof cid =>
    exact wspec_of_quiet (quiet_disconnect s cid _).2.1 (quiet_disconnect s cid _).2.2

theorem keyStable_processLine (fuel : Nat) (s : ServerState) (cid : Cid)
    (raw k : String) (r : HRes) (hok : processLine fuel s cid raw k = Except.ok r) :
    keyStable s r.1 := by
  unfold processLine at hok
  split at hok
  · injection hok with hok2
    subst hok2
    exact okeyPres_keyStable (okeyPres_refl s)
  · try dsimp only at hok
    split at hok
    · injection hok with hok2
      subst hok2
      exact okeyPres_keyStable (okeyPres_refl s)
    · split at hok
      · injection hok with hok2
        subst hok2
        exact okeyPres_keyStable (okeyPres_refl s)
      · rename_i t ht
        cases t
        all_goals simp only [applyTag] at hok
        case connection => cases hok
        case topic =>
          rw [handle_topic_eq] at hok
          cases hok
        case join => exact ((quietk_join_create fuel).1 _ _ _ _ _ hok).1
        case create => exact ((quietk_join_create fuel).2 _ _ _ _ _ hok).1
        all_goals (injection hok with hok2; subst hok2)
        case nick =>
          exact okeyPres_keyStable (okeyPres_of_channels_eq (handle_nick_channels _ _ _))
        case user =>
          exact okeyPres_keyStable (okeyPres_of_channels_eq (handle_user_channels _ _ _))
        case ping => exact okeyPres_keyStable (quiet_handle_ping s cid _).1
        case quit => exact okeyPres_keyStable (quiet_handle_quit s cid _).1
        case part => exact (quietk_handle_part s cid _).1
        case msg => exact okeyPres_keyStable (quiet_handle_msg s cid _).1
        case list => exact okeyPres_keyStable (quiet_handle_list s cid _).1
        case help => exact okeyPres_keyStable (quiet_handle_help s cid _).1
        case channel => exact okeyPres_keyStable (quiet_handle_channel s cid _).1
        case kick => exact okeyPres_keyStable (quiet_handle_kick s cid _).1
        case ban => exact okeyPres_keyStable (quiet_handle_ban s cid _).1
        case unban => exact okeyPres_keyStable (quiet_handle_unban s cid _).1
        case allban => exact okeyPres_keyStable (quiet_handle_allban s cid _).1
        case unallban => exact okeyPres_keyStable (quiet_handle_unallban s cid _).1
        case listallban => exact okeyPres_keyStable (quiet_handle_listallban s cid _).1
        case oper => exact okeyPres_keyStable (quiet_handle_oper s cid _).1

theorem keyStable_stepEvent (s : ServerState) (e : Event) :
    keyStable s (stepEvent s e).1 := by
  cases e with
  | accept ip port => exact okeyPres_keyStable (okeyPres_of_channels_eq rfl)
  | line cid raw k =>
    unfold stepEvent
    dsimp only
    cases hp : processLine dispatchFuel s cid raw k with
    | ok r =>
      try dsimp only
      exact keyStable_processLine _ _ _ _ _ _ hp
    | error f => exact okeyPres_keyStable (quiet_disconnect s cid _).1
  | eof cid => exact okeyPres_keyStable (quiet_disconnect s cid _).1

/-- A JOIN on an existing channel preserves that channel's ownership key
and owner set, whatever branch it takes. -/
theorem handle_join_existing_oo (fuel : Nat) (s : ServerState) (cid : Cid)
    (name : String) (rest : List String) (k : String) (r : HRes) (ch : Channel)
    (hch : alookup s.channels name = some ch)
    (hj : handle_join (fuel + 1) s cid (name :: rest) k = Except.ok r) :
    (alookup r.1.channels name).map (fun ch => (ch.owner_key, ch.owners)) =
      some (ch.owner_key, ch.owners) := by
  unfold handle_join at hj
  split at hj
  · injection hj with hj2
    subst hj2
    rw [hch]
    rfl
  · rename_i c hg
    try dsimp only at hj
    split at hj
    · injection hj with hj2
      subst hj2
      rw [hch]
      rfl
    · rw [hch] at hj
      try dsimp only at hj
      split at hj
      · injection hj with hj2
        subst hj2
        rw [hch]
        rfl
      · split at hj
        · injection hj with hj2
          subst hj2
          rw [hch]
          rfl
        · have hfin : ∀ (hr : joinFinish s cid c name = r),
              (alookup r.1.channels name).map (fun ch => (ch.owner_key, ch.owners)) =
                some (ch.owner_key, ch.owners) := by
            intro hr
            subst hr
            show (alookup (chanAddClient s name cid).channels name).map _ = _
            rw [chanAddClient_state s name cid ch hch]
            try dsimp only
            rw [alookup_amodify]
            rw [if_pos rfl]
            rw [hch]
            rfl
          split at hj
          · split at hj
            · injection hj with hj2
              subst hj2
              rw [hch]
              rfl
            · injection hj with hj2
              exact hfin hj2
          · injection hj with hj2
            exact hfin hj2

/-- A successful single-argument CREATE leaves the new channel with the
freshly drawn key and an empty owner set. -/
theorem create_sets_key_exists :
    ∀ (fuel : Nat) (s : ServerState) (cid : Cid) (c : Client) (name k : String),
      getConn s cid = some c → alookup s.channels name = none →
      strStarts name "#" = true →
      ∃ r, handle_create (fuel + 2) s cid [name] k = Except.ok r ∧
        (alookup r.1.channels name).map (fun ch => (ch.owner_key, ch.owners)) =
          some (some k, []) := by
  intro fuel s cid c name k hg hlook hstart
  unfold handle_create
  rw [hg]
  try dsimp only
  rw [show (ONLY_ADMIN_CREATE_CHANNEL && !c.is_operator) = false from by
    simp [ONLY_ADMIN_CREATE_CHANNEL]]
  rw [if_neg (show ¬ ((false : Bool) = true) from by decide)]
  rw [hstart]
  rw [if_neg (show ¬ (((!true) : Bool) = true) from by decide)]
  rw [hlook]
  rw [if_neg (show ¬ ((none : Option Channel).isSome = true) from by decide)]
  rw [show (if truthy? (List.head? ([] : List String)) = true
      then List.head? ([] : List String) else (none : Option String)) = none from by decide]
  rw [show (if truthy? (List.head? ([] : List String)) = true
      then [name, (List.head? ([] : List String)).getD ""] else [name]) = [name] from rfl]
  have hch1 : alookup ({ s with channels := s.channels ++
      [(name, ({ name := name, owner_key := some k } : Channel))] } :
      ServerState).channels name =
      some ({ name := name, owner_key := some k } : Channel) := by
    show alookup (s.channels ++ [(name, ({ name := name, owner_key := some k } : Channel))])
      name = some ({ name := name, owner_key := some k } : Channel)
    rw [alookup_append, hlook]
    show alookup [(name, ({ name := name, owner_key := some k } : Channel))] name =
      some ({ name := name, owner_key := some k } : Channel)
    unfold alookup
    rw [if_pos rfl]
  cases hj : handle_join (fuel + 1)
      { s with channels := s.channels ++
        [(name, ({ name := name, owner_key := some k } : Channel))] }
      cid [name] k with
  | error f =>
    exfalso
    obtain ⟨r0, hr0⟩ := handle_join_existing_isOk fuel
      { s with channels := s.channels ++
        [(name, ({ name := name, owner_key := some k } : Channel))] }
      cid name [] k _ hch1
    rw [hr0] at hj
    cases hj
  | ok rj =>
    refine ⟨_, rfl, ?_⟩
    show (alookup rj.1.channels name).map _ = _
    rw [handle_join_existing_oo fuel _ cid name [] k rj _ hch1 hj]

/-- C7: CHANNEL grants ownership iff the presented key equals the token
generated at creation.  (a) on a key match the presenter is added to the
owner set and told so; (b) any other key is refused with no state change;
(c) a successful CREATE stores the fresh key on the channel with an empty
owner set; (d) no observable event ever changes an existing channel's
key, so the key to match is always the creation token; (e) a fresh
session is in no owner set (ownership does not survive reconnect), and
(f) an accepted connection is exactly such a fresh session object. -/
theorem claim_c7_ownership_key :
    (∀ (s : ServerState) (cid : Cid) (c : Client) (name key : String)
        (rest : List String) (ch : Channel),
      getConn s cid = some c → alookup s.channels name = some ch →
      ch.owner_key = some key →
      handle_channel s cid (name :: key :: rest) =
        ({ s with channels := amodify s.channels name (fun ch => { ch with owners := setAdd cid ch.owners }) },
         [(cid, Msg.nowOwner (showNick c) name)]) ∧
      (alookup (amodify s.channels name (fun ch => { ch with owners := setAdd cid ch.owners })) name).map Channel.owners =
        some (setAdd cid ch.owners) ∧
      cid ∈ setAdd cid ch.owners) ∧
    (∀ (s : ServerState) (cid : Cid) (c : Client) (name key : String)
        (rest : List String) (ch : Channel),
      getConn s cid = some c → alookup s.channels name = some ch →
      ¬ ch.owner_key = some key →
      handle_channel s cid (name :: key :: rest) =
        (s, [(cid, Msg.incorrectOwnershipKey (showNick c) name)])) ∧
    (∀ (fuel : Nat) (s : ServerState) (cid : Cid) (c : Client) (name k : String)
        (r : HRes),
      getConn s cid = some c → alookup s.channels name = none →
      strStarts name "#" = true →
      handle_create (fuel + 2) s cid [name] k = Except.ok r →
      (alookup r.1.channels name).map (fun ch => (ch.owner_key, ch.owners)) =
        some (some k, [])) ∧
    (∀ (s : ServerState) (e : Event), keyStable s (stepEvent s e).1) ∧
    (∀ (s : ServerState) (ip : String) (port : Nat) (n : String) (ch : Channel),
      Inv s → alookup (acceptConn s ip port).1.channels n = some ch →
      ¬ s.nextCid ∈ ch.owners) ∧
    (∀ (s : ServerState) (ip : String) (port : Nat),
      Inv s → getConn (acceptConn s ip port).1 s.nextCid =
        some { cid := s.nextCid, ip := ip, port := port }) := by
  refine ⟨?_, ?_, ?_, ?_, ?_, ?_⟩
  · intro s cid c name key rest ch hg hch hk
    refine ⟨?_, ?_, mem_setAdd.mpr (Or.inl rfl)⟩
    · unfold handle_channel
      rw [hg]
      try dsimp only
      rw [hch]
      try dsimp only
      have hkb : (ch.owner_key == some key) = true := by
        rw [hk]
        simp
      rw [if_pos hkb]
    · rw [alookup_amodify]
      rw [if_pos rfl]
      rw [hch]
      rfl
  · intro s cid c name key rest ch hg hch hk
    unfold handle_channel
    rw [hg]
    try dsimp only
    rw [hch]
    try dsimp only
    have hkb : ¬ ((ch.owner_key == some key) = true) := by
      simpa using hk
    rw [if_neg hkb]
  · intro fuel s cid c name k r hg hlook hstart hcr
    obtain ⟨r', hr', hoo⟩ := create_sets_key_exists fuel s cid c name k hg hlook hstart
    rw [hcr] at hr'
    injection hr' with hr2
    rw [← hr2] at hoo
    exact hoo
  · exact keyStable_stepEvent
  · intro s ip port n ch hinv hch hmem
    have hch' : alookup s.channels n = some ch := hch
    exact absurd (hinv.2.2.2.2.2.2.1 (n, ch) (mem_of_alookup_eq_some hch')
      s.nextCid hmem) (Nat.lt_irrefl _)
  · intro s ip port hinv
    show ((s.conns ++ [({ cid := s.nextCid, ip := ip, port := port } : Client)]).find?
      (fun c => c.cid == s.nextCid)) = _
    rw [List.find?_append]
    have hnone : s.conns.find? (fun c => c.cid == s.nextCid) = none := by
      rw [List.find?_eq_none]
      intro c hc
      simp only [beq_iff_eq]
      exact Nat.ne_of_lt (hinv.1 c hc)
    rw [hnone]
    rw [List.find?_cons_of_pos _ (by simp)]
    rfl

/-- The state right after a successful CREATE of #room by the registered
session of `regTrace` (ownership key KEY0). -/
def c7After : ServerState :=
  (stepEvent (runEvents initServer regTrace) (Event.line 0 "CREATE #room" "KEY0")).1

/-- Channel #room in `c7After`. -/
def c7Chan : Channel :=
  { name := "#room", clients := [0], topic := none, password := none,
    owner_key := some "KEY0", owners := [], banned_ips := [] }

/-- Session 0 in `c7After`. -/
def c7Client : Client :=
  { cid := 0, ip := "1.1.1.1", port := 1, nickname := some "a", username := some "u",
    realname := some "r", is_operator := false, is_registered := true,
    channels := ["#room"] }

/-- Witness for C7 on the concrete CREATE of #room: presenting KEY0
grants ownership, presenting WRONG is refused with no change, the
creation stored key KEY0 with no owners, a PING step keeps the key, and
after a fresh accept the new session (cid 1) exists and owns nothing. -/
theorem claim_c7_witness :
    (handle_channel c7After 0 ["#room", "KEY0"] =
      ({ c7After with channels := amodify c7After.channels "#room" (fun ch => { ch with owners := setAdd 0 ch.owners }) },
       [(0, Msg.nowOwner (showNick c7Client) "#room")]) ∧
     (alookup (amodify c7After.channels "#room" (fun ch => { ch with owners := setAdd 0 ch.owners })) "#room").map Channel.owners =
       some (setAdd 0 c7Chan.owners) ∧
     0 ∈ setAdd 0 c7Chan.owners) ∧
    (handle_channel c7After 0 ["#room", "WRONG"] =
      (c7After, [(0, Msg.incorrectOwnershipKey (showNick c7Client) "#room")])) ∧
    ((alookup (stepEvent (runEvents initServer regTrace)
        (Event.line 0 "CREATE #room" "KEY0")).1.channels "#room").map
      (fun ch => (ch.owner_key, ch.owners)) = some (some "KEY0", [])) ∧
    (c7Chan.owner_key = c7Chan.owner_key) ∧
    (¬ c7After.nextCid ∈ c7Chan.owners) ∧
    (getConn (acceptConn c7After "7.7.7.7" 9).1 c7After.nextCid =
      some { cid := c7After.nextCid, ip := "7.7.7.7", port := 9 }) := by
  refine ⟨?_, ?_, ?_, ?_, ?_, ?_⟩
  · exact claim_c7_ownership_key.1 c7After 0 c7Client "#room" "KEY0" [] c7Chan
      (by decide) (by decide) (by decide)
  · exact claim_c7_ownership_key.2.1 c7After 0 c7Client "#room" "WRONG" [] c7Chan
      (by decide) (by decide) (by decide)
  · exact claim_c7_ownership_key.2.2.1 1 (runEvents initServer regTrace) 0
      { cid := 0, ip := "1.1.1.1", port := 1, nickname := some "a",
        username := some "u", realname := some "r", is_operator := false,
        is_registered := true, channels := [] }
      "#room" "KEY0"
      ((stepEvent (runEvents initServer regTrace) (Event.line 0 "CREATE #room" "KEY0")).1,
       (stepEvent (runEvents initServer regTrace) (Event.line 0 "CREATE #room" "KEY0")).2)
      (by decide) (by decide) (by decide) (by rfl)
  · exact claim_c7_ownership_key.2.2.2.1 c7After (Event.line 0 "PING a" "K")
      "#room" c7Chan c7Chan (by decide) (by decide)
  · exact claim_c7_ownership_key.2.2.2.2.1 c7After "7.7.7.7" 9 "#room" c7Chan
      (by decide) (by decide)
  · exact claim_c7_ownership_key.2.2.2.2.2 c7After "7.7.7.7" 9 (by decide)

/-- _check_registration is a no-op when the session has no username. -/
theorem check_reg_no_username (s : ServerState) (cid : Cid) (c : Client)
    (hg : getConn s cid = some c) (hu : c.username = none) :
    check_registration s cid = (s, []) := by
  unfold check_registration
  rw [hg]
  try dsimp only
  rw [show (!c.is_registered && truthy? c.nickname && truthy? c.username) = false from by
    rw [hu]
    simp [truthy?]]
  rw [if_neg (show ¬ ((false : Bool) = true) from by decide)]

/-- After the nickname write of handle_nick, a session without a username
stays unregistered. -/
theorem nick_tail_unreg (s' : ServerState) (cid : Cid) (c : Client) (newNick : String)
    (hg' : getConn s' cid = some c) (hu : c.username = none)
    (hreg : c.is_registered = false) :
    regOf (check_registration (updConn s' cid
      (fun c => { c with nickname := some newNick })) cid).1 cid = some false := by
  have hcid : c.cid = cid := getConn_cid hg'
  have hg3 : getConn (updConn s' cid (fun c => { c with nickname := some newNick })) cid =
      some { c with nickname := some newNick } := by
    rw [getConn_updConn s' cid (fun c => { c with nickname := some newNick })
      (fun c => rfl) cid, hg']
    show some (if c.cid = cid then _ else c) = _
    rw [if_pos hcid]
  rw [check_reg_no_username _ cid { c with nickname := some newNick } hg3 hu]
  simp [regOf, hg3, hreg]

/-- handle_user on a registered session with enough arguments replies 462
and changes nothing. -/
theorem handle_user_rereg (s : ServerState) (cid : Cid) (c : Client)
    (args : List String) (hg : getConn s cid = some c)
    (hreg : c.is_registered = true) (hlen : ¬ args.length < 4) :
    handle_user s cid args = (s, [(cid, Msg.mayNotReregister (nickOrStar c))]) := by
  unfold handle_user
  rw [hg]
  try dsimp only
  rw [if_neg hlen]
  rw [if_pos hreg]

/-- C6: the registration lifecycle.  (a) NICK alone (no username yet)
leaves the session unregistered; (b) registration never reverts over any
observable event; (c) a welcome carrying nickname n goes to x on an
event exactly when x's session crossed from unregistered to registered
in that step and now holds nickname n — since registration is monotone,
the crossing happens at most once per connection, so the welcome fires
exactly once, at the instant nickname and username are both present;
(d) every welcome is paired with the 002 your-host line of the same
two-message sequence; (e) USER after registration is refused with 462
and the state (username and registration included) is unchanged. -/
theorem claim_c6_registration_lifecycle :
    (∀ (s : ServerState) (cid : Cid) (c : Client) (args : List String),
      getConn s cid = some c → c.username = none → c.is_registered = false →
      regOf (handle_nick s cid args).1 cid = some false) ∧
    (∀ (s : ServerState) (e : Event) (x : Cid),
      regOf s x = some true → regOf (stepEvent s e).1 x = some true) ∧
    (∀ (s : ServerState) (e : Event) (x : Cid) (n : String),
      ((x, Msg.welcome n) ∈ (stepEvent s e).2 ↔
        (regOf s x = some false ∧ regOf (stepEvent s e).1 x = some true ∧
          nickOf (stepEvent s e).1 x = some (some n)))) ∧
    (∀ (s : ServerState) (e : Event) (x : Cid) (n : String),
      (x, Msg.welcome n) ∈ (stepEvent s e).2 →
        (x, Msg.yourHost n) ∈ (stepEvent s e).2) ∧
    (∀ (s : ServerState) (cid : Cid) (c : Client) (args : List String),
      getConn s cid = some c → c.is_registered = true → ¬ args.length < 4 →
      handle_user s cid args = (s, [(cid, Msg.mayNotReregister (nickOrStar c))])) := by
  refine ⟨?_, ?_, ?_, ?_, ?_⟩
  · intro s cid c args hg hu hreg
    unfold handle_nick
    rw [hg]
    try dsimp only
    cases args with
    | nil => simp [regOf, hg, hreg]
    | cons newNick rest =>
      try dsimp only
      split
      · simp [regOf, hg, hreg]
      · split
        · exact nick_tail_unreg _ cid c newNick hg hu hreg
        · exact nick_tail_unreg _ cid c newNick hg hu hreg
  · intro s e x h1
    exact (wspec_stepEvent s e).2.2 x h1
  · intro s e x n
    exact (wspec_stepEvent s e).1 x n
  · intro s e x n hmem
    exact (wspec_stepEvent s e).2.1 x n hmem
  · intro s cid c args hg hreg hlen
    exact handle_user_rereg s cid c args hg hreg hlen

/-- The state after one accepted connection. -/
def c6Accept : ServerState := runEvents initServer [Event.accept "1.1.1.1" 1]

/-- The state after accept and NICK a (still unregistered). -/
def c6Nicked : ServerState :=
  runEvents initServer [Event.accept "1.1.1.1" 1, Event.line 0 "NICK a" "K"]

/-- Witness for C6: NICK a alone leaves session 0 unregistered; a PING
keeps the fully registered session of regTrace registered; the USER line
completing registration emits the welcome for exactly the crossing
session, paired with 002; and a second USER is refused with 462. -/
theorem claim_c6_witness :
    (regOf (handle_nick c6Accept 0 ["a"]).1 0 = some false) ∧
    (regOf (stepEvent (runEvents initServer regTrace) (Event.line 0 "PING a" "K")).1 0 =
      some true) ∧
    ((0, Msg.welcome "a") ∈ (stepEvent c6Nicked (Event.line 0 "USER u h s r" "K")).2 ↔
      (regOf c6Nicked 0 = some false ∧
        regOf (stepEvent c6Nicked (Event.line 0 "USER u h s r" "K")).1 0 = some true ∧
        nickOf (stepEvent c6Nicked (Event.line 0 "USER u h s r" "K")).1 0 =
          some (some "a"))) ∧
    ((0, Msg.welcome "a") ∈ (stepEvent c6Nicked (Event.line 0 "USER u h s r" "K")).2 →
      (0, Msg.yourHost "a") ∈ (stepEvent c6Nicked (Event.line 0 "USER u h s r" "K")).2) ∧
    (handle_user (runEvents initServer regTrace) 0 ["u2", "h", "s", "r2"] =
      (runEvents initServer regTrace,
       [(0, Msg.mayNotReregister (nickOrStar
        { cid := 0, ip := "1.1.1.1", port := 1, nickname := some "a",
          username := some "u", realname := some "r", is_operator := false,
          is_registered := true, channels := [] }))])) := by
  refine ⟨?_, ?_, ?_, ?_, ?_⟩
  · exact claim_c6_registration_lifecycle.1 c6Accept 0
      { cid := 0, ip := "1.1.1.1", port := 1 } ["a"]
      (by decide) (by decide) (by decide)
  · exact claim_c6_registration_lifecycle.2.1 (runEvents initServer regTrace)
      (Event.line 0 "PING a" "K") 0 (by decide)
  · exact claim_c6_registration_lifecycle.2.2.1 c6Nicked
      (Event.line 0 "USER u h s r" "K") 0 "a"
  · exact claim_c6_registration_lifecycle.2.2.2.1 c6Nicked
      (Event.line 0 "USER u h s r" "K") 0 "a"
  · exact claim_c6_registration_lifecycle.2.2.2.2 (runEvents initServer regTrace) 0
      { cid := 0, ip := "1.1.1.1", port := 1, nickname := some "a",
        username := some "u", realname := some "r", is_operator := false,
        is_registered := true, channels := [] }
      ["u2", "h", "s", "r2"] (by decide) (by decide) (by decide)

end IRCServer
